import Mathlib

/-!
# Verification of the Notepad2 incremental lexing core

Shallow embedding of the per-language Colourizers and Folders of the
repository (Asymptote, PowerShell, VHDL, Dart, F#, CMake) together with
proofs about the claims of the specification.

Conventions of the embedding:

* A document is a `List Char`; out-of-range accesses return the NUL
  sentinel, matching the cursor contract ("returning a sentinel for
  out-of-range").
* Machine integers that the C code only uses as small non-negative
  quantities are `Nat`; counters that the C code can drive below zero
  (comment nesting, escape digit counters) are `Int`.
* Style output is modelled both as one style byte per position (the
  form persisted by the host) and as the emitted list of runs
  `(start, stop, style)`; a run is emitted exactly when the flushed
  range is non-empty, mirroring `LexAccessor::ColourTo`.
* The cursor (`StyleContext`), the character classifiers
  (`CharacterSet.h`) and the small lexer utilities are code of the
  repository that is not under `src/`; they are modelled from the
  spec (§2 Character Classifier, §4.1 Style Context / Cursor) and
  marked `Modelled from the spec:` below.
-/

set_option maxHeartbeats 1000000
set_option maxRecDepth 8192

/-- The NUL sentinel character returned for out-of-range accesses. -/
def NUL : Char := Char.ofNat 0

/-- A document: the character buffer being lexed. -/
abbrev Doc := List Char

/-- Character of the document at a position, NUL when out of range. -/
def charAt (doc : Doc) (i : Nat) : Char := doc.getD i NUL

/-- Character before a position, NUL at the start of the document. -/
def charBefore (doc : Doc) (i : Nat) : Char :=
  if i = 0 then NUL else charAt doc (i - 1)

/-- Modelled from the spec: the space-equivalent character predicate of the
Character Classifier (`isspacechar`): space or the ASCII control range
TAB..CR. -/
def isspacechar (c : Char) : Bool := c = ' ' || (9 ≤ c.toNat && c.toNat ≤ 13)

/-- Modelled from the spec: space or tab. -/
def IsASpaceOrTab (c : Char) : Bool := c = ' ' || c = '\t'

/-- Modelled from the spec: end-of-line characters are CR and LF. -/
def IsEOLChar (c : Char) : Bool := c = '\r' || c = '\n'

/-- Modelled from the spec: decimal digit. -/
def IsADigit (c : Char) : Bool := '0' ≤ c && c ≤ '9'

/-- Modelled from the spec: digit in a given numeric base (bases up to 10
use `'0' ≤ c < '0'+base`; larger bases add the letter ranges). -/
def IsADigitB (c : Char) (base : Nat) : Bool :=
  if base ≤ 10 then
    '0'.toNat ≤ c.toNat && c.toNat < '0'.toNat + base
  else
    IsADigit c
    || ('a'.toNat ≤ c.toNat && c.toNat < 'a'.toNat + (base - 10))
    || ('A'.toNat ≤ c.toNat && c.toNat < 'A'.toNat + (base - 10))

/-- Modelled from the spec: hexadecimal digit. -/
def IsHexDigit (c : Char) : Bool :=
  IsADigit c || ('a' ≤ c && c ≤ 'f') || ('A' ≤ c && c ≤ 'F')

/-- Modelled from the spec: octal digit. -/
def IsOctalDigit (c : Char) : Bool := '0' ≤ c && c ≤ '7'

/-- Modelled from the spec: ASCII upper-case letter. -/
def IsUpperCase (c : Char) : Bool := 'A' ≤ c && c ≤ 'Z'

/-- Modelled from the spec: ASCII lower-case letter. -/
def IsLowerCase (c : Char) : Bool := 'a' ≤ c && c ≤ 'z'

/-- Modelled from the spec: ASCII letter. -/
def IsAlpha (c : Char) : Bool := IsUpperCase c || IsLowerCase c

/-- Modelled from the spec: ASCII letter or digit. -/
def IsAlphaNumeric (c : Char) : Bool := IsAlpha c || IsADigit c

/-- Modelled from the spec: identifier start = letter or underscore. -/
def IsIdentifierStart (c : Char) : Bool := IsAlpha c || c = '_'

/-- Modelled from the spec: identifier character = letter, digit or
underscore. -/
def IsIdentifierChar (c : Char) : Bool := IsAlphaNumeric c || c = '_'

/-- Modelled from the spec: identifier start extended to non-ASCII. -/
def IsIdentifierStartEx (c : Char) : Bool := IsIdentifierStart c || 0x80 ≤ c.toNat

/-- Modelled from the spec: identifier character extended to non-ASCII. -/
def IsIdentifierCharEx (c : Char) : Bool := IsIdentifierChar c || 0x80 ≤ c.toNat

/-- Modelled from the spec: printable non-space ASCII. -/
def IsAGraphic (c : Char) : Bool := 32 < c.toNat && c.toNat < 127

/-- Modelled from the spec: Scintilla word character (letters, digits,
dot, underscore). -/
def iswordchar (c : Char) : Bool := IsAlphaNumeric c || c = '.' || c = '_'

/-- Modelled from the spec: Scintilla word start (letters, digits,
underscore). -/
def iswordstart (c : Char) : Bool := IsAlphaNumeric c || c = '_'

/-- Modelled from the spec: Scintilla operator characters. -/
def isoperator (c : Char) : Bool :=
  c = '%' || c = '^' || c = '&' || c = '*' || c = '(' || c = ')' ||
  c = '-' || c = '+' || c = '=' || c = '|' || c = '{' || c = '}' ||
  c = '[' || c = ']' || c = ':' || c = ';' || c = '<' || c = '>' ||
  c = ',' || c = '/' || c = '?' || c = '!' || c = '.' || c = '~'

/-- Modelled from the spec: lower-case an ASCII letter. -/
def MakeLowerCase (c : Char) : Char :=
  if IsUpperCase c then Char.ofNat (c.toNat + 32) else c

/-- Modelled from the spec: a number token can start at a digit, or at a
dot followed by a digit. -/
def IsNumberStart (ch chNext : Char) : Bool :=
  IsADigit ch || (ch = '.' && IsADigit chNext)

/-- Modelled from the spec: decimal or hexadecimal digit depending on a
hex flag. -/
def IsDecimalOrHex (c : Char) (hex : Bool) : Bool :=
  if hex then IsHexDigit c else IsADigit c

/-- The position `i` holds the last character of a line break: an LF, or
a CR not followed by LF. -/
def isLineBreak (doc : Doc) (i : Nat) : Bool :=
  charAt doc i = '\n' || (charAt doc i = '\r' && charAt doc (i + 1) ≠ '\n')

/-- Modelled from the spec (§4.1): the position `i` is the last position
of its line: a line break character, or at/past the last position of the
document (the cursor keeps reporting end-of-line once past the end). -/
def atLineEnd (doc : Doc) (i : Nat) : Bool :=
  isLineBreak doc i || doc.length ≤ i + 1

/-- Modelled from the spec (§4.1): the position `i` is the first position
of its line. -/
def atLineStart (doc : Doc) (i : Nat) : Bool :=
  i = 0 || isLineBreak doc (i - 1)

/-- Line number (0-based) of a position: the number of line breaks
strictly before it. -/
def lineOf (doc : Doc) (i : Nat) : Nat :=
  (List.range i).countP (fun j => isLineBreak doc j)

/-- Modelled from the spec (§4.1): the next non-space character of the
document at or after a position (`StyleContext::GetDocNextChar`), NUL if
no such character exists. -/
def getDocNextChar (doc : Doc) (i : Nat) : Char :=
  (((doc.drop i).filter (fun c => !isspacechar c)).headD NUL)

/-- Modelled from the spec (§4.1): the next non-space character on the
current line at or after a position (`StyleContext::GetLineNextChar`),
NUL if the line ends first. -/
def getLineNextChar (doc : Doc) (i : Nat) : Char :=
  ((((doc.drop i).takeWhile (fun c => !IsEOLChar c)).filter
      (fun c => !IsASpaceOrTab c)).headD NUL)

/-! ## The Style Context / Cursor

Modelled from the spec (§4.1): a forward-only cursor committing style
runs.  `tstart` is the start of the current (not yet committed) run;
`styles` holds one committed style per position from the start of the
slice; `runs` is the list of emitted `(start, stop, style)` runs — a run
is emitted only when non-empty, mirroring `LexAccessor::ColourTo`. -/

structure Sc where
  pos : Nat
  state : Nat
  tstart : Nat
  styles : List Nat
  runs : List (Nat × Nat × Nat)
  deriving Repr, DecidableEq

/-- Commit the current run `[tstart, min pos endPos)` with the current
state and begin a new run at the cursor. -/
def scFlush (endPos : Nat) (sc : Sc) : Sc :=
  let stop := min sc.pos endPos
  { sc with
    styles := sc.styles ++ List.replicate (stop - sc.tstart) sc.state
    runs := if sc.tstart < stop then sc.runs ++ [(sc.tstart, stop, sc.state)] else sc.runs
    tstart := sc.pos }

/-- `StyleContext::SetState`: flush the current run, start a new one in
the given state. -/
def scSetState (endPos new : Nat) (sc : Sc) : Sc :=
  { scFlush endPos sc with state := new }

/-- `StyleContext::ChangeState`: retroactively relabel the current
in-progress run. -/
def scChangeState (new : Nat) (sc : Sc) : Sc := { sc with state := new }

/-- `StyleContext::Forward`. -/
def scForward (sc : Sc) : Sc := { sc with pos := sc.pos + 1 }

/-- `StyleContext::Forward(n)` / `Advance(n)`. -/
def scAdvance (n : Nat) (sc : Sc) : Sc := { sc with pos := sc.pos + n }

/-- `StyleContext::ForwardSetState`. -/
def scForwardSetState (endPos new : Nat) (sc : Sc) : Sc :=
  scSetState endPos new (scForward sc)

/-- `StyleContext::Complete`: flush the pending run at the end of the
pass. -/
def scComplete (endPos : Nat) (sc : Sc) : Sc := scFlush endPos sc

/-- The accumulated text of the current token (`GetCurrent`), truncated
to the bounded local buffer size used by the lexers (127 characters). -/
def scCurrent (doc : Doc) (sc : Sc) : String :=
  String.mk (((doc.drop sc.tstart).take (sc.pos - sc.tstart)).take 127)

/-- `GetCurrentLowered`. -/
def scCurrentLowered (doc : Doc) (sc : Sc) : String :=
  String.mk ((((doc.drop sc.tstart).take (sc.pos - sc.tstart)).take 127).map MakeLowerCase)

/-- `StyleContext::Match(a, b)`. -/
def scMatch2 (doc : Doc) (i : Nat) (a b : Char) : Bool :=
  charAt doc i = a && charAt doc (i + 1) = b

/-- A word list: membership of the token text (`WordList::InList`). -/
def inList (kw : List String) (s : String) : Bool := kw.contains s

/-! ## The Asymptote Colourizer (`ColouriseAsyDoc`)

Style codes: modelled from the spec (the repo's `SciLexer.h` is not under
`src/`); the values are chosen to satisfy every ordering the lexer code
relies on (`IsSpaceEquiv` = `state <= SCE_ASY_TASKMARKER`). -/

def SCE_ASY_DEFAULT : Nat := 0
def SCE_ASY_COMMENTLINE : Nat := 1
def SCE_ASY_COMMENTBLOCK : Nat := 2
def SCE_ASY_TASKMARKER : Nat := 3
def SCE_ASY_STRING_DQ : Nat := 4
def SCE_ASY_STRING_SQ : Nat := 5
def SCE_ASY_ESCAPECHAR : Nat := 6
def SCE_ASY_NUMBER : Nat := 7
def SCE_ASY_OPERATOR : Nat := 8
def SCE_ASY_IDENTIFIER : Nat := 9
def SCE_ASY_WORD : Nat := 10
def SCE_ASY_TYPE : Nat := 11
def SCE_ASY_STRUCT : Nat := 12
def SCE_ASY_CONSTANT : Nat := 13
def SCE_ASY_FUNCTION : Nat := 14
def SCE_ASY_FUNCTION_DEFINITION : Nat := 15

def AsymptoteLineStateMaskLineComment : Nat := 1
def AsymptoteLineStateMaskImport : Nat := 2

/-- `KeywordType::None` of the Asymptote lexer. -/
def KwAsyNone : Nat := SCE_ASY_DEFAULT
/-- `KeywordType::Struct` of the Asymptote lexer. -/
def KwAsyStruct : Nat := SCE_ASY_STRUCT
/-- `KeywordType::Return` of the Asymptote lexer. -/
def KwAsyReturn : Nat := 0x40

/-- `IsSpaceEquiv` of the Asymptote lexer. -/
def AsyIsSpaceEquiv (state : Nat) : Bool := state ≤ SCE_ASY_TASKMARKER

/-- The `EscapeSequence` record of the Asymptote lexer. -/
structure AsyEscSeq where
  outerState : Nat
  digitsLeft : Int
  numBase : Nat
  deriving Repr, DecidableEq

/-- `EscapeSequence::resetEscapeState(state, chNext)` of the Asymptote
lexer: refuses to start an escape before an end-of-line character,
otherwise records the outer state and the digit budget (3 octal digits,
3 characters for `\x`, 1 otherwise). -/
def asyResetEscapeState (esc : AsyEscSeq) (state : Nat) (chNext : Char) :
    AsyEscSeq × Bool :=
  if IsEOLChar chNext then (esc, false)
  else
    let esc := { esc with outerState := state, digitsLeft := 1 }
    let esc :=
      if IsOctalDigit chNext then { esc with digitsLeft := 3, numBase := 8 }
      else if chNext = 'x' || chNext = 'X' then { esc with digitsLeft := 3, numBase := 16 }
      else esc
    (esc, true)

/-- `EscapeSequence::atEscapeEnd(ch)` of the Asymptote lexer: decrement
the remaining digit counter, then report completion when it is exhausted
or `ch` is not a digit of the active base. -/
def asyAtEscapeEnd (esc : AsyEscSeq) (ch : Char) : AsyEscSeq × Bool :=
  let esc2 := { esc with digitsLeft := esc.digitsLeft - 1 }
  (esc2, decide (esc2.digitsLeft ≤ 0) || !IsADigitB ch esc2.numBase)

/-- The four word lists of the Asymptote lexer (keywords, types,
structs, constants). -/
structure AsyKeywords where
  kw0 : List String
  kw1 : List String
  kw2 : List String
  kw3 : List String

/-- The transient per-pass state of `ColouriseAsyDoc`. -/
structure AsyState where
  sc : Sc
  lineStateLineType : Nat
  kwType : Nat
  visibleChars : Nat
  chBefore : Char
  chPrevNonWhite : Char
  esc : AsyEscSeq
  lineStates : List (Nat × Nat)
  deriving Repr, DecidableEq

/-- The identifier-classification block of `ColouriseAsyDoc` (the body
of `case SCE_ASY_IDENTIFIER`): given the token text, the terminating
character, the next non-space document character, the character before
the identifier and the pending keyword type, produce the token's final
style, the pending keyword type after the block (including the
`sc.state != SCE_ASY_WORD` reset) and the line-state type. -/
def asyClassifyRaw (kw : AsyKeywords) (s : String) (termCh chNextDoc chBefore : Char)
    (matchBracket : Bool) (kwType lineType : Nat) : Nat × Nat × Nat :=
  if inList kw.kw0 s then
    if s = "import" || s = "include" then
      (SCE_ASY_WORD, kwType, AsymptoteLineStateMaskImport)
    else if s = "new" || s = "struct" then (SCE_ASY_WORD, KwAsyStruct, lineType)
    else if s = "return" then (SCE_ASY_WORD, KwAsyReturn, lineType)
    else (SCE_ASY_WORD, kwType, lineType)
  else if inList kw.kw1 s then (SCE_ASY_TYPE, kwType, lineType)
  else if kwType = KwAsyStruct || inList kw.kw2 s then (SCE_ASY_STRUCT, kwType, lineType)
  else if inList kw.kw3 s then (SCE_ASY_CONSTANT, kwType, lineType)
  else if termCh ≠ '.' then
    if chNextDoc = '(' then
      if kwType ≠ KwAsyReturn && (IsIdentifierChar chBefore || chBefore = ']') then
        (SCE_ASY_FUNCTION_DEFINITION, kwType, lineType)
      else
        (SCE_ASY_FUNCTION, kwType, lineType)
    else if matchBracket || IsIdentifierStart chNextDoc then
      (SCE_ASY_STRUCT, kwType, lineType)
    else (SCE_ASY_IDENTIFIER, kwType, lineType)
  else (SCE_ASY_IDENTIFIER, kwType, lineType)

/-- The identifier-classification block of `ColouriseAsyDoc` including
the trailing `if (sc.state != SCE_ASY_WORD) kwType = None` reset. -/
def asyClassify (kw : AsyKeywords) (s : String) (termCh chNextDoc chBefore : Char)
    (matchBracket : Bool) (kwType lineType : Nat) : Nat × Nat × Nat :=
  let res := asyClassifyRaw kw s termCh chNextDoc chBefore matchBracket kwType lineType
  (res.1, if res.1 ≠ SCE_ASY_WORD then KwAsyNone else res.2.1, res.2.2)

/-- `case SCE_ASY_OPERATOR` of the `ColouriseAsyDoc` switch. -/
def asyCaseOperator (e : Nat) (s : AsyState) : AsyState :=
  { s with sc := scSetState e SCE_ASY_DEFAULT s.sc }

/-- `case SCE_ASY_NUMBER` of the `ColouriseAsyDoc` switch. -/
def asyCaseNumber (doc : Doc) (e : Nat) (s : AsyState) : AsyState :=
  if !(IsADigit (charAt doc s.sc.pos)
      || (charAt doc s.sc.pos = '.' && IsADigit (charAt doc (s.sc.pos + 1)))) then
    { s with sc := scSetState e SCE_ASY_DEFAULT s.sc }
  else s

/-- `case SCE_ASY_IDENTIFIER` of the `ColouriseAsyDoc` switch. -/
def asyCaseIdentifier (kw : AsyKeywords) (doc : Doc) (e : Nat) (s : AsyState) : AsyState :=
  if !IsIdentifierChar (charAt doc s.sc.pos) then
    let res := asyClassify kw (scCurrent doc s.sc) (charAt doc s.sc.pos)
      (getDocNextChar doc s.sc.pos) s.chBefore (scMatch2 doc s.sc.pos '[' ']')
      s.kwType s.lineStateLineType
    { s with sc := scSetState e SCE_ASY_DEFAULT (scChangeState res.1 s.sc),
             kwType := res.2.1, lineStateLineType := res.2.2 }
  else s

/-- `case SCE_ASY_COMMENTLINE` of the `ColouriseAsyDoc` switch. -/
def asyCaseCommentLine (doc : Doc) (e : Nat) (s : AsyState) : AsyState :=
  if atLineStart doc s.sc.pos then { s with sc := scSetState e SCE_ASY_DEFAULT s.sc } else s

/-- `case SCE_ASY_COMMENTBLOCK` of the `ColouriseAsyDoc` switch. -/
def asyCaseCommentBlock (doc : Doc) (e : Nat) (s : AsyState) : AsyState :=
  if scMatch2 doc s.sc.pos '*' '/' then
    { s with sc := scForwardSetState e SCE_ASY_DEFAULT (scForward s.sc) }
  else s

/-- `case SCE_ASY_STRING_DQ` of the `ColouriseAsyDoc` switch. -/
def asyCaseStringDQ (doc : Doc) (e : Nat) (s : AsyState) : AsyState :=
  if charAt doc s.sc.pos = '\\' then
    if charAt doc (s.sc.pos + 1) = '\\' || charAt doc (s.sc.pos + 1) = '\"' then
      { s with esc := { s.esc with outerState := SCE_ASY_STRING_DQ, digitsLeft := 1 },
               sc := scForward (scSetState e SCE_ASY_ESCAPECHAR s.sc) }
    else s
  else if charAt doc s.sc.pos = '\"' then
    { s with sc := scForwardSetState e SCE_ASY_DEFAULT s.sc }
  else s

/-- `case SCE_ASY_STRING_SQ` of the `ColouriseAsyDoc` switch. -/
def asyCaseStringSQ (doc : Doc) (e : Nat) (s : AsyState) : AsyState :=
  if charAt doc s.sc.pos = '\\' then
    let res := asyResetEscapeState s.esc s.sc.state (charAt doc (s.sc.pos + 1))
    if res.2 then
      { s with esc := res.1, sc := scForward (scSetState e SCE_ASY_ESCAPECHAR s.sc) }
    else s
  else if charAt doc s.sc.pos = '\'' then
    { s with sc := scForwardSetState e SCE_ASY_DEFAULT s.sc }
  else s

/-- `case SCE_ASY_ESCAPECHAR` of the `ColouriseAsyDoc` switch; the flag
is true when the C code executes `continue`. -/
def asyCaseEscapeChar (doc : Doc) (e : Nat) (s : AsyState) : AsyState × Bool :=
  let res := asyAtEscapeEnd s.esc (charAt doc s.sc.pos)
  if res.2 then
    ({ s with esc := res.1, sc := scSetState e res.1.outerState s.sc }, true)
  else ({ s with esc := res.1 }, false)

/-- The `switch (sc.state)` part of the `ColouriseAsyDoc` loop body.
The returned flag is true when the C code executes `continue` (the
escape-sequence end), skipping the rest of the iteration. -/
def asySwitch (kw : AsyKeywords) (doc : Doc) (endPos : Nat) (s : AsyState) :
    AsyState × Bool :=
  if s.sc.state = SCE_ASY_OPERATOR then (asyCaseOperator endPos s, false)
  else if s.sc.state = SCE_ASY_NUMBER then (asyCaseNumber doc endPos s, false)
  else if s.sc.state = SCE_ASY_IDENTIFIER then (asyCaseIdentifier kw doc endPos s, false)
  else if s.sc.state = SCE_ASY_COMMENTLINE then (asyCaseCommentLine doc endPos s, false)
  else if s.sc.state = SCE_ASY_COMMENTBLOCK then (asyCaseCommentBlock doc endPos s, false)
  else if s.sc.state = SCE_ASY_STRING_DQ then (asyCaseStringDQ doc endPos s, false)
  else if s.sc.state = SCE_ASY_STRING_SQ then (asyCaseStringSQ doc endPos s, false)
  else if s.sc.state = SCE_ASY_ESCAPECHAR then asyCaseEscapeChar doc endPos s
  else (s, false)

/-- The `if (sc.state == SCE_ASY_DEFAULT)` token-start block of the
`ColouriseAsyDoc` loop body. -/
def asyEntry (doc : Doc) (endPos : Nat) (s : AsyState) : AsyState :=
  if s.sc.state = SCE_ASY_DEFAULT then
    let ch := charAt doc s.sc.pos
    if scMatch2 doc s.sc.pos '/' '/' then
      let lineType :=
        if s.visibleChars = 0 then AsymptoteLineStateMaskLineComment
        else s.lineStateLineType
      { s with lineStateLineType := lineType,
               sc := scSetState endPos SCE_ASY_COMMENTLINE s.sc }
    else if scMatch2 doc s.sc.pos '/' '*' then
      { s with sc := scForward (scSetState endPos SCE_ASY_COMMENTBLOCK s.sc) }
    else if ch = '\"' then
      { s with sc := scSetState endPos SCE_ASY_STRING_DQ s.sc }
    else if ch = '\'' then
      { s with sc := scSetState endPos SCE_ASY_STRING_SQ s.sc }
    else if IsADigit ch then
      { s with sc := scSetState endPos SCE_ASY_NUMBER s.sc }
    else if IsIdentifierStart ch then
      { s with chBefore := s.chPrevNonWhite,
               sc := scSetState endPos SCE_ASY_IDENTIFIER s.sc }
    else if IsAGraphic ch && !(ch = '\\' || ch = '`') then
      { s with sc := scSetState endPos SCE_ASY_OPERATOR s.sc }
    else s
  else s

/-- The bookkeeping tail of the `ColouriseAsyDoc` loop body: visible
character counting, previous-non-white tracking, the line-state commit
at end of line, and the final `sc.Forward()`. -/
def asyFinish (doc : Doc) (s : AsyState) : AsyState :=
  let ch := charAt doc s.sc.pos
  let s :=
    if !isspacechar ch then
      { s with visibleChars := s.visibleChars + 1,
               chPrevNonWhite :=
                 if !AsyIsSpaceEquiv s.sc.state then ch else s.chPrevNonWhite }
    else s
  let s :=
    if atLineEnd doc s.sc.pos then
      { s with lineStates := s.lineStates ++ [(lineOf doc s.sc.pos, s.lineStateLineType)],
               lineStateLineType := 0, visibleChars := 0, kwType := KwAsyNone }
    else s
  { s with sc := scForward s.sc }

/-- One iteration of the `ColouriseAsyDoc` loop. -/
def asyIter (kw : AsyKeywords) (doc : Doc) (endPos : Nat) (s : AsyState) : AsyState :=
  let res := asySwitch kw doc endPos s
  if res.2 then res.1 else asyFinish doc (asyEntry doc endPos res.1)

/-- The `while (sc.More())` loop of `ColouriseAsyDoc`, fuel-indexed. -/
def asyRun (kw : AsyKeywords) (doc : Doc) (endPos : Nat) : Nat → AsyState → AsyState
  | 0, s => s
  | fuel + 1, s =>
    if s.sc.pos < endPos then asyRun kw doc endPos fuel (asyIter kw doc endPos s) else s

/-- The local-variable initialization of `ColouriseAsyDoc`. -/
def asyInit (startPos initStyle : Nat) : AsyState :=
  { sc := { pos := startPos, state := initStyle, tstart := startPos, styles := [], runs := [] }
    lineStateLineType := 0
    kwType := KwAsyNone
    visibleChars := 0
    chBefore := NUL
    chPrevNonWhite := NUL
    esc := { outerState := SCE_ASY_DEFAULT, digitsLeft := 0, numBase := 0 }
    lineStates := [] }

/-- Fuel ample for a pass over `len` characters: every iteration either
advances the cursor or is the escape-end `continue` whose successor
iteration advances. -/
def lexFuel (len : Nat) : Nat := 2 * len + 2

/-- `ColouriseAsyDoc(startPos, len, initStyle, keywordLists, styler)`. -/
def ColouriseAsyDoc (kw : AsyKeywords) (doc : Doc) (startPos len initStyle : Nat) :
    AsyState :=
  let endPos := startPos + len
  let s := asyRun kw doc endPos (lexFuel len) (asyInit startPos initStyle)
  { s with sc := scComplete endPos s.sc }

/-! ## Escape-sequence records of the Dart and F# lexers -/

/-- The `EscapeSequence` record of the Dart lexer. -/
structure DartEscSeq where
  outerState : Nat
  digitsLeft : Int
  brace : Bool
  deriving Repr, DecidableEq

/-- `EscapeSequence::resetEscapeState(state, chNext)` of the Dart lexer. -/
def dartResetEscapeState (esc : DartEscSeq) (state : Nat) (chNext : Char) :
    DartEscSeq × Bool :=
  if IsEOLChar chNext then (esc, false)
  else
    ({ esc with
        outerState := state
        brace := false
        digitsLeft := if chNext = 'x' then 3 else if chNext = 'u' then 5 else 1 }, true)

/-- `EscapeSequence::atEscapeEnd(ch)` of the Dart lexer (the digit base
is always hexadecimal). -/
def dartAtEscapeEnd (esc : DartEscSeq) (ch : Char) : DartEscSeq × Bool :=
  let esc2 := { esc with digitsLeft := esc.digitsLeft - 1 }
  (esc2, decide (esc2.digitsLeft ≤ 0) || !IsHexDigit ch)

/-- The `EscapeSequence` record of the F# lexer. -/
structure FsEscSeq where
  outerState : Nat
  digitsLeft : Int
  hex : Bool
  deriving Repr, DecidableEq

/-- `EscapeSequence::resetEscapeState(state, chNext)` of the F# lexer
(the two-argument overload; it never refuses). -/
def fsResetEscapeState (esc : FsEscSeq) (state : Nat) (chNext : Char) : FsEscSeq :=
  let esc := { esc with outerState := state, digitsLeft := 1, hex := true }
  if chNext = 'x' then { esc with digitsLeft := 3 }
  else if chNext = 'u' then { esc with digitsLeft := 5 }
  else if chNext = 'U' then { esc with digitsLeft := 9 }
  else if IsADigit chNext then { esc with digitsLeft := 3, hex := false }
  else esc

/-- `EscapeSequence::resetEscapeState(state)` of the F# lexer (the
one-argument overload used for doubled quotes and braces). -/
def fsResetEscapeStateOne (esc : FsEscSeq) (state : Nat) : FsEscSeq :=
  { esc with outerState := state, digitsLeft := 1 }

/-- `EscapeSequence::atEscapeEnd(ch)` of the F# lexer (the digit base is
decimal or hexadecimal according to the `hex` flag). -/
def fsAtEscapeEnd (esc : FsEscSeq) (ch : Char) : FsEscSeq × Bool :=
  let esc2 := { esc with digitsLeft := esc.digitsLeft - 1 }
  (esc2, decide (esc2.digitsLeft ≤ 0) || !IsDecimalOrHex ch esc2.hex)

/-- C4: for every character `ch` and every escape-sequence record with
remaining digit count `n` and numeric base `b`, `atEscapeEnd(ch)` first
decrements `n` and then reports completion exactly when the decremented
count is zero or less, or `ch` is not a valid digit in base `b` — for the
three `EscapeSequence` variants of the repository (Asymptote: explicit
numeric base; F#: decimal/hex flag; Dart: fixed hexadecimal base). -/
theorem C4_theorem (escA : AsyEscSeq) (escF : FsEscSeq) (escD : DartEscSeq) (ch : Char) :
    ((asyAtEscapeEnd escA ch).1.digitsLeft = escA.digitsLeft - 1
      ∧ ((asyAtEscapeEnd escA ch).2 = true ↔
          (escA.digitsLeft - 1 ≤ 0 ∨ ¬IsADigitB ch escA.numBase = true)))
    ∧ ((fsAtEscapeEnd escF ch).1.digitsLeft = escF.digitsLeft - 1
      ∧ ((fsAtEscapeEnd escF ch).2 = true ↔
          (escF.digitsLeft - 1 ≤ 0 ∨ ¬IsDecimalOrHex ch escF.hex = true)))
    ∧ ((dartAtEscapeEnd escD ch).1.digitsLeft = escD.digitsLeft - 1
      ∧ ((dartAtEscapeEnd escD ch).2 = true ↔
          (escD.digitsLeft - 1 ≤ 0 ∨ ¬IsHexDigit ch = true))) := by
  refine ⟨⟨rfl, ?_⟩, ⟨rfl, ?_⟩, ⟨rfl, ?_⟩⟩ <;>
    simp [asyAtEscapeEnd, fsAtEscapeEnd, dartAtEscapeEnd]

/-- The bookkeeping tail never changes the lexical state. -/
theorem asyFinish_state (doc : Doc) (s : AsyState) :
    (asyFinish doc s).sc.state = s.sc.state := by
  simp only [asyFinish, scForward]
  repeat' split
  all_goals rfl

/-- The bookkeeping tail advances the cursor by exactly one. -/
theorem asyFinish_pos (doc : Doc) (s : AsyState) :
    (asyFinish doc s).sc.pos = s.sc.pos + 1 := by
  simp only [asyFinish, scForward]
  repeat' split
  all_goals rfl

/-- The bookkeeping tail never changes the committed styles. -/
theorem asyFinish_styles (doc : Doc) (s : AsyState) :
    (asyFinish doc s).sc.styles = s.sc.styles := by
  simp only [asyFinish, scForward]
  repeat' split
  all_goals rfl

/-- The bookkeeping tail never changes the emitted runs. -/
theorem asyFinish_runs (doc : Doc) (s : AsyState) :
    (asyFinish doc s).sc.runs = s.sc.runs := by
  simp only [asyFinish, scForward]
  repeat' split
  all_goals rfl

/-- The bookkeeping tail never changes the run start. -/
theorem asyFinish_tstart (doc : Doc) (s : AsyState) :
    (asyFinish doc s).sc.tstart = s.sc.tstart := by
  simp only [asyFinish, scForward]
  repeat' split
  all_goals rfl

/-- The token-start block does nothing outside the DEFAULT state. -/
theorem asyEntry_not_default (doc : Doc) (endPos : Nat) (s : AsyState)
    (h : s.sc.state ≠ SCE_ASY_DEFAULT) : asyEntry doc endPos s = s := by
  simp [asyEntry, h]

/-- C5: for every enclosing single-line string state and every character
`c` following a backslash, `resetEscapeState(state, c)` returns false
exactly when `c` is an end-of-line character, and otherwise records the
outer state and the digit count and returns true (for the Asymptote and
Dart `EscapeSequence` records, the two variants with a refusing
`resetEscapeState`); moreover, in the Asymptote Colourizer, a backslash
before an end-of-line character inside a single-quoted string does not
enter the escape-character state. -/
theorem C5_theorem (escA : AsyEscSeq) (escD : DartEscSeq) (st : Nat) (c : Char)
    (kw : AsyKeywords) (doc : Doc) (endPos : Nat) (s : AsyState)
    (h1 : s.sc.state = SCE_ASY_STRING_SQ)
    (h2 : charAt doc s.sc.pos = '\\')
    (h3 : IsEOLChar (charAt doc (s.sc.pos + 1)) = true) :
    ((asyResetEscapeState escA st c).2 = !IsEOLChar c)
    ∧ (IsEOLChar c = false →
        (asyResetEscapeState escA st c).1.outerState = st
        ∧ (asyResetEscapeState escA st c).1.digitsLeft =
            (if IsOctalDigit c then 3 else if c = 'x' || c = 'X' then 3 else 1))
    ∧ ((dartResetEscapeState escD st c).2 = !IsEOLChar c)
    ∧ (IsEOLChar c = false →
        (dartResetEscapeState escD st c).1.outerState = st
        ∧ (dartResetEscapeState escD st c).1.digitsLeft =
            (if c = 'x' then 3 else if c = 'u' then 5 else 1))
    ∧ (asyIter kw doc endPos s).sc.state = SCE_ASY_STRING_SQ := by
  refine ⟨?_, ?_, ?_, ?_, ?_⟩
  · by_cases h : IsEOLChar c = true <;> simp [asyResetEscapeState, h]
  · intro h
    refine ⟨?_, ?_⟩ <;> simp only [asyResetEscapeState, h, Bool.false_eq_true,
      if_false] <;> split <;> (try split) <;> simp_all
  · by_cases h : IsEOLChar c = true <;> simp [dartResetEscapeState, h]
  · intro h
    constructor <;> simp [dartResetEscapeState, h]
  · have hsw : asySwitch kw doc endPos s = (s, false) := by
      simp [asySwitch, asyCaseStringSQ, h1, h2, h3, asyResetEscapeState,
        SCE_ASY_DEFAULT, SCE_ASY_OPERATOR, SCE_ASY_NUMBER, SCE_ASY_IDENTIFIER,
        SCE_ASY_COMMENTLINE, SCE_ASY_COMMENTBLOCK, SCE_ASY_STRING_DQ,
        SCE_ASY_STRING_SQ, SCE_ASY_ESCAPECHAR]
    have hen : asyEntry doc endPos s = s :=
      asyEntry_not_default doc endPos s (by rw [h1]; decide)
    rw [asyIter, hsw]
    simpa [hen, asyFinish_state] using h1

/-- Witness for C5 at a concrete input: a single-quoted string whose
backslash is followed by a line feed. -/
theorem C5_witness :
    (IsEOLChar (charAt ['\\', '\n'] 1) = true)
    ∧ (asyIter ⟨[], [], [], []⟩ ['\\', '\n'] 2 (asyInit 0 SCE_ASY_STRING_SQ)).sc.state
        = SCE_ASY_STRING_SQ :=
  ⟨by decide,
    (C5_theorem ⟨0, 0, 0⟩ ⟨0, 0, false⟩ 0 'a' ⟨[], [], [], []⟩ ['\\', '\n'] 2
      (asyInit 0 SCE_ASY_STRING_SQ) (by decide) (by decide) (by decide)).2.2.2.2⟩

/-- When the character at a position is not a space, the next non-space
document character at that position is that character itself. -/
theorem getDocNextChar_not_space (doc : Doc) (i : Nat)
    (h : isspacechar (charAt doc i) = false) : getDocNextChar doc i = charAt doc i := by
  unfold getDocNextChar
  rcases Nat.lt_or_ge i doc.length with hl | hl
  · rw [List.drop_eq_getElem_cons hl]
    have : charAt doc i = doc[i] := by simp [charAt, List.getD, hl]
    rw [this] at h ⊢
    simp [List.filter, h]
  · rw [List.drop_eq_nil_of_le hl]
    simp [charAt, List.getD, List.getElem?_eq_none hl]

/-- `SetState` at the very start of the current run commits nothing. -/
theorem scSetState_styles_empty (endPos new : Nat) (sc : Sc) (h : sc.tstart = sc.pos) :
    (scSetState endPos new sc).styles = sc.styles := by
  have : min sc.pos endPos - sc.tstart = 0 := by omega
  simp [scSetState, scFlush, this]

/-- The token-start block commits no styles when the current run is
empty. -/
theorem asyEntry_styles (doc : Doc) (endPos : Nat) (s : AsyState)
    (h : s.sc.tstart = s.sc.pos) :
    (asyEntry doc endPos s).sc.styles = s.sc.styles := by
  unfold asyEntry
  repeat' (first
    | rfl
    | simp only [scForward, scSetState_styles_empty _ _ _ h]
    | split)

/-- C6 counterexample: in `"new foo("` (with `new` a keyword), the token
`foo` matches no keyword list, its next non-space document character is
`(`, the character preceding it is an identifier character, and the
pending keyword type is the struct-introducer (not `return`) — yet the
code relabels it STRUCT, not FUNCTION_DEFINITION as the claim states. -/
theorem C6_counterexample :
    (inList (⟨["new"], [], [], []⟩ : AsyKeywords).kw0 "foo" = false
      ∧ inList (⟨["new"], [], [], []⟩ : AsyKeywords).kw1 "foo" = false
      ∧ inList (⟨["new"], [], [], []⟩ : AsyKeywords).kw2 "foo" = false
      ∧ inList (⟨["new"], [], [], []⟩ : AsyKeywords).kw3 "foo" = false)
    ∧ getDocNextChar ("new foo(".toList) 7 = '('
    ∧ IsIdentifierChar 'w' = true
    ∧ (ColouriseAsyDoc ⟨["new"], [], [], []⟩ ("new foo(".toList) 0 7 SCE_ASY_DEFAULT).kwType
        = KwAsyStruct
    ∧ KwAsyStruct ≠ KwAsyReturn
    ∧ (ColouriseAsyDoc ⟨["new"], [], [], []⟩ ("new foo(".toList) 0 8 SCE_ASY_DEFAULT).sc.styles
        = [SCE_ASY_WORD, SCE_ASY_WORD, SCE_ASY_WORD, SCE_ASY_DEFAULT,
           SCE_ASY_STRUCT, SCE_ASY_STRUCT, SCE_ASY_STRUCT, SCE_ASY_OPERATOR]
    ∧ SCE_ASY_STRUCT ≠ SCE_ASY_FUNCTION_DEFINITION := by
  decide

/-- C6 amended: in the Asymptote identifier classification, for every
identifier token matching no keyword list whose next non-space document
character is `(`, provided additionally that the pending keyword type is
not the struct-introducer (a pending struct-introducer relabels the
token STRUCT before the heuristic is reached), the token is relabeled
FUNCTION_DEFINITION exactly when the character preceding the identifier
was an identifier character or `]` and the pending keyword type is not
`return`; otherwise it is relabeled plain FUNCTION. -/
theorem C6_theorem (kw : AsyKeywords) (doc : Doc) (endPos : Nat) (s : AsyState)
    (h1 : s.sc.state = SCE_ASY_IDENTIFIER)
    (h2 : IsIdentifierChar (charAt doc s.sc.pos) = false)
    (h3 : inList kw.kw0 (scCurrent doc s.sc) = false)
    (h4 : inList kw.kw1 (scCurrent doc s.sc) = false)
    (h5 : inList kw.kw2 (scCurrent doc s.sc) = false)
    (h6 : inList kw.kw3 (scCurrent doc s.sc) = false)
    (h7 : getDocNextChar doc s.sc.pos = '(')
    (h8 : s.kwType ≠ KwAsyStruct) :
    (asyIter kw doc endPos s).sc.styles =
      s.sc.styles ++ List.replicate (min s.sc.pos endPos - s.sc.tstart)
        (if s.kwType ≠ KwAsyReturn ∧ (IsIdentifierChar s.chBefore = true ∨ s.chBefore = ']')
          then SCE_ASY_FUNCTION_DEFINITION else SCE_ASY_FUNCTION) := by
  have hdot : ¬(charAt doc s.sc.pos = '.') := by
    intro hd
    rw [getDocNextChar_not_space doc s.sc.pos (by rw [hd]; decide), hd] at h7
    exact absurd h7 (by decide)
  have hcl : asyClassify kw (scCurrent doc s.sc) (charAt doc s.sc.pos)
      (getDocNextChar doc s.sc.pos) s.chBefore (scMatch2 doc s.sc.pos '[' ']')
      s.kwType s.lineStateLineType =
      (if s.kwType ≠ KwAsyReturn ∧ (IsIdentifierChar s.chBefore = true ∨ s.chBefore = ']')
          then SCE_ASY_FUNCTION_DEFINITION else SCE_ASY_FUNCTION, KwAsyNone,
        s.lineStateLineType) := by
    simp only [asyClassify, asyClassifyRaw]
    rw [if_neg (by simp [h3]), if_neg (by simp [h4]), if_neg (by simp [h5, h8]),
      if_neg (by simp [h6]), if_pos hdot, if_pos h7]
    split <;> rename_i hb <;>
      simp only [SCE_ASY_WORD, KwAsyNone, SCE_ASY_DEFAULT, SCE_ASY_FUNCTION,
        SCE_ASY_FUNCTION_DEFINITION] <;>
      simp only [Prod.mk.injEq] <;>
      refine ⟨?_, by norm_num, trivial⟩
    · rw [if_pos (by simpa using hb)]
    · rw [if_neg (by simpa using hb)]
  have hsw : asySwitch kw doc endPos s =
      ({ s with
          sc := scSetState endPos SCE_ASY_DEFAULT (scChangeState
            (if s.kwType ≠ KwAsyReturn ∧ (IsIdentifierChar s.chBefore = true ∨ s.chBefore = ']')
              then SCE_ASY_FUNCTION_DEFINITION else SCE_ASY_FUNCTION) s.sc)
          kwType := KwAsyNone
          lineStateLineType := s.lineStateLineType }, false) := by
    simp only [asySwitch, asyCaseIdentifier, h1, h2, hcl, SCE_ASY_OPERATOR,
      SCE_ASY_NUMBER, SCE_ASY_IDENTIFIER, SCE_ASY_COMMENTLINE, SCE_ASY_COMMENTBLOCK,
      SCE_ASY_STRING_DQ, SCE_ASY_STRING_SQ, SCE_ASY_ESCAPECHAR]
    norm_num
  rw [asyIter, hsw]
  simp only [Bool.false_eq_true, if_false]
  rw [asyFinish_styles, asyEntry_styles]
  · simp [scSetState, scFlush, scChangeState]
  · simp [scSetState, scFlush, scChangeState]

/-- Witness for C6 amended: classifying `f` in `"a f("` (empty keyword
lists) at the terminating space relabels it FUNCTION_DEFINITION. -/
theorem C6_witness :
    (asyIter ⟨[], [], [], []⟩ ("a f(".toList) 4
        (ColouriseAsyDoc ⟨[], [], [], []⟩ ("a f(".toList) 0 3 SCE_ASY_IDENTIFIER)).sc.styles
      = (ColouriseAsyDoc ⟨[], [], [], []⟩ ("a f(".toList) 0 3 SCE_ASY_IDENTIFIER).sc.styles
        ++ List.replicate
          (min (ColouriseAsyDoc ⟨[], [], [], []⟩ ("a f(".toList) 0 3 SCE_ASY_IDENTIFIER).sc.pos 4
            - (ColouriseAsyDoc ⟨[], [], [], []⟩ ("a f(".toList) 0 3 SCE_ASY_IDENTIFIER).sc.tstart)
          SCE_ASY_FUNCTION_DEFINITION := by
  have h := C6_theorem ⟨[], [], [], []⟩ ("a f(".toList) 4
    (ColouriseAsyDoc ⟨[], [], [], []⟩ ("a f(".toList) 0 3 SCE_ASY_IDENTIFIER)
    (by decide) (by decide) (by decide) (by decide) (by decide) (by decide)
    (by decide) (by decide)
  rw [h]
  decide

/-- C7 counterexample: with keyword list `{new, if}`, in `"new if a;"`
the keyword `if` is produced between `new` and `a`; `if` is not a
type-introducer, so by the claim the pending type would reset — yet the
pending struct-introducer set by `new` survives the keyword `if` (it is
still pending while `a` is scanned) and `a` is styled STRUCT. -/
theorem C7_counterexample :
    inList (⟨["new", "if"], [], [], []⟩ : AsyKeywords).kw0 "if" = true
    ∧ ("if" ≠ "new" ∧ "if" ≠ "struct" ∧ "if" ≠ "return")
    ∧ (ColouriseAsyDoc ⟨["new", "if"], [], [], []⟩ ("new if a;".toList) 0 8
        SCE_ASY_DEFAULT).kwType = KwAsyStruct
    ∧ (ColouriseAsyDoc ⟨["new", "if"], [], [], []⟩ ("new if a;".toList) 0 9
        SCE_ASY_DEFAULT).sc.styles.getD 7 99 = SCE_ASY_STRUCT := by
  decide

/-- C7 amended: in the Asymptote Colourizer the pending keyword type is
reset to none at every end of line, and whenever an identifier token is
classified as anything other than a keyword; producing a keyword leaves
the pending type unchanged unless the keyword is itself a
type-introducer (`new`/`struct` set the struct pending type, `return`
sets the return pending type; `import`/`include` only mark the line
state). -/
theorem C7_theorem (doc : Doc) (kw : AsyKeywords) (s : AsyState) (tok : String)
    (termCh chNextDoc chBefore : Char) (mb : Bool) (kwType lineType : Nat)
    (hEol : atLineEnd doc s.sc.pos = true)
    (hKw : inList kw.kw0 tok = true) :
    ((asyFinish doc s).kwType = KwAsyNone)
    ∧ ((asyClassify kw tok termCh chNextDoc chBefore mb kwType lineType).1 ≠ SCE_ASY_WORD →
        (asyClassify kw tok termCh chNextDoc chBefore mb kwType lineType).2.1 = KwAsyNone)
    ∧ ((tok = "new" ∨ tok = "struct") →
        (asyClassify kw tok termCh chNextDoc chBefore mb kwType lineType).2.1 = KwAsyStruct)
    ∧ (tok = "return" →
        (asyClassify kw tok termCh chNextDoc chBefore mb kwType lineType).2.1 = KwAsyReturn)
    ∧ (tok ≠ "new" → tok ≠ "struct" → tok ≠ "return" →
        (asyClassify kw tok termCh chNextDoc chBefore mb kwType lineType).2.1 = kwType) := by
  refine ⟨?_, ?_, ?_, ?_, ?_⟩
  · simp only [asyFinish, scForward]
    split <;> simp_all [atLineEnd]
  · intro hW
    simp only [asyClassify] at hW ⊢
    rw [if_pos hW]
  · rintro (rfl | rfl) <;>
      simp [asyClassify, asyClassifyRaw, hKw, SCE_ASY_WORD]
  · rintro rfl
    simp [asyClassify, asyClassifyRaw, hKw, SCE_ASY_WORD]
  · intro hn hs hr
    by_cases hi : tok = "import" ∨ tok = "include"
    · rcases hi with rfl | rfl <;> simp [asyClassify, asyClassifyRaw, hKw, SCE_ASY_WORD]
    · push_neg at hi
      simp [asyClassify, asyClassifyRaw, hKw, SCE_ASY_WORD, hn, hs, hr, hi.1, hi.2]

/-- Witness for C7 amended at concrete inputs. -/
theorem C7_witness :
    ((asyFinish ("x\n".toList) (asyInit 1 SCE_ASY_DEFAULT)).kwType = KwAsyNone)
    ∧ ((asyClassify ⟨["if"], [], [], []⟩ "if" ' ' 'a' 'b' false KwAsyStruct 0).2.1
        = KwAsyStruct) := by
  have h := C7_theorem ("x\n".toList) ⟨["if"], [], [], []⟩ (asyInit 1 SCE_ASY_DEFAULT)
    "if" ' ' 'a' 'b' false KwAsyStruct 0 (by decide) (by decide)
  exact ⟨h.1, h.2.2.2.2 (by decide) (by decide) (by decide)⟩

/-! ## C2: run contiguity -/

/-- The emitted runs are non-empty and adjacent: each run ends exactly
where the next begins. -/
def runsContiguous : List (Nat × Nat × Nat) → Prop
  | [] => True
  | [r] => r.1 < r.2.1
  | r :: r2 :: rs => r.1 < r.2.1 ∧ r.2.1 = r2.1 ∧ runsContiguous (r2 :: rs)

/-- Runs chained from `lo` to `hi`: they tile `[lo, hi)` exactly. -/
def runsChained : Nat → List (Nat × Nat × Nat) → Nat → Prop
  | lo, [], hi => lo = hi
  | lo, r :: rs, hi => r.1 = lo ∧ r.1 < r.2.1 ∧ runsChained r.2.1 rs hi

theorem runsChained_contiguous : ∀ (lo : Nat) (rs : List (Nat × Nat × Nat)) (hi : Nat),
    runsChained lo rs hi → runsContiguous rs
  | _, [], _, _ => trivial
  | _, [_], _, h => h.2.1
  | lo, r :: r2 :: rs, hi, h => by
    refine ⟨h.2.1, ?_, runsChained_contiguous _ _ _ h.2.2⟩
    exact h.2.2.1.symm

theorem runsChained_append : ∀ (lo : Nat) (rs : List (Nat × Nat × Nat)) (hi : Nat)
    (r : Nat × Nat × Nat), runsChained lo rs hi → r.1 = hi → r.1 < r.2.1 →
    runsChained lo (rs ++ [r]) r.2.1
  | lo, [], hi, r, h, h1, h2 => ⟨h1.trans h.symm, h2, rfl⟩
  | lo, r0 :: rs, hi, r, h, h1, h2 =>
    ⟨h.1, h.2.1, runsChained_append _ rs hi r h.2.2 h1 h2⟩

/-- The cursor invariant: the emitted runs tile `[startPos, min tstart
endPos)` exactly, and the pending run start never passes the cursor. -/
def ScInv (startPos endPos : Nat) (sc : Sc) : Prop :=
  runsChained startPos sc.runs (min sc.tstart endPos) ∧ sc.tstart ≤ sc.pos

theorem ScInv_flush {a e : Nat} {sc : Sc} (h : ScInv a e sc) : ScInv a e (scFlush e sc) := by
  obtain ⟨hc, hle⟩ := h
  unfold scFlush
  constructor
  · simp only []
    split
    · rename_i hlt
      have h1 : min sc.tstart e = sc.tstart := by omega
      rw [h1] at hc
      exact runsChained_append _ _ _ _ hc rfl hlt
    · rename_i hge
      have h1 : min sc.tstart e = min sc.pos e := by omega
      rw [h1] at hc
      exact hc
  · simp

theorem ScInv_setState {a e : Nat} {sc : Sc} {n : Nat} (h : ScInv a e sc) :
    ScInv a e (scSetState e n sc) := by
  have h2 := ScInv_flush h
  unfold scSetState
  exact ⟨h2.1, h2.2⟩

theorem ScInv_change {a e : Nat} {sc : Sc} {n : Nat} (h : ScInv a e sc) :
    ScInv a e (scChangeState n sc) := h

theorem ScInv_forward {a e : Nat} {sc : Sc} (h : ScInv a e sc) : ScInv a e (scForward sc) :=
  ⟨h.1, by have := h.2; simp [scForward]; omega⟩

theorem ScInv_advance {a e : Nat} {sc : Sc} {n : Nat} (h : ScInv a e sc) :
    ScInv a e (scAdvance n sc) :=
  ⟨h.1, by have := h.2; simp [scAdvance]; omega⟩

theorem asyCaseOperator_inv {a e : Nat} {s : AsyState} (h : ScInv a e s.sc) :
    ScInv a e ((asyCaseOperator e s).sc) := ScInv_setState h

theorem asyCaseNumber_inv {a e : Nat} {doc : Doc} {s : AsyState} (h : ScInv a e s.sc) :
    ScInv a e ((asyCaseNumber doc e s).sc) := by
  unfold asyCaseNumber
  split
  · exact ScInv_setState h
  · exact h

theorem asyCaseIdentifier_inv {a e : Nat} {kw : AsyKeywords} {doc : Doc} {s : AsyState}
    (h : ScInv a e s.sc) : ScInv a e ((asyCaseIdentifier kw doc e s).sc) := by
  unfold asyCaseIdentifier
  split
  · exact ScInv_setState (ScInv_change h)
  · exact h

theorem asyCaseCommentLine_inv {a e : Nat} {doc : Doc} {s : AsyState} (h : ScInv a e s.sc) :
    ScInv a e ((asyCaseCommentLine doc e s).sc) := by
  unfold asyCaseCommentLine
  split
  · exact ScInv_setState h
  · exact h

theorem asyCaseCommentBlock_inv {a e : Nat} {doc : Doc} {s : AsyState} (h : ScInv a e s.sc) :
    ScInv a e ((asyCaseCommentBlock doc e s).sc) := by
  unfold asyCaseCommentBlock
  split
  · exact ScInv_setState (ScInv_forward (ScInv_forward h))
  · exact h

theorem asyCaseStringDQ_inv {a e : Nat} {doc : Doc} {s : AsyState} (h : ScInv a e s.sc) :
    ScInv a e ((asyCaseStringDQ doc e s).sc) := by
  unfold asyCaseStringDQ
  repeat' split
  all_goals first
    | exact h
    | exact ScInv_forward (ScInv_setState h)
    | exact ScInv_setState (ScInv_forward h)

theorem asyCaseStringSQ_inv {a e : Nat} {doc : Doc} {s : AsyState} (h : ScInv a e s.sc) :
    ScInv a e ((asyCaseStringSQ doc e s).sc) := by
  unfold asyCaseStringSQ
  dsimp only
  repeat' split
  all_goals first
    | exact h
    | exact ScInv_forward (ScInv_setState h)
    | exact ScInv_setState (ScInv_forward h)

theorem asyCaseEscapeChar_inv {a e : Nat} {doc : Doc} {s : AsyState} (h : ScInv a e s.sc) :
    ScInv a e ((asyCaseEscapeChar doc e s).1.sc) := by
  unfold asyCaseEscapeChar
  dsimp only
  split
  · exact ScInv_setState h
  · exact h

theorem asySwitch_inv {a e : Nat} (kw : AsyKeywords) (doc : Doc) (s : AsyState)
    (h : ScInv a e s.sc) : ScInv a e ((asySwitch kw doc e s).1.sc) := by
  unfold asySwitch
  repeat' split
  all_goals first
    | exact h
    | exact asyCaseOperator_inv h
    | exact asyCaseNumber_inv h
    | exact asyCaseIdentifier_inv h
    | exact asyCaseCommentLine_inv h
    | exact asyCaseCommentBlock_inv h
    | exact asyCaseStringDQ_inv h
    | exact asyCaseStringSQ_inv h
    | exact asyCaseEscapeChar_inv h

theorem asyEntry_inv {a e : Nat} (doc : Doc) (s : AsyState)
    (h : ScInv a e s.sc) : ScInv a e ((asyEntry doc e s).sc) := by
  unfold asyEntry
  dsimp only
  repeat' split
  all_goals first
    | exact h
    | exact ScInv_setState h
    | exact ScInv_forward (ScInv_setState h)

theorem asyFinish_inv {a e : Nat} (doc : Doc) (s : AsyState)
    (h : ScInv a e s.sc) : ScInv a e ((asyFinish doc s).sc) := by
  unfold asyFinish
  dsimp only
  repeat' split
  all_goals exact ScInv_forward h

theorem asyIter_inv {a e : Nat} (kw : AsyKeywords) (doc : Doc) (s : AsyState)
    (h : ScInv a e s.sc) : ScInv a e ((asyIter kw doc e s).sc) := by
  unfold asyIter
  dsimp only
  split
  · exact asySwitch_inv kw doc s h
  · exact asyFinish_inv doc _ (asyEntry_inv doc _ (asySwitch_inv kw doc s h))

theorem asyRun_inv {a e : Nat} (kw : AsyKeywords) (doc : Doc) :
    ∀ (fuel : Nat) (s : AsyState), ScInv a e s.sc → ScInv a e ((asyRun kw doc e fuel s).sc)
  | 0, _, h => h
  | fuel + 1, s, h => by
    unfold asyRun
    split
    · exact asyRun_inv kw doc fuel _ (asyIter_inv kw doc s h)
    · exact h

/-- C2: for every style-run sequence produced by a Colourizer pass
(formalized on the Asymptote Colourizer, the claim's cited source), the
runs have strictly increasing start offsets and are contiguous: each run
covers exactly the half-open interval from its start to the next run's
start. -/
theorem C2_theorem (kw : AsyKeywords) (doc : Doc) (startPos len initStyle : Nat) :
    runsContiguous (ColouriseAsyDoc kw doc startPos len initStyle).sc.runs := by
  have h0 : ScInv startPos (startPos + len) (asyInit startPos initStyle).sc := by
    constructor
    · show runsChained startPos [] (min startPos (startPos + len))
      show startPos = min startPos (startPos + len)
      omega
    · exact Nat.le_refl _
  have h1 := asyRun_inv kw doc (lexFuel len) _ h0
  have h2 := ScInv_flush h1
  exact runsChained_contiguous _ _ _ h2.1

/-! ## The PowerShell Colourizer (`ColourisePowerShellDoc`)

The PowerShell lexer keeps no transient locals besides the cursor
itself, writes no per-line state words, and is therefore the lexer on
which the resumability contract (C1) is provable.  Style codes are
modelled from the spec (values arbitrary but distinct). -/

def SCE_POWERSHELL_DEFAULT : Nat := 0
def SCE_POWERSHELL_COMMENT : Nat := 1
def SCE_POWERSHELL_STRING_DQ : Nat := 2
def SCE_POWERSHELL_STRING_SQ : Nat := 3
def SCE_POWERSHELL_NUMBER : Nat := 4
def SCE_POWERSHELL_VARIABLE : Nat := 5
def SCE_POWERSHELL_OPERATOR : Nat := 6
def SCE_POWERSHELL_IDENTIFIER : Nat := 7
def SCE_POWERSHELL_KEYWORD : Nat := 8
def SCE_POWERSHELL_CMDLET : Nat := 9
def SCE_POWERSHELL_ALIAS : Nat := 10
def SCE_POWERSHELL_FUNCTION : Nat := 11
def SCE_POWERSHELL_USER1 : Nat := 12
def SCE_POWERSHELL_COMMENTSTREAM : Nat := 13

/-- `IsPSWordChar`: extended to accept accented characters. -/
def IsPSWordChar (c : Char) : Bool :=
  0x80 ≤ c.toNat || IsAlphaNumeric c || c = '-' || c = '_'

/-- The five word lists of the PowerShell lexer (keywords, cmdlets,
aliases, functions, user words). -/
structure PsKeywords where
  kw0 : List String
  kw1 : List String
  kw2 : List String
  kw3 : List String
  kw4 : List String

/-- The identifier-classification of `ColourisePowerShellDoc`
(`case SCE_POWERSHELL_IDENTIFIER`): the style the accumulated token is
relabeled to. -/
def psClassify (kw : PsKeywords) (tok : String) : Nat :=
  if inList kw.kw0 tok then SCE_POWERSHELL_KEYWORD
  else if inList kw.kw1 tok then SCE_POWERSHELL_CMDLET
  else if inList kw.kw2 tok then SCE_POWERSHELL_ALIAS
  else if inList kw.kw3 tok then SCE_POWERSHELL_FUNCTION
  else if inList kw.kw4 tok then SCE_POWERSHELL_USER1
  else SCE_POWERSHELL_IDENTIFIER

/-- The `switch (sc.state)` part of the `ColourisePowerShellDoc` loop
body. -/
def psSwitch (kw : PsKeywords) (doc : Doc) (e : Nat) (sc : Sc) : Sc :=
  if sc.state = SCE_POWERSHELL_COMMENT then
    (if atLineStart doc sc.pos then scSetState e SCE_POWERSHELL_DEFAULT sc else sc)
  else if sc.state = SCE_POWERSHELL_COMMENTSTREAM then
    (if charAt doc sc.pos = '>' && charBefore doc sc.pos = '#' then
      scForwardSetState e SCE_POWERSHELL_DEFAULT sc
    else sc)
  else if sc.state = SCE_POWERSHELL_STRING_DQ then
    (if charAt doc sc.pos = '\"' then scForwardSetState e SCE_POWERSHELL_DEFAULT sc else sc)
  else if sc.state = SCE_POWERSHELL_STRING_SQ then
    (if charAt doc sc.pos = '\'' then scForwardSetState e SCE_POWERSHELL_DEFAULT sc else sc)
  else if sc.state = SCE_POWERSHELL_NUMBER then
    (if !IsADigit (charAt doc sc.pos) then scSetState e SCE_POWERSHELL_DEFAULT sc else sc)
  else if sc.state = SCE_POWERSHELL_VARIABLE then
    (if !IsPSWordChar (charAt doc sc.pos) then scSetState e SCE_POWERSHELL_DEFAULT sc else sc)
  else if sc.state = SCE_POWERSHELL_OPERATOR then
    (if !isoperator (charAt doc sc.pos) then scSetState e SCE_POWERSHELL_DEFAULT sc else sc)
  else if sc.state = SCE_POWERSHELL_IDENTIFIER then
    (if !IsPSWordChar (charAt doc sc.pos) then
      scSetState e SCE_POWERSHELL_DEFAULT
        (scChangeState (psClassify kw (scCurrentLowered doc sc)) sc)
    else sc)
  else sc

/-- The "determine if a new state should be entered" part of the
`ColourisePowerShellDoc` loop body. -/
def psEntry (doc : Doc) (e : Nat) (sc : Sc) : Sc :=
  if sc.state = SCE_POWERSHELL_DEFAULT then
    if charAt doc sc.pos = '#' then scSetState e SCE_POWERSHELL_COMMENT sc
    else if charAt doc sc.pos = '<' && charAt doc (sc.pos + 1) = '#' then
      scSetState e SCE_POWERSHELL_COMMENTSTREAM sc
    else if charAt doc sc.pos = '\"' then scSetState e SCE_POWERSHELL_STRING_DQ sc
    else if charAt doc sc.pos = '\'' then scSetState e SCE_POWERSHELL_STRING_SQ sc
    else if charAt doc sc.pos = '$' then scSetState e SCE_POWERSHELL_VARIABLE sc
    else if IsNumberStart (charAt doc sc.pos) (charAt doc (sc.pos + 1)) then
      scSetState e SCE_POWERSHELL_NUMBER sc
    else if isoperator (charAt doc sc.pos) then scSetState e SCE_POWERSHELL_OPERATOR sc
    else if IsPSWordChar (charAt doc sc.pos) then scSetState e SCE_POWERSHELL_IDENTIFIER sc
    else sc
  else sc

/-- One iteration of the `for (; sc.More(); sc.Forward())` loop of
`ColourisePowerShellDoc`. -/
def psIter (kw : PsKeywords) (doc : Doc) (e : Nat) (sc : Sc) : Sc :=
  scForward (psEntry doc e (psSwitch kw doc e sc))

/-- The `ColourisePowerShellDoc` loop, fuel-indexed. -/
def psRun (kw : PsKeywords) (doc : Doc) (e : Nat) : Nat → Sc → Sc
  | 0, sc => sc
  | fuel + 1, sc =>
    if sc.pos < e then psRun kw doc e fuel (psIter kw doc e sc) else sc

/-- `ColourisePowerShellDoc(startPos, len, initStyle, keywordLists,
styler)` (the lexer writes no per-line state). -/
def ColourisePowerShellDoc (kw : PsKeywords) (doc : Doc) (startPos len initStyle : Nat) :
    Sc :=
  let e := startPos + len
  scComplete e (psRun kw doc e len
    { pos := startPos, state := initStyle, tstart := startPos, styles := [], runs := [] })

/-! Committed output is write-only: prefixing the styles and runs
already committed commutes with every cursor operation. -/

/-- Prefix the committed output of a cursor. -/
def scShift (S : List Nat) (R : List (Nat × Nat × Nat)) (sc : Sc) : Sc :=
  { sc with styles := S ++ sc.styles, runs := R ++ sc.runs }

@[simp] theorem scShift_pos (S : List Nat) (R : List (Nat × Nat × Nat)) (sc : Sc) :
    (scShift S R sc).pos = sc.pos := rfl

@[simp] theorem scShift_state (S : List Nat) (R : List (Nat × Nat × Nat)) (sc : Sc) :
    (scShift S R sc).state = sc.state := rfl

@[simp] theorem scShift_tstart (S : List Nat) (R : List (Nat × Nat × Nat)) (sc : Sc) :
    (scShift S R sc).tstart = sc.tstart := rfl

@[simp] theorem scCurrentLowered_shift (doc : Doc) (S : List Nat)
    (R : List (Nat × Nat × Nat)) (sc : Sc) :
    scCurrentLowered doc (scShift S R sc) = scCurrentLowered doc sc := rfl

theorem scFlush_shift (e : Nat) (S : List Nat) (R : List (Nat × Nat × Nat)) (sc : Sc) :
    scFlush e (scShift S R sc) = scShift S R (scFlush e sc) := by
  unfold scFlush scShift
  dsimp only
  split <;> simp

theorem scSetState_shift (e n : Nat) (S : List Nat) (R : List (Nat × Nat × Nat)) (sc : Sc) :
    scSetState e n (scShift S R sc) = scShift S R (scSetState e n sc) := by
  unfold scSetState
  rw [scFlush_shift]
  rfl

theorem scForward_shift (S : List Nat) (R : List (Nat × Nat × Nat)) (sc : Sc) :
    scForward (scShift S R sc) = scShift S R (scForward sc) := rfl

theorem scChangeState_shift (n : Nat) (S : List Nat) (R : List (Nat × Nat × Nat)) (sc : Sc) :
    scChangeState n (scShift S R sc) = scShift S R (scChangeState n sc) := rfl

theorem scForwardSetState_shift (e n : Nat) (S : List Nat) (R : List (Nat × Nat × Nat))
    (sc : Sc) :
    scForwardSetState e n (scShift S R sc) = scShift S R (scForwardSetState e n sc) := by
  unfold scForwardSetState
  rw [scForward_shift, scSetState_shift]

theorem psSwitch_shift (kw : PsKeywords) (doc : Doc) (e : Nat) (S : List Nat)
    (R : List (Nat × Nat × Nat)) (sc : Sc) :
    psSwitch kw doc e (scShift S R sc) = scShift S R (psSwitch kw doc e sc) := by
  unfold psSwitch
  simp only [scShift_state, scShift_pos, scCurrentLowered_shift]
  repeat' split
  all_goals first
    | rfl
    | exact scSetState_shift _ _ _ _ _
    | exact scForwardSetState_shift _ _ _ _ _
    | (rw [scForward_shift, scSetState_shift])
    | (rw [scChangeState_shift, scSetState_shift])

theorem psEntry_shift (doc : Doc) (e : Nat) (S : List Nat)
    (R : List (Nat × Nat × Nat)) (sc : Sc) :
    psEntry doc e (scShift S R sc) = scShift S R (psEntry doc e sc) := by
  unfold psEntry
  simp only [scShift_state, scShift_pos]
  repeat' split
  all_goals first
    | rfl
    | exact scSetState_shift _ _ _ _ _

theorem psIter_shift (kw : PsKeywords) (doc : Doc) (e : Nat) (S : List Nat)
    (R : List (Nat × Nat × Nat)) (sc : Sc) :
    psIter kw doc e (scShift S R sc) = scShift S R (psIter kw doc e sc) := by
  unfold psIter
  rw [psSwitch_shift, psEntry_shift, scForward_shift]

theorem psRun_shift (kw : PsKeywords) (doc : Doc) (e : Nat) (S : List Nat)
    (R : List (Nat × Nat × Nat)) : ∀ (fuel : Nat) (sc : Sc),
    psRun kw doc e fuel (scShift S R sc) = scShift S R (psRun kw doc e fuel sc)
  | 0, sc => rfl
  | fuel + 1, sc => by
    unfold psRun
    rw [scShift_pos]
    split
    · rw [psIter_shift, psRun_shift kw doc e S R fuel]
    · rfl

theorem scComplete_shift (e : Nat) (S : List Nat) (R : List (Nat × Nat × Nat)) (sc : Sc) :
    scComplete e (scShift S R sc) = scShift S R (scComplete e sc) :=
  scFlush_shift e S R sc

/-! Positions only move forward, by at most two per iteration; the
extra in-iteration advance only happens at a quote or a `>`. -/

theorem scSetState_pos (e n : Nat) (sc : Sc) : (scSetState e n sc).pos = sc.pos := rfl

theorem psEntry_pos (doc : Doc) (e : Nat) (sc : Sc) : (psEntry doc e sc).pos = sc.pos := by
  unfold psEntry
  repeat' split
  all_goals rfl

theorem psSwitch_pos_cases (kw : PsKeywords) (doc : Doc) (e : Nat) (sc : Sc) :
    (psSwitch kw doc e sc).pos = sc.pos
    ∨ ((psSwitch kw doc e sc).pos = sc.pos + 1
        ∧ IsEOLChar (charAt doc sc.pos) = false) := by
  unfold psSwitch
  repeat' split
  all_goals first
    | exact Or.inl rfl
    | (rename_i hg
       refine Or.inr ⟨rfl, ?_⟩
       first
         | (rw [hg]; decide)
         | (simp only [Bool.and_eq_true, decide_eq_true_eq] at hg
            rw [hg.1]; decide))

theorem psSwitch_pos_le (kw : PsKeywords) (doc : Doc) (e : Nat) (sc : Sc) :
    (psSwitch kw doc e sc).pos ≤ sc.pos + 1 := by
  rcases psSwitch_pos_cases kw doc e sc with h | h
  · omega
  · omega

theorem psIter_pos_le (kw : PsKeywords) (doc : Doc) (e : Nat) (sc : Sc) :
    (psIter kw doc e sc).pos ≤ sc.pos + 2 := by
  unfold psIter
  show (psEntry doc e (psSwitch kw doc e sc)).pos + 1 ≤ sc.pos + 2
  rw [psEntry_pos]
  have := psSwitch_pos_le kw doc e sc
  omega

theorem psIter_pos_gt (kw : PsKeywords) (doc : Doc) (e : Nat) (sc : Sc) :
    sc.pos < (psIter kw doc e sc).pos := by
  unfold psIter
  show sc.pos < (psEntry doc e (psSwitch kw doc e sc)).pos + 1
  rw [psEntry_pos]
  rcases psSwitch_pos_cases kw doc e sc with h | h
  · omega
  · omega

/-! The slice end only matters through the flush clamp, so two passes
with different slice ends agree while the cursor is inside both. -/

theorem scSetState_endPos {e1 e2 : Nat} (n : Nat) (sc : Sc) (h1 : sc.pos ≤ e1)
    (h2 : e1 ≤ e2) : scSetState e1 n sc = scSetState e2 n sc := by
  unfold scSetState scFlush
  have h3 : min sc.pos e1 = min sc.pos e2 := by omega
  rw [h3]

theorem psEntry_endPos {e1 e2 : Nat} (doc : Doc) (sc : Sc) (h1 : sc.pos ≤ e1)
    (h2 : e1 ≤ e2) : psEntry doc e1 sc = psEntry doc e2 sc := by
  unfold psEntry
  repeat' split
  all_goals first
    | rfl
    | exact scSetState_endPos _ _ h1 h2

theorem psSwitch_endPos {e1 e2 : Nat} (kw : PsKeywords) (doc : Doc) (sc : Sc)
    (h1 : sc.pos < e1) (h2 : e1 ≤ e2) : psSwitch kw doc e1 sc = psSwitch kw doc e2 sc := by
  unfold psSwitch
  repeat' split
  all_goals first
    | rfl
    | exact scSetState_endPos _ _ (by omega) h2
    | exact scSetState_endPos _ _ (by simp [scForward]; omega) h2
    | exact scSetState_endPos _ _ (by simp [scChangeState]; omega) h2

theorem psIter_endPos {e1 e2 : Nat} (kw : PsKeywords) (doc : Doc) (sc : Sc)
    (h1 : sc.pos < e1) (h2 : e1 ≤ e2) : psIter kw doc e1 sc = psIter kw doc e2 sc := by
  unfold psIter
  rw [psSwitch_endPos kw doc sc h1 h2, psEntry_endPos doc _ ?hp h2]
  case hp =>
    have := psSwitch_pos_le kw doc e2 sc
    omega

/-! States at a line boundary: when the cursor crosses into a new line,
the lexer is in one of the five states that carry no token text
(DEFAULT, COMMENT, COMMENTSTREAM, STRING_DQ, STRING_SQ). -/

/-- The lexical states the PowerShell Colourizer can actually be in at
the start of an iteration. -/
def psReachable (st : Nat) : Prop :=
  st = SCE_POWERSHELL_DEFAULT ∨ st = SCE_POWERSHELL_COMMENT
  ∨ st = SCE_POWERSHELL_COMMENTSTREAM ∨ st = SCE_POWERSHELL_STRING_DQ
  ∨ st = SCE_POWERSHELL_STRING_SQ ∨ st = SCE_POWERSHELL_NUMBER
  ∨ st = SCE_POWERSHELL_VARIABLE ∨ st = SCE_POWERSHELL_OPERATOR
  ∨ st = SCE_POWERSHELL_IDENTIFIER

/-- The states that may span a line boundary: they own no pending token
text, so resuming them at the boundary loses nothing. -/
def psSpanSafe (st : Nat) : Prop :=
  st = SCE_POWERSHELL_DEFAULT ∨ st = SCE_POWERSHELL_COMMENT
  ∨ st = SCE_POWERSHELL_COMMENTSTREAM ∨ st = SCE_POWERSHELL_STRING_DQ
  ∨ st = SCE_POWERSHELL_STRING_SQ

theorem IsNumberStart_cr (c2 : Char) : IsNumberStart '\r' c2 = false := by
  simp [IsNumberStart, (by decide : IsADigit '\r' = false),
    (by decide : ¬('\r' : Char) = '.')]

theorem IsNumberStart_lf (c2 : Char) : IsNumberStart '\n' c2 = false := by
  simp [IsNumberStart, (by decide : IsADigit '\n' = false),
    (by decide : ¬('\n' : Char) = '.')]

/-- At an end-of-line character the token-start block starts nothing. -/
theorem psEntry_eol (doc : Doc) (e : Nat) (sc : Sc)
    (hc : charAt doc sc.pos = '\r' ∨ charAt doc sc.pos = '\n') :
    psEntry doc e sc = sc := by
  unfold psEntry
  rcases hc with hc | hc <;> rw [hc] <;>
    simp [IsNumberStart_cr, IsNumberStart_lf,
      (by decide : isoperator '\r' = false), (by decide : isoperator '\n' = false),
      (by decide : IsPSWordChar '\r' = false), (by decide : IsPSWordChar '\n' = false)]

/-- When the switch advances the cursor it has just closed a construct:
the state it leaves behind is DEFAULT. -/
theorem psSwitch_advance_state (kw : PsKeywords) (doc : Doc) (e : Nat) (sc : Sc)
    (h : (psSwitch kw doc e sc).pos ≠ sc.pos) :
    (psSwitch kw doc e sc).state = SCE_POWERSHELL_DEFAULT := by
  unfold psSwitch at h ⊢
  repeat' split
  all_goals first
    | rfl
    | (exfalso; revert h; repeat' split; all_goals simp_all [scSetState, scFlush,
        scChangeState, scForward])

/-- At an end-of-line character the switch leaves the lexer in a
span-safe state (provided the incoming state is reachable). -/
theorem psSwitch_eol_spanSafe (kw : PsKeywords) (doc : Doc) (e : Nat) (sc : Sc)
    (hr : psReachable sc.state)
    (hc : charAt doc sc.pos = '\r' ∨ charAt doc sc.pos = '\n') :
    psSpanSafe (psSwitch kw doc e sc).state := by
  have hd : IsADigit (charAt doc sc.pos) = false := by
    rcases hc with hc | hc <;> rw [hc] <;> decide
  have hw : IsPSWordChar (charAt doc sc.pos) = false := by
    rcases hc with hc | hc <;> rw [hc] <;> decide
  have hop : isoperator (charAt doc sc.pos) = false := by
    rcases hc with hc | hc <;> rw [hc] <;> decide
  unfold psSwitch
  repeat' split
  all_goals
    simp_all [psSpanSafe, psReachable, scSetState, scFlush, scChangeState, scForward,
      SCE_POWERSHELL_DEFAULT, SCE_POWERSHELL_COMMENT, SCE_POWERSHELL_COMMENTSTREAM,
      SCE_POWERSHELL_STRING_DQ, SCE_POWERSHELL_STRING_SQ, SCE_POWERSHELL_NUMBER,
      SCE_POWERSHELL_VARIABLE, SCE_POWERSHELL_OPERATOR, SCE_POWERSHELL_IDENTIFIER,
      SCE_POWERSHELL_KEYWORD, SCE_POWERSHELL_CMDLET, SCE_POWERSHELL_ALIAS,
      SCE_POWERSHELL_FUNCTION, SCE_POWERSHELL_USER1]

/-- The token-start block outside the DEFAULT state does nothing. -/
theorem psEntry_not_default (doc : Doc) (e : Nat) (sc : Sc)
    (h : sc.state ≠ SCE_POWERSHELL_DEFAULT) : psEntry doc e sc = sc := by
  unfold psEntry
  rw [if_neg h]

/-- Reachability is preserved by the switch. -/
theorem psSwitch_reachable (kw : PsKeywords) (doc : Doc) (e : Nat) (sc : Sc)
    (hr : psReachable sc.state) : psReachable (psSwitch kw doc e sc).state := by
  unfold psSwitch
  repeat' split
  all_goals
    first
      | exact hr
      | simp_all [psReachable, scSetState, scFlush, scChangeState, scForward,
          scForwardSetState]

/-- Reachability is preserved by the token-start block. -/
theorem psEntry_reachable (doc : Doc) (e : Nat) (sc : Sc)
    (hr : psReachable sc.state) : psReachable (psEntry doc e sc).state := by
  unfold psEntry
  repeat' split
  all_goals
    first
      | exact hr
      | simp_all [psReachable, scSetState, scFlush, scChangeState, scForward]

/-- Reachability is preserved by each iteration. -/
theorem psIter_reachable (kw : PsKeywords) (doc : Doc) (e : Nat) (sc : Sc)
    (hr : psReachable sc.state) : psReachable (psIter kw doc e sc).state := by
  unfold psIter
  show psReachable (psEntry doc e (psSwitch kw doc e sc)).state
  exact psEntry_reachable _ _ _ (psSwitch_reachable _ _ _ _ hr)

/-- The run start never passes the cursor, through the switch. -/
theorem psSwitch_tstart (kw : PsKeywords) (doc : Doc) (e : Nat) (sc : Sc)
    (h : sc.tstart ≤ sc.pos) :
    (psSwitch kw doc e sc).tstart ≤ (psSwitch kw doc e sc).pos := by
  unfold psSwitch
  repeat' split
  all_goals simp_all [scSetState, scFlush, scChangeState, scForward, scForwardSetState]

/-- The run start never passes the cursor, through the token-start
block. -/
theorem psEntry_tstart (doc : Doc) (e : Nat) (sc : Sc)
    (h : sc.tstart ≤ sc.pos) :
    (psEntry doc e sc).tstart ≤ (psEntry doc e sc).pos := by
  unfold psEntry
  repeat' split
  all_goals simp_all [scSetState, scFlush]

/-- The run start never passes the cursor, through an iteration. -/
theorem psIter_tstart (kw : PsKeywords) (doc : Doc) (e : Nat) (sc : Sc)
    (h : sc.tstart ≤ sc.pos) :
    (psIter kw doc e sc).tstart ≤ (psIter kw doc e sc).pos := by
  unfold psIter
  show (psEntry doc e (psSwitch kw doc e sc)).tstart
    ≤ (psEntry doc e (psSwitch kw doc e sc)).pos + 1
  have := psEntry_tstart doc e _ (psSwitch_tstart kw doc e sc h)
  omega

/-- An iteration started strictly before a line boundary cannot jump
past it. -/
theorem psIter_pos_bound (kw : PsKeywords) (doc : Doc) (e : Nat) (sc : Sc) (p : Nat)
    (hb : charAt doc (p - 1) = '\r' ∨ charAt doc (p - 1) = '\n')
    (hlt : sc.pos < p) : (psIter kw doc e sc).pos ≤ p := by
  unfold psIter
  show (psEntry doc e (psSwitch kw doc e sc)).pos + 1 ≤ p
  rw [psEntry_pos]
  rcases psSwitch_pos_cases kw doc e sc with h | h
  · omega
  · rcases Nat.lt_or_ge sc.pos (p - 1) with hlt2 | hge
    · omega
    · exfalso
      have hpe : sc.pos = p - 1 := by omega
      rw [hpe] at h
      rcases hb with hb | hb <;> rw [hb] at h <;> simp [IsEOLChar] at h

/-- An iteration that lands exactly on a line boundary leaves the lexer
in a span-safe state. -/
theorem psIter_spanSafe (kw : PsKeywords) (doc : Doc) (e : Nat) (sc : Sc) (p : Nat)
    (hr : psReachable sc.state)
    (hb : charAt doc (p - 1) = '\r' ∨ charAt doc (p - 1) = '\n')
    (hlt : sc.pos < p)
    (hp : (psIter kw doc e sc).pos = p) :
    psSpanSafe (psIter kw doc e sc).state := by
  have hpos : (psEntry doc e (psSwitch kw doc e sc)).pos + 1 = p := hp
  rw [psEntry_pos] at hpos
  rcases psSwitch_pos_cases kw doc e sc with hc | hc
  · have hpe : sc.pos = p - 1 := by omega
    have hcc : charAt doc sc.pos = '\r' ∨ charAt doc sc.pos = '\n' := by
      rw [hpe]; exact hb
    have hent : psEntry doc e (psSwitch kw doc e sc) = psSwitch kw doc e sc :=
      psEntry_eol _ _ _ (by rw [hc]; exact hcc)
    show psSpanSafe (psEntry doc e (psSwitch kw doc e sc)).state
    rw [hent]
    exact psSwitch_eol_spanSafe kw doc e sc hr hcc
  · have hadv : (psSwitch kw doc e sc).state = SCE_POWERSHELL_DEFAULT :=
      psSwitch_advance_state kw doc e sc (by omega)
    have hcc : charAt doc (psSwitch kw doc e sc).pos = '\r'
        ∨ charAt doc (psSwitch kw doc e sc).pos = '\n' := by
      have h2 : (psSwitch kw doc e sc).pos = p - 1 := by omega
      rw [h2]; exact hb
    have hent : psEntry doc e (psSwitch kw doc e sc) = psSwitch kw doc e sc :=
      psEntry_eol _ _ _ hcc
    show psSpanSafe (psEntry doc e (psSwitch kw doc e sc)).state
    rw [hent, hadv]
    exact Or.inl rfl

/-! Fuel bookkeeping: the loop is insensitive to surplus fuel. -/

theorem psRun_stop (kw : PsKeywords) (doc : Doc) (e : Nat) :
    ∀ (fuel : Nat) (sc : Sc), e ≤ sc.pos → psRun kw doc e fuel sc = sc
  | 0, _, _ => rfl
  | fuel + 1, sc, h => by
    unfold psRun
    rw [if_neg (by omega)]

theorem psRun_fuel (kw : PsKeywords) (doc : Doc) (e : Nat) :
    ∀ (f1 f2 : Nat) (sc : Sc), f1 ≤ f2 → e ≤ sc.pos + f1 →
    psRun kw doc e f1 sc = psRun kw doc e f2 sc
  | 0, f2, sc, _, h => (psRun_stop kw doc e f2 sc (by omega)).symm
  | f1 + 1, 0, _, hle, _ => absurd hle (by omega)
  | f1 + 1, f2 + 1, sc, hle, h => by
    unfold psRun
    split
    · exact psRun_fuel kw doc e f1 f2 _ (by omega)
        (by have := psIter_pos_gt kw doc e sc; omega)
    · rfl

/-- A bare cursor configuration with no committed output. -/
def mkSc (P st t : Nat) : Sc :=
  { pos := P, state := st, tstart := t, styles := [], runs := [] }

/-- The styles a PowerShell pass commits from a bare configuration
onward. -/
def psOut (kw : PsKeywords) (doc : Doc) (e fuel P st t : Nat) : List Nat :=
  (scComplete e (psRun kw doc e fuel (mkSc P st t))).styles

/-- Every pass decomposes over what it has already committed. -/
theorem psOut_decompose (kw : PsKeywords) (doc : Doc) (e fuel : Nat) (sc : Sc) :
    (scComplete e (psRun kw doc e fuel sc)).styles
      = sc.styles ++ psOut kw doc e fuel sc.pos sc.state sc.tstart := by
  have h : sc = scShift sc.styles sc.runs (mkSc sc.pos sc.state sc.tstart) := by
    cases sc
    simp [scShift, mkSc]
  conv_lhs => rw [h]
  rw [psRun_shift, scComplete_shift]
  rfl

/-- The decision of the token-start block: the state entered at a
DEFAULT position, if any. -/
def psEntryTarget (doc : Doc) (i : Nat) : Option Nat :=
  if charAt doc i = '#' then some SCE_POWERSHELL_COMMENT
  else if charAt doc i = '<' && charAt doc (i + 1) = '#' then
    some SCE_POWERSHELL_COMMENTSTREAM
  else if charAt doc i = '\"' then some SCE_POWERSHELL_STRING_DQ
  else if charAt doc i = '\'' then some SCE_POWERSHELL_STRING_SQ
  else if charAt doc i = '$' then some SCE_POWERSHELL_VARIABLE
  else if IsNumberStart (charAt doc i) (charAt doc (i + 1)) then
    some SCE_POWERSHELL_NUMBER
  else if isoperator (charAt doc i) then some SCE_POWERSHELL_OPERATOR
  else if IsPSWordChar (charAt doc i) then some SCE_POWERSHELL_IDENTIFIER
  else none

/-- The token-start block acts according to `psEntryTarget`. -/
theorem psEntry_spec (doc : Doc) (e : Nat) (sc : Sc)
    (hd : sc.state = SCE_POWERSHELL_DEFAULT) :
    psEntry doc e sc =
      (match psEntryTarget doc sc.pos with
        | some st2 => scSetState e st2 sc
        | none => sc) := by
  unfold psEntry psEntryTarget
  rw [if_pos hd]
  repeat' split
  all_goals first
    | rfl
    | simp_all

@[simp] theorem mkSc_pos (P st t : Nat) : (mkSc P st t).pos = P := rfl

@[simp] theorem mkSc_state (P st t : Nat) : (mkSc P st t).state = st := rfl

@[simp] theorem mkSc_tstart (P st t : Nat) : (mkSc P st t).tstart = t := rfl

@[simp] theorem scShift_styles (S : List Nat) (R : List (Nat × Nat × Nat)) (sc : Sc) :
    (scShift S R sc).styles = S ++ sc.styles := rfl

theorem scComplete_state (e : Nat) (sc : Sc) : (scComplete e sc).state = sc.state := rfl

theorem psEntry_target_some (doc : Doc) (e : Nat) (sc : Sc) (s2 : Nat)
    (hd : sc.state = SCE_POWERSHELL_DEFAULT)
    (hT : psEntryTarget doc sc.pos = some s2) :
    psEntry doc e sc = scSetState e s2 sc := by
  rw [psEntry_spec doc e sc hd, hT]

theorem psEntry_target_none (doc : Doc) (e : Nat) (sc : Sc)
    (hd : sc.state = SCE_POWERSHELL_DEFAULT)
    (hT : psEntryTarget doc sc.pos = none) :
    psEntry doc e sc = sc := by
  rw [psEntry_spec doc e sc hd, hT]

/-- `SetState` on a bare configuration: the flushed output appears as a
prefix before an output-free configuration restarted at the cursor. -/
theorem scSetState_mkSc (e s2 P st t : Nat) :
    scSetState e s2 (mkSc P st t)
      = scShift (List.replicate (min P e - t) st)
          (if t < min P e then [(t, min P e, st)] else []) (mkSc P s2 P) := by
  simp [scSetState, scFlush, scShift, mkSc]

/-- An iteration started at a bare DEFAULT configuration whose run is
empty: the cursor moves one step and enters the decided state. -/
theorem psIter_bare_default (doc : Doc) (e Q : Nat) :
    scForward (psEntry doc e (mkSc Q SCE_POWERSHELL_DEFAULT Q))
      = mkSc (Q + 1) ((psEntryTarget doc Q).getD SCE_POWERSHELL_DEFAULT) Q := by
  cases hT : psEntryTarget doc Q with
  | none =>
    rw [psEntry_target_none doc e _ rfl hT]
    rfl
  | some s2 =>
    rw [psEntry_target_some doc e _ s2 rfl hT]
    simp [scSetState, scFlush, scForward, mkSc, Option.getD]

/-- One iteration from a span-safe state: either nothing closes and the
cursor just moves forward with the run start untouched, or the pending
run is flushed at a cut point `P2` and the iteration ends in a bare
configuration that no longer depends on the run start. -/
theorem psIter_span (kw : PsKeywords) (doc : Doc) (n P st : Nat)
    (hs : psSpanSafe st) (hP : P < n) :
    (∀ t, psIter kw doc n (mkSc P st t) = mkSc (P + 1) st t)
    ∨ (∃ P2 Q st2, P ≤ P2 ∧ ∀ t, t ≤ P →
        psIter kw doc n (mkSc P st t)
          = scShift (List.replicate (P2 - t) st)
              (if t < P2 then [(t, P2, st)] else []) (mkSc Q st2 P2)) := by
  rcases hs with h | h | h | h | h <;> subst h
  · have hsw : ∀ t, psSwitch kw doc n (mkSc P SCE_POWERSHELL_DEFAULT t)
        = mkSc P SCE_POWERSHELL_DEFAULT t := fun t => rfl
    cases hT : psEntryTarget doc P with
    | none =>
      left
      intro t
      unfold psIter
      rw [hsw t, psEntry_target_none doc n _ rfl hT]
      rfl
    | some s2 =>
      right
      refine ⟨P, P + 1, s2, le_refl P, ?_⟩
      intro t ht
      unfold psIter
      rw [hsw t, psEntry_target_some doc n _ s2 rfl hT, scSetState_mkSc,
        Nat.min_eq_left hP.le, scForward_shift]
      rfl
  · by_cases hA : atLineStart doc P = true
    · right
      refine ⟨P, P + 1, (psEntryTarget doc P).getD SCE_POWERSHELL_DEFAULT, le_refl P, ?_⟩
      intro t ht
      have hsw : psSwitch kw doc n (mkSc P SCE_POWERSHELL_COMMENT t)
          = scShift (List.replicate (P - t) SCE_POWERSHELL_COMMENT)
              (if t < P then [(t, P, SCE_POWERSHELL_COMMENT)] else [])
              (mkSc P SCE_POWERSHELL_DEFAULT P) := by
        show (if atLineStart doc P = true
            then scSetState n SCE_POWERSHELL_DEFAULT (mkSc P SCE_POWERSHELL_COMMENT t)
            else mkSc P SCE_POWERSHELL_COMMENT t) = _
        rw [if_pos hA, scSetState_mkSc, Nat.min_eq_left hP.le]
      unfold psIter
      rw [hsw, psEntry_shift, scForward_shift, psIter_bare_default]
    · left
      intro t
      have hsw : psSwitch kw doc n (mkSc P SCE_POWERSHELL_COMMENT t)
          = mkSc P SCE_POWERSHELL_COMMENT t := by
        show (if atLineStart doc P = true
            then scSetState n SCE_POWERSHELL_DEFAULT (mkSc P SCE_POWERSHELL_COMMENT t)
            else mkSc P SCE_POWERSHELL_COMMENT t) = _
        rw [if_neg hA]
      unfold psIter
      rw [hsw, psEntry_not_default doc n (mkSc P SCE_POWERSHELL_COMMENT t)
        (show SCE_POWERSHELL_COMMENT ≠ SCE_POWERSHELL_DEFAULT by decide)]
      rfl
  · by_cases hG : (charAt doc P = '>' && charBefore doc P = '#') = true
    · right
      refine ⟨P + 1, P + 1 + 1, (psEntryTarget doc (P + 1)).getD SCE_POWERSHELL_DEFAULT,
        Nat.le_succ P, ?_⟩
      intro t ht
      have hsw : psSwitch kw doc n (mkSc P SCE_POWERSHELL_COMMENTSTREAM t)
          = scShift (List.replicate (P + 1 - t) SCE_POWERSHELL_COMMENTSTREAM)
              (if t < P + 1 then [(t, P + 1, SCE_POWERSHELL_COMMENTSTREAM)] else [])
              (mkSc (P + 1) SCE_POWERSHELL_DEFAULT (P + 1)) := by
        show (if (charAt doc P = '>' && charBefore doc P = '#') = true
            then scForwardSetState n SCE_POWERSHELL_DEFAULT
              (mkSc P SCE_POWERSHELL_COMMENTSTREAM t)
            else mkSc P SCE_POWERSHELL_COMMENTSTREAM t) = _
        rw [if_pos hG]
        show scSetState n SCE_POWERSHELL_DEFAULT
          (mkSc (P + 1) SCE_POWERSHELL_COMMENTSTREAM t) = _
        rw [scSetState_mkSc, Nat.min_eq_left (show P + 1 ≤ n by omega)]
      unfold psIter
      rw [hsw, psEntry_shift, scForward_shift, psIter_bare_default]
    · left
      intro t
      have hsw : psSwitch kw doc n (mkSc P SCE_POWERSHELL_COMMENTSTREAM t)
          = mkSc P SCE_POWERSHELL_COMMENTSTREAM t := by
        show (if (charAt doc P = '>' && charBefore doc P = '#') = true
            then scForwardSetState n SCE_POWERSHELL_DEFAULT
              (mkSc P SCE_POWERSHELL_COMMENTSTREAM t)
            else mkSc P SCE_POWERSHELL_COMMENTSTREAM t) = _
        rw [if_neg hG]
      unfold psIter
      rw [hsw, psEntry_not_default doc n (mkSc P SCE_POWERSHELL_COMMENTSTREAM t)
        (show SCE_POWERSHELL_COMMENTSTREAM ≠ SCE_POWERSHELL_DEFAULT by decide)]
      rfl
  · by_cases hG : charAt doc P = '\"'
    · right
      refine ⟨P + 1, P + 1 + 1, (psEntryTarget doc (P + 1)).getD SCE_POWERSHELL_DEFAULT,
        Nat.le_succ P, ?_⟩
      intro t ht
      have hsw : psSwitch kw doc n (mkSc P SCE_POWERSHELL_STRING_DQ t)
          = scShift (List.replicate (P + 1 - t) SCE_POWERSHELL_STRING_DQ)
              (if t < P + 1 then [(t, P + 1, SCE_POWERSHELL_STRING_DQ)] else [])
              (mkSc (P + 1) SCE_POWERSHELL_DEFAULT (P + 1)) := by
        show (if charAt doc P = '\"'
            then scForwardSetState n SCE_POWERSHELL_DEFAULT
              (mkSc P SCE_POWERSHELL_STRING_DQ t)
            else mkSc P SCE_POWERSHELL_STRING_DQ t) = _
        rw [if_pos hG]
        show scSetState n SCE_POWERSHELL_DEFAULT
          (mkSc (P + 1) SCE_POWERSHELL_STRING_DQ t) = _
        rw [scSetState_mkSc, Nat.min_eq_left (show P + 1 ≤ n by omega)]
      unfold psIter
      rw [hsw, psEntry_shift, scForward_shift, psIter_bare_default]
    · left
      intro t
      have hsw : psSwitch kw doc n (mkSc P SCE_POWERSHELL_STRING_DQ t)
          = mkSc P SCE_POWERSHELL_STRING_DQ t := by
        show (if charAt doc P = '\"'
            then scForwardSetState n SCE_POWERSHELL_DEFAULT
              (mkSc P SCE_POWERSHELL_STRING_DQ t)
            else mkSc P SCE_POWERSHELL_STRING_DQ t) = _
        rw [if_neg hG]
      unfold psIter
      rw [hsw, psEntry_not_default doc n (mkSc P SCE_POWERSHELL_STRING_DQ t)
        (show SCE_POWERSHELL_STRING_DQ ≠ SCE_POWERSHELL_DEFAULT by decide)]
      rfl
  · by_cases hG : charAt doc P = '\''
    · right
      refine ⟨P + 1, P + 1 + 1, (psEntryTarget doc (P + 1)).getD SCE_POWERSHELL_DEFAULT,
        Nat.le_succ P, ?_⟩
      intro t ht
      have hsw : psSwitch kw doc n (mkSc P SCE_POWERSHELL_STRING_SQ t)
          = scShift (List.replicate (P + 1 - t) SCE_POWERSHELL_STRING_SQ)
              (if t < P + 1 then [(t, P + 1, SCE_POWERSHELL_STRING_SQ)] else [])
              (mkSc (P + 1) SCE_POWERSHELL_DEFAULT (P + 1)) := by
        show (if charAt doc P = '\''
            then scForwardSetState n SCE_POWERSHELL_DEFAULT
              (mkSc P SCE_POWERSHELL_STRING_SQ t)
            else mkSc P SCE_POWERSHELL_STRING_SQ t) = _
        rw [if_pos hG]
        show scSetState n SCE_POWERSHELL_DEFAULT
          (mkSc (P + 1) SCE_POWERSHELL_STRING_SQ t) = _
        rw [scSetState_mkSc, Nat.min_eq_left (show P + 1 ≤ n by omega)]
      unfold psIter
      rw [hsw, psEntry_shift, scForward_shift, psIter_bare_default]
    · left
      intro t
      have hsw : psSwitch kw doc n (mkSc P SCE_POWERSHELL_STRING_SQ t)
          = mkSc P SCE_POWERSHELL_STRING_SQ t := by
        show (if charAt doc P = '\''
            then scForwardSetState n SCE_POWERSHELL_DEFAULT
              (mkSc P SCE_POWERSHELL_STRING_SQ t)
            else mkSc P SCE_POWERSHELL_STRING_SQ t) = _
        rw [if_neg hG]
      unfold psIter
      rw [hsw, psEntry_not_default doc n (mkSc P SCE_POWERSHELL_STRING_SQ t)
        (show SCE_POWERSHELL_STRING_SQ ≠ SCE_POWERSHELL_DEFAULT by decide)]
      rfl

theorem psRun_step (kw : PsKeywords) (doc : Doc) (e fuel : Nat) (sc : Sc)
    (h : sc.pos < e) :
    psRun kw doc e (fuel + 1) sc = psRun kw doc e fuel (psIter kw doc e sc) := by
  show (if sc.pos < e then psRun kw doc e fuel (psIter kw doc e sc) else sc) = _
  rw [if_pos h]

theorem psOut_fuel (kw : PsKeywords) (doc : Doc) (e f1 f2 P st t : Nat)
    (h1 : f1 ≤ f2) (h2 : e ≤ P + f1) :
    psOut kw doc e f1 P st t = psOut kw doc e f2 P st t := by
  unfold psOut
  rw [psRun_fuel kw doc e f1 f2 (mkSc P st t) h1 h2]

/-- The run start of a span-safe state only contributes a replicated
prefix to the committed styles: everything past the cut is the same as
restarting with an empty run at the cursor. -/
theorem psOut_span (kw : PsKeywords) (doc : Doc) (n : Nat) :
    ∀ (fuel P st t : Nat), psSpanSafe st → t ≤ P → P ≤ n →
    psOut kw doc n fuel P st t
      = List.replicate (P - t) st ++ psOut kw doc n fuel P st P := by
  intro fuel
  induction fuel with
  | zero =>
    intro P st t hs ht hPn
    simp [psOut, psRun, scComplete, scFlush, mkSc, Nat.min_eq_left hPn]
  | succ f ih =>
    intro P st t hs ht hPn
    rcases Nat.lt_or_ge P n with hPn' | hge
    · rcases psIter_span kw doc n P st hs hPn' with hL | ⟨P2, Q, st2, hPP2, hR⟩
      · have hstep : ∀ u, psOut kw doc n (f + 1) P st u
            = psOut kw doc n f (P + 1) st u := by
          intro u
          unfold psOut
          rw [psRun_step kw doc n f (mkSc P st u) hPn', hL u]
        rw [hstep t, hstep P, ih (P + 1) st t hs (by omega) (by omega),
          ih (P + 1) st P hs (by omega) (by omega),
          show P + 1 - t = (P - t) + (P + 1 - P) from by omega,
          List.replicate_add, List.append_assoc]
      · have hstep : ∀ u, u ≤ P → psOut kw doc n (f + 1) P st u
            = List.replicate (P2 - u) st
              ++ (scComplete n (psRun kw doc n f (mkSc Q st2 P2))).styles := by
          intro u hu
          unfold psOut
          rw [psRun_step kw doc n f (mkSc P st u) hPn', hR u hu, psRun_shift,
            scComplete_shift]
          rfl
        rw [hstep t ht, hstep P (le_refl P),
          show P2 - t = (P - t) + (P2 - P) from by omega,
          List.replicate_add, List.append_assoc]
    · have hPe : P = n := Nat.le_antisymm hPn hge
      subst hPe
      simp [psOut, psRun, scComplete, scFlush, mkSc]

/-- A pass already standing at the cut point splits into its own flush
followed by the restarted tail. -/
theorem psRun_split_at (kw : PsKeywords) (doc : Doc) (n p fuel : Nat) (sc : Sc)
    (hpn : p ≤ n) (hpe : sc.pos = p) (ht : sc.tstart ≤ sc.pos)
    (hs : psSpanSafe sc.state) :
    (scComplete n (psRun kw doc n fuel sc)).styles
      = (scComplete p (psRun kw doc p fuel sc)).styles
        ++ psOut kw doc n fuel p (psRun kw doc p fuel sc).state p := by
  rw [psRun_stop kw doc p fuel sc (by omega)]
  rw [psOut_decompose kw doc n fuel sc, hpe]
  rw [psOut_span kw doc n fuel p sc.state sc.tstart hs (by omega) hpn]
  simp [scComplete, scFlush, hpe, List.append_assoc]

/-- The committed styles of a full pass split at any line boundary `p`
into the styles of a pass over `[0, p)` followed by the styles of a pass
restarted at `p` in the state the first pass ended in. -/
theorem psRun_split (kw : PsKeywords) (doc : Doc) (n p : Nat) (hpn : p ≤ n)
    (hb : charAt doc (p - 1) = '\r' ∨ charAt doc (p - 1) = '\n') :
    ∀ (fuel : Nat) (sc : Sc), sc.pos ≤ p → sc.tstart ≤ sc.pos →
      n ≤ sc.pos + fuel → psReachable sc.state →
      (sc.pos = p → psSpanSafe sc.state) →
      (scComplete n (psRun kw doc n fuel sc)).styles
        = (scComplete p (psRun kw doc p fuel sc)).styles
          ++ psOut kw doc n fuel p (psRun kw doc p fuel sc).state p := by
  intro fuel
  induction fuel with
  | zero =>
    intro sc hp ht hn _ hsp
    have hpe : sc.pos = p := by omega
    exact psRun_split_at kw doc n p 0 sc hpn hpe ht (hsp hpe)
  | succ f ih =>
    intro sc hp ht hn hr hsp
    by_cases hpe : sc.pos = p
    · exact psRun_split_at kw doc n p (f + 1) sc hpn hpe ht (hsp hpe)
    · have hlt : sc.pos < p := by omega
      rw [psRun_step kw doc n f sc (by omega), psRun_step kw doc p f sc hlt,
        psIter_endPos kw doc sc hlt hpn]
      have h3 : n ≤ (psIter kw doc n sc).pos + f := by
        have := psIter_pos_gt kw doc n sc
        omega
      have IH := ih (psIter kw doc n sc) (psIter_pos_bound kw doc n sc p hb hlt)
        (psIter_tstart kw doc n sc ht) h3 (psIter_reachable kw doc n sc hr)
        (fun hpp => psIter_spanSafe kw doc n sc p hr hb hlt hpp)
      rw [IH, psOut_fuel kw doc n f (f + 1) p
        ((psRun kw doc p f (psIter kw doc n sc)).state) p (Nat.le_succ f) (by omega)]

theorem isLineBreak_charAt (doc : Doc) (i : Nat) (h : isLineBreak doc i = true) :
    charAt doc i = '\r' ∨ charAt doc i = '\n' := by
  unfold isLineBreak at h
  simp only [Bool.or_eq_true, Bool.and_eq_true, decide_eq_true_eq] at h
  rcases h with h | h
  · exact Or.inr h
  · exact Or.inl h.1

/-- C1 (amended): the PowerShell Colourizer is resumable at line
boundaries. For every keyword set, document and position `p` that
starts a line (the previous position ends a line break), the styles of
one full pass equal the styles of a pass over `[0, p)` followed by the
styles of a pass over `[p, end)` started in the state the first pass
ended in. (The original claim over all five lexers is refuted by
`C1_counterexample`: the Asymptote Colourizer consults the transient
`chPrevNonWhite` lookback, which a restart does not restore.) -/
theorem C1_theorem (kw : PsKeywords) (doc : Doc) (p : Nat)
    (hpl : p ≤ doc.length) (hb : isLineBreak doc (p - 1) = true) :
    (ColourisePowerShellDoc kw doc 0 doc.length SCE_POWERSHELL_DEFAULT).styles
      = (ColourisePowerShellDoc kw doc 0 p SCE_POWERSHELL_DEFAULT).styles
        ++ (ColourisePowerShellDoc kw doc p (doc.length - p)
            (ColourisePowerShellDoc kw doc 0 p SCE_POWERSHELL_DEFAULT).state).styles := by
  have hcb : charAt doc (p - 1) = '\r' ∨ charAt doc (p - 1) = '\n' :=
    isLineBreak_charAt doc (p - 1) hb
  have hmain := psRun_split kw doc doc.length p hpl hcb doc.length
    (mkSc 0 SCE_POWERSHELL_DEFAULT 0) (Nat.zero_le p) (le_refl 0)
    (Nat.le_add_left doc.length 0) (Or.inl rfl) (fun _ => Or.inl rfl)
  have hfu1 : psRun kw doc p p (mkSc 0 SCE_POWERSHELL_DEFAULT 0)
      = psRun kw doc p doc.length (mkSc 0 SCE_POWERSHELL_DEFAULT 0) :=
    psRun_fuel kw doc p p doc.length _ hpl (Nat.le_add_left p 0)
  simp only [ColourisePowerShellDoc, Nat.zero_add]
  rw [show p + (doc.length - p) = doc.length from by omega]
  show (scComplete doc.length (psRun kw doc doc.length doc.length
      (mkSc 0 SCE_POWERSHELL_DEFAULT 0))).styles
    = (scComplete p (psRun kw doc p p (mkSc 0 SCE_POWERSHELL_DEFAULT 0))).styles
      ++ (scComplete doc.length (psRun kw doc doc.length (doc.length - p)
          (mkSc p (scComplete p (psRun kw doc p p
            (mkSc 0 SCE_POWERSHELL_DEFAULT 0))).state p))).styles
  rw [hfu1, scComplete_state]
  rw [psRun_fuel kw doc doc.length (doc.length - p) doc.length
    (mkSc p (psRun kw doc p doc.length (mkSc 0 SCE_POWERSHELL_DEFAULT 0)).state p)
    (Nat.sub_le _ _) (show doc.length ≤ p + (doc.length - p) from by omega)]
  exact hmain

/-- Witness for C1 amended at a concrete input: the document `a\n$x`
split at the start of its second line. -/
theorem C1_witness :
    (2 ≤ (['a', '\n', '$', 'x'] : Doc).length
      ∧ isLineBreak ['a', '\n', '$', 'x'] (2 - 1) = true)
    ∧ (ColourisePowerShellDoc ⟨[], [], [], [], []⟩ ['a', '\n', '$', 'x'] 0
          (['a', '\n', '$', 'x'] : Doc).length SCE_POWERSHELL_DEFAULT).styles
      = (ColourisePowerShellDoc ⟨[], [], [], [], []⟩ ['a', '\n', '$', 'x'] 0 2
            SCE_POWERSHELL_DEFAULT).styles
        ++ (ColourisePowerShellDoc ⟨[], [], [], [], []⟩ ['a', '\n', '$', 'x'] 2
            ((['a', '\n', '$', 'x'] : Doc).length - 2)
            (ColourisePowerShellDoc ⟨[], [], [], [], []⟩ ['a', '\n', '$', 'x'] 0 2
              SCE_POWERSHELL_DEFAULT).state).styles :=
  ⟨⟨by decide, by decide⟩,
    C1_theorem ⟨[], [], [], [], []⟩ ['a', '\n', '$', 'x'] 2 (by decide) (by decide)⟩

/-! ## The CMake line-state encoding (`ColouriseCMakeDoc`) -/

/-- The Line State Word `ColouriseCMakeDoc` writes at each line end:
`(bracketNumber << 8) | (outerStyle << 1) | lineStateLineComment`. -/
def cmakePackLineState (bracketNumber outerStyle lineStateLineComment : Nat) : Nat :=
  bracketNumber <<< 8 ||| outerStyle <<< 1 ||| lineStateLineComment

/-- The resume decode of `ColouriseCMakeDoc`:
`outerStyle = (lineState >> 1) & 0x7f`. -/
def cmakeUnpackOuterStyle (lineState : Nat) : Nat := (lineState >>> 1) &&& 0x7f

/-- The resume decode of `ColouriseCMakeDoc`:
`bracketNumber = (lineState >> 8) & 0xff`. -/
def cmakeUnpackBracketNumber (lineState : Nat) : Nat := (lineState >>> 8) &&& 0xff

/-- Modelled from the spec: `SimpleLineStateMaskLineComment` (the mask
constant lives in the lexer utility header, not under `src/`); the
CMake packing reserves bit 0 for the line-comment flag. -/
def SimpleLineStateMaskLineComment : Nat := 1

/-- `GetLineCommentState(lineState)`. -/
def GetLineCommentState (lineState : Nat) : Nat :=
  lineState &&& SimpleLineStateMaskLineComment

/-- C9: decoding the CMake Line State Word after encoding is the
identity on the carried state: for every line-comment flag below 2,
outer style below 128 and bracket number below 256, unpacking the
packed word recovers exactly the packed values. -/
theorem C9_theorem (lc os bn : Nat) (hlc : lc < 2) (hos : os < 128) (hbn : bn < 256) :
    cmakeUnpackOuterStyle (cmakePackLineState bn os lc) = os
    ∧ cmakeUnpackBracketNumber (cmakePackLineState bn os lc) = bn
    ∧ GetLineCommentState (cmakePackLineState bn os lc) = lc := by
  have e1 : bn <<< 8 ||| os <<< 1 = 2 ^ 8 * bn + 2 ^ 1 * os := by
    rw [Nat.shiftLeft_eq, Nat.shiftLeft_eq, Nat.mul_comm bn (2 ^ 8),
      Nat.mul_comm os (2 ^ 1)]
    exact (Nat.mul_add_lt_is_or (show 2 ^ 1 * os < 2 ^ 8 by norm_num; omega) bn).symm
  have e2 : (bn <<< 8 ||| os <<< 1) ||| lc = 2 ^ 1 * (2 ^ 7 * bn + os) + lc := by
    rw [e1, show 2 ^ 8 * bn + 2 ^ 1 * os = 2 ^ 1 * (2 ^ 7 * bn + os) from by ring]
    exact (Nat.mul_add_lt_is_or (show lc < 2 ^ 1 by simpa using hlc) _).symm
  have hx : cmakePackLineState bn os lc = 2 * (128 * bn + os) + lc := by
    unfold cmakePackLineState
    rw [e2]
    norm_num
  refine ⟨?_, ?_, ?_⟩
  · unfold cmakeUnpackOuterStyle
    rw [hx, Nat.shiftRight_eq_div_pow, show (0x7f : Nat) = 2 ^ 7 - 1 from rfl,
      Nat.and_pow_two_sub_one_eq_mod]
    show (2 * (128 * bn + os) + lc) / 2 % 128 = os
    omega
  · unfold cmakeUnpackBracketNumber
    rw [hx, Nat.shiftRight_eq_div_pow, show (0xff : Nat) = 2 ^ 8 - 1 from rfl,
      Nat.and_pow_two_sub_one_eq_mod]
    show (2 * (128 * bn + os) + lc) / 256 % 256 = bn
    omega
  · unfold GetLineCommentState SimpleLineStateMaskLineComment
    rw [hx, show (1 : Nat) = 2 ^ 1 - 1 from rfl, Nat.and_pow_two_sub_one_eq_mod]
    show (2 * (128 * bn + os) + lc) % 2 = lc
    omega

/-- Witness for C9 at a concrete carried state. -/
theorem C9_witness :
    (1 < 2 ∧ 33 < 128 ∧ 200 < 256)
    ∧ cmakeUnpackOuterStyle (cmakePackLineState 200 33 1) = 33
    ∧ cmakeUnpackBracketNumber (cmakePackLineState 200 33 1) = 200
    ∧ GetLineCommentState (cmakePackLineState 200 33 1) = 1 :=
  ⟨⟨by decide, by decide, by decide⟩,
    C9_theorem 1 33 200 (by decide) (by decide) (by decide)⟩

/-! ## The VHDL Colourizer (`ColouriseVHDLDoc`)

Style codes: modelled from the spec (the repo's `SciLexer.h` is not
under `src/`); the lexer only compares them for equality, so any
pairwise-distinct assignment is faithful. -/

def SCE_VHDL_DEFAULT : Nat := 0
def SCE_VHDL_COMMENT : Nat := 1
def SCE_VHDL_COMMENTLINEBANG : Nat := 2
def SCE_VHDL_NUMBER : Nat := 3
def SCE_VHDL_STRING : Nat := 4
def SCE_VHDL_KEYWORD : Nat := 5
def SCE_VHDL_STDOPERATOR : Nat := 6
def SCE_VHDL_IDENTIFIER : Nat := 7
def SCE_VHDL_STDFUNCTION : Nat := 8
def SCE_VHDL_STDPACKAGE : Nat := 9
def SCE_VHDL_STDTYPE : Nat := 10
def SCE_VHDL_USERWORD : Nat := 11
def SCE_VHDL_STRINGEOL : Nat := 12
def SCE_VHDL_OPERATOR : Nat := 13
def SCE_VHDL_ATTRIBUTE : Nat := 14
def SCE_VHDL_BLOCK_COMMENT : Nat := 15

/-- The seven word lists of the VHDL lexer (keywords, operators,
attributes, standard functions, standard packages, standard types,
user words). -/
structure VhdlKeywords where
  kwKeywords : List String
  kwOperators : List String
  kwAttributes : List String
  kwFunctions : List String
  kwPackages : List String
  kwTypes : List String
  kwUser : List String

/-- The identifier-classification ladder of `ColouriseVHDLDoc`
(`case SCE_VHDL_IDENTIFIER`): the style the accumulated token is
relabeled to (no list hit leaves the identifier style). -/
def vhdlClassify (kw : VhdlKeywords) (s : String) : Nat :=
  if inList kw.kwKeywords s then SCE_VHDL_KEYWORD
  else if inList kw.kwOperators s then SCE_VHDL_STDOPERATOR
  else if inList kw.kwAttributes s then SCE_VHDL_ATTRIBUTE
  else if inList kw.kwFunctions s then SCE_VHDL_STDFUNCTION
  else if inList kw.kwPackages s then SCE_VHDL_STDPACKAGE
  else if inList kw.kwTypes s then SCE_VHDL_STDTYPE
  else if inList kw.kwUser s then SCE_VHDL_USERWORD
  else SCE_VHDL_IDENTIFIER

/-- The "determine if the current state should terminate" part of the
`ColouriseVHDLDoc` loop body. -/
def vhdlSwitch (kw : VhdlKeywords) (doc : Doc) (e : Nat) (sc : Sc) : Sc :=
  if sc.state = SCE_VHDL_OPERATOR then scSetState e SCE_VHDL_DEFAULT sc
  else if sc.state = SCE_VHDL_NUMBER then
    (if !iswordchar (charAt doc sc.pos) && charAt doc sc.pos ≠ '#' then
      scSetState e SCE_VHDL_DEFAULT sc
    else sc)
  else if sc.state = SCE_VHDL_IDENTIFIER then
    (if !iswordstart (charAt doc sc.pos) then
      scSetState e SCE_VHDL_DEFAULT
        (scChangeState (vhdlClassify kw (scCurrentLowered doc sc)) sc)
    else sc)
  else if sc.state = SCE_VHDL_COMMENT ∨ sc.state = SCE_VHDL_COMMENTLINEBANG then
    (if atLineStart doc sc.pos then scSetState e SCE_VHDL_DEFAULT sc else sc)
  else if sc.state = SCE_VHDL_STRING then
    (if charAt doc sc.pos = '\\' then
      (if charAt doc (sc.pos + 1) = '\"' ∨ charAt doc (sc.pos + 1) = '\''
          ∨ charAt doc (sc.pos + 1) = '\\' then
        scForward sc
      else sc)
    else if charAt doc sc.pos = '\"' then scForwardSetState e SCE_VHDL_DEFAULT sc
    else if atLineEnd doc sc.pos then
      scForwardSetState e SCE_VHDL_DEFAULT (scChangeState SCE_VHDL_STRINGEOL sc)
    else sc)
  else if sc.state = SCE_VHDL_BLOCK_COMMENT then
    (if scMatch2 doc sc.pos '*' '/' then
      scForwardSetState e SCE_VHDL_DEFAULT (scForward sc)
    else sc)
  else sc

/-- The "determine if a new state should be entered" part of the
`ColouriseVHDLDoc` loop body. -/
def vhdlEntry (doc : Doc) (e : Nat) (sc : Sc) : Sc :=
  if sc.state = SCE_VHDL_DEFAULT then
    if IsNumberStart (charAt doc sc.pos) (charAt doc (sc.pos + 1)) then
      scSetState e SCE_VHDL_NUMBER sc
    else if iswordstart (charAt doc sc.pos) then scSetState e SCE_VHDL_IDENTIFIER sc
    else if scMatch2 doc sc.pos '-' '-' then
      (if charAt doc (sc.pos + 2) = '!' then scSetState e SCE_VHDL_COMMENTLINEBANG sc
      else scSetState e SCE_VHDL_COMMENT sc)
    else if scMatch2 doc sc.pos '/' '*' then scSetState e SCE_VHDL_BLOCK_COMMENT sc
    else if charAt doc sc.pos = '\"' then scSetState e SCE_VHDL_STRING sc
    else if isoperator (charAt doc sc.pos) then scSetState e SCE_VHDL_OPERATOR sc
    else sc
  else sc

/-- One iteration of the `for (; sc.More(); sc.Forward())` loop of
`ColouriseVHDLDoc`. -/
def vhdlIter (kw : VhdlKeywords) (doc : Doc) (e : Nat) (sc : Sc) : Sc :=
  scForward (vhdlEntry doc e (vhdlSwitch kw doc e sc))

/-- The `ColouriseVHDLDoc` loop, fuel-indexed. -/
def vhdlRun (kw : VhdlKeywords) (doc : Doc) (e : Nat) : Nat → Sc → Sc
  | 0, sc => sc
  | fuel + 1, sc =>
    if sc.pos < e then vhdlRun kw doc e fuel (vhdlIter kw doc e sc) else sc

/-- `ColouriseVHDLDoc(startPos, length, initStyle, keywordLists,
styler)`. -/
def ColouriseVHDLDoc (kw : VhdlKeywords) (doc : Doc) (startPos len initStyle : Nat) :
    Sc :=
  let e := startPos + len
  scComplete e (vhdlRun kw doc e len
    { pos := startPos, state := initStyle, tstart := startPos, styles := [], runs := [] })

/-- The VHDL string-state trace invariant: while the cursor is in the
double-quoted-string state, the pending token span `[tstart, pos)`
holds no line break. -/
def vhdlStrInv (doc : Doc) (sc : Sc) : Prop :=
  sc.state = SCE_VHDL_STRING →
    ∀ i, sc.tstart ≤ i → i < sc.pos → isLineBreak doc i = false

/-- The invariant together with the fact that the character under the
cursor is no line break either (so moving forward keeps it). -/
def vhdlStrOk (doc : Doc) (sc : Sc) : Prop :=
  sc.state = SCE_VHDL_STRING →
    (∀ i, sc.tstart ≤ i → i < sc.pos → isLineBreak doc i = false)
    ∧ isLineBreak doc sc.pos = false

theorem isLineBreak_eq_false_of_charAt (doc : Doc) (i : Nat) (c : Char)
    (hc : charAt doc i = c) (h1 : c ≠ '\n') (h2 : c ≠ '\r') :
    isLineBreak doc i = false := by
  unfold isLineBreak
  rw [hc]
  simp [h1, h2]

theorem isLineBreak_of_atLineEnd_false (doc : Doc) (i : Nat)
    (h : ¬ atLineEnd doc i = true) : isLineBreak doc i = false := by
  unfold atLineEnd at h
  by_cases hb : isLineBreak doc i = true
  · exact absurd (by rw [hb]; rfl) h
  · simpa using hb

/-- The termination switch keeps the string invariant and, when it
stays in the string state, the cursor is not on a line break. -/
theorem vhdlSwitch_strOk (kw : VhdlKeywords) (doc : Doc) (e : Nat) (sc : Sc)
    (hInv : vhdlStrInv doc sc) : vhdlStrOk doc (vhdlSwitch kw doc e sc) := by
  unfold vhdlSwitch
  repeat' split
  all_goals try (intro hst; simp_all [scSetState, scForwardSetState, scForward, scFlush,
    scChangeState, SCE_VHDL_DEFAULT, SCE_VHDL_OPERATOR, SCE_VHDL_NUMBER,
    SCE_VHDL_IDENTIFIER, SCE_VHDL_COMMENT, SCE_VHDL_COMMENTLINEBANG, SCE_VHDL_STRING,
    SCE_VHDL_BLOCK_COMMENT, SCE_VHDL_STRINGEOL]; done)
  · rename_i hs hbs hnx
    intro _
    constructor
    · intro i hi1 hi2
      simp only [scForward] at hi1 hi2
      rcases Nat.lt_or_ge i sc.pos with hlt | hge
      · exact hInv hs i hi1 hlt
      · have hie : i = sc.pos := by omega
        subst hie
        exact isLineBreak_eq_false_of_charAt doc sc.pos '\\' hbs (by decide) (by decide)
    · show isLineBreak doc (sc.pos + 1) = false
      rcases hnx with h1 | h1 | h1
      · exact isLineBreak_eq_false_of_charAt doc (sc.pos + 1) '\"' h1 (by decide) (by decide)
      · exact isLineBreak_eq_false_of_charAt doc (sc.pos + 1) '\'' h1 (by decide) (by decide)
      · exact isLineBreak_eq_false_of_charAt doc (sc.pos + 1) '\\' h1 (by decide) (by decide)
  · rename_i hs hbs hnx
    intro _
    exact ⟨hInv hs, isLineBreak_eq_false_of_charAt doc sc.pos '\\' hbs (by decide) (by decide)⟩
  · rename_i hs hbs hq hLE
    intro _
    exact ⟨hInv hs, isLineBreak_of_atLineEnd_false doc sc.pos hLE⟩

/-- The token-start block keeps the string invariant: it only enters
the string state at a double quote, with an empty pending span. -/
theorem vhdlEntry_strOk (doc : Doc) (e : Nat) (sc : Sc)
    (h : vhdlStrOk doc sc) : vhdlStrOk doc (vhdlEntry doc e sc) := by
  unfold vhdlEntry
  repeat' split
  all_goals try (intro hst; simp_all [scSetState, scFlush, SCE_VHDL_DEFAULT,
    SCE_VHDL_NUMBER, SCE_VHDL_IDENTIFIER, SCE_VHDL_COMMENT, SCE_VHDL_COMMENTLINEBANG,
    SCE_VHDL_BLOCK_COMMENT, SCE_VHDL_STRING, SCE_VHDL_OPERATOR]; done)
  all_goals try (exact h)
  rename_i hq
  intro _
  constructor
  · intro i hi1 hi2
    simp only [scSetState, scFlush] at hi1 hi2
    omega
  · exact isLineBreak_eq_false_of_charAt doc sc.pos '\"' hq (by decide) (by decide)

/-- Each iteration preserves the string invariant. -/
theorem vhdlIter_strInv (kw : VhdlKeywords) (doc : Doc) (e : Nat) (sc : Sc)
    (h : vhdlStrInv doc sc) : vhdlStrInv doc (vhdlIter kw doc e sc) := by
  have h2 := vhdlEntry_strOk doc e _ (vhdlSwitch_strOk kw doc e sc h)
  intro hst i hi1 hi2
  have h3 := h2 hst
  rcases Nat.lt_or_ge i (vhdlEntry doc e (vhdlSwitch kw doc e sc)).pos with hlt | hge
  · exact h3.1 i hi1 hlt
  · have hie : i = (vhdlEntry doc e (vhdlSwitch kw doc e sc)).pos := by
      simp only [vhdlIter, scForward] at hi2
      omega
    rw [hie]
    exact h3.2

/-- The whole loop preserves the string invariant. -/
theorem vhdlRun_strInv (kw : VhdlKeywords) (doc : Doc) (e : Nat) :
    ∀ (fuel : Nat) (sc : Sc), vhdlStrInv doc sc →
    vhdlStrInv doc (vhdlRun kw doc e fuel sc)
  | 0, _, h => h
  | fuel + 1, sc, h => by
    unfold vhdlRun
    split
    · exact vhdlRun_strInv kw doc e fuel _ (vhdlIter_strInv kw doc e sc h)
    · exact h

/-- C10: in the VHDL Colourizer, a double-quoted string that reaches an
end of line without a closing quote (and not at an escape backslash) is
retroactively relabeled with the string-EOL error style - the pending
run `[tstart, pos+1)` is committed as STRINGEOL - and the lexer is in
the DEFAULT state at the next character; moreover, from any starting
configuration, whenever the cursor is in the string state the pending
token span contains no line break, so the string state never persists
across a line boundary. -/
theorem C10_theorem (kw : VhdlKeywords) (doc : Doc) (e : Nat) (sc : Sc)
    (h1 : sc.state = SCE_VHDL_STRING) (h2 : atLineEnd doc sc.pos = true)
    (h3 : charAt doc sc.pos ≠ '\\') (h4 : charAt doc sc.pos ≠ '\"')
    (h5 : sc.tstart ≤ sc.pos) (h6 : sc.pos < e) :
    ((vhdlSwitch kw doc e sc).state = SCE_VHDL_DEFAULT
      ∧ (vhdlSwitch kw doc e sc).pos = sc.pos + 1
      ∧ (vhdlSwitch kw doc e sc).styles
        = sc.styles ++ List.replicate (sc.pos + 1 - sc.tstart) SCE_VHDL_STRINGEOL
      ∧ (vhdlSwitch kw doc e sc).runs
        = sc.runs ++ [(sc.tstart, sc.pos + 1, SCE_VHDL_STRINGEOL)])
    ∧ (∀ (startPos initStyle fuel : Nat),
        vhdlStrInv doc (vhdlRun kw doc e fuel
          { pos := startPos, state := initStyle, tstart := startPos,
            styles := [], runs := [] })) := by
  have hsw : vhdlSwitch kw doc e sc
      = scForwardSetState e SCE_VHDL_DEFAULT (scChangeState SCE_VHDL_STRINGEOL sc) := by
    unfold vhdlSwitch
    rw [h1]
    show (if charAt doc sc.pos = '\\' then
        (if charAt doc (sc.pos + 1) = '\"' ∨ charAt doc (sc.pos + 1) = '\''
            ∨ charAt doc (sc.pos + 1) = '\\' then
          scForward sc
        else sc)
      else if charAt doc sc.pos = '\"' then scForwardSetState e SCE_VHDL_DEFAULT sc
      else if atLineEnd doc sc.pos then
        scForwardSetState e SCE_VHDL_DEFAULT (scChangeState SCE_VHDL_STRINGEOL sc)
      else sc) = _
    rw [if_neg h3, if_neg h4, if_pos h2]
  constructor
  · rw [hsw]
    have hmin : min (sc.pos + 1) e = sc.pos + 1 := Nat.min_eq_left (by omega)
    refine ⟨rfl, rfl, ?_, ?_⟩
    · show sc.styles
          ++ List.replicate (min (sc.pos + 1) e - sc.tstart) SCE_VHDL_STRINGEOL = _
      rw [hmin]
    · show (if sc.tstart < min (sc.pos + 1) e then
          sc.runs ++ [(sc.tstart, min (sc.pos + 1) e, SCE_VHDL_STRINGEOL)]
        else sc.runs) = _
      rw [hmin, if_pos (by omega)]
  · intro startPos initStyle fuel
    refine vhdlRun_strInv kw doc e fuel _ ?_
    intro _ i hi1 hi2
    simp only at hi1 hi2
    omega

/-- Witness for C10 at a concrete input: the unterminated string
`"a` followed by a line break. -/
theorem C10_witness :
    ((⟨2, SCE_VHDL_STRING, 0, [], []⟩ : Sc).state = SCE_VHDL_STRING
      ∧ atLineEnd ['\"', 'a', '\n', 'x'] 2 = true
      ∧ charAt ['\"', 'a', '\n', 'x'] 2 ≠ '\\'
      ∧ charAt ['\"', 'a', '\n', 'x'] 2 ≠ '\"')
    ∧ (vhdlSwitch ⟨[], [], [], [], [], [], []⟩ ['\"', 'a', '\n', 'x'] 4
          ⟨2, SCE_VHDL_STRING, 0, [], []⟩).state = SCE_VHDL_DEFAULT
    ∧ (vhdlSwitch ⟨[], [], [], [], [], [], []⟩ ['\"', 'a', '\n', 'x'] 4
          ⟨2, SCE_VHDL_STRING, 0, [], []⟩).styles
        = [] ++ List.replicate (2 + 1 - 0) SCE_VHDL_STRINGEOL :=
  ⟨⟨rfl, by decide, by decide, by decide⟩,
    (C10_theorem ⟨[], [], [], [], [], [], []⟩ ['\"', 'a', '\n', 'x'] 4
      ⟨2, SCE_VHDL_STRING, 0, [], []⟩ rfl (by decide) (by decide) (by decide)
      (by decide) (by decide)).1.1,
    (C10_theorem ⟨[], [], [], [], [], [], []⟩ ['\"', 'a', '\n', 'x'] 4
      ⟨2, SCE_VHDL_STRING, 0, [], []⟩ rfl (by decide) (by decide) (by decide)
      (by decide) (by decide)).1.2.2.1⟩

/-! ## The Asymptote Folder (`FoldAsyDoc`) -/

/-- `IsMultilineStringStyle` of the Asymptote lexer. -/
def IsMultilineStringStyle (style : Nat) : Bool :=
  style = SCE_ASY_STRING_SQ || style = SCE_ASY_STRING_DQ || style = SCE_ASY_ESCAPECHAR

/-- `FoldLineState` of the Asymptote lexer: the two flags decoded from
a Line State Word. -/
structure AsyFoldLineState where
  lineComment : Nat
  moduleImport : Nat
  deriving Repr, DecidableEq

/-- The `FoldLineState(lineState)` constructor:
`lineComment = lineState & 1`, `moduleImport = (lineState >> 1) & 1`. -/
def asyFoldLineState (lineState : Nat) : AsyFoldLineState :=
  { lineComment := lineState &&& AsymptoteLineStateMaskLineComment
    moduleImport := (lineState >>> 1) &&& 1 }

/-- The per-character `switch (style)` of the `FoldAsyDoc` loop: the
amount added to `levelNext` for one character. -/
def asyFoldCharDelta (stylePrev style styleNext : Nat) (ch : Char) : Int :=
  if style = SCE_ASY_COMMENTBLOCK then
    (if style ≠ stylePrev then 1 else if style ≠ styleNext then -1 else 0)
  else if style = SCE_ASY_STRING_SQ ∨ style = SCE_ASY_STRING_DQ then
    (if !IsMultilineStringStyle stylePrev then 1
    else if !IsMultilineStringStyle styleNext then -1 else 0)
  else if style = SCE_ASY_OPERATOR then
    (if ch = '{' ∨ ch = '[' ∨ ch = '(' then 1
    else if ch = '}' ∨ ch = ']' ∨ ch = ')' then -1 else 0)
  else 0

/-- The per-character deltas accumulated over one line: the style chain
threads each character's style as the next one's `stylePrev`, and the
final character sees the first style of the next line. -/
def asyFoldCharsDelta : Nat → List (Nat × Char) → Nat → Int
  | _, [], _ => 0
  | stylePrev, (s, ch) :: rest, styleAfter =>
    asyFoldCharDelta stylePrev s
      (match rest with | [] => styleAfter | (s2, _) :: _ => s2) ch
    + asyFoldCharsDelta s rest styleAfter

/-- The `if (i == lineEndPos)` adjustment of `FoldAsyDoc`: comment-only
lines take the difference of the neighbours' comment flags, import-only
lines the difference of the import flags, and only otherwise (with a
visible character) is the brace-on-next-line check consulted (its
contribution is abstracted as `braceDelta`; the helper lives in the
lexer utility header, not under `src/`). -/
def asyFoldLineEndDelta (foldPrev foldCurrent foldNext : AsyFoldLineState)
    (visibleChars : Nat) (braceDelta : Int) : Int :=
  if foldCurrent.lineComment ≠ 0 then
    (foldNext.lineComment : Int) - (foldPrev.lineComment : Int)
  else if foldCurrent.moduleImport ≠ 0 then
    (foldNext.moduleImport : Int) - (foldPrev.moduleImport : Int)
  else if visibleChars ≠ 0 then braceDelta
  else 0

/-- A character styled as default space, line comment or task marker
adds nothing to the fold level. -/
theorem asyFoldCharDelta_comment (stylePrev styleNext : Nat) (s : Nat) (ch : Char)
    (h : s = SCE_ASY_DEFAULT ∨ s = SCE_ASY_COMMENTLINE ∨ s = SCE_ASY_TASKMARKER) :
    asyFoldCharDelta stylePrev s styleNext ch = 0 := by
  rcases h with h | h | h <;> rw [h] <;> rfl

/-- A whole line of such characters adds nothing to the fold level. -/
theorem asyFoldCharsDelta_comment : ∀ (stylePrev styleAfter : Nat)
    (chars : List (Nat × Char)),
    (∀ p ∈ chars, p.1 = SCE_ASY_DEFAULT ∨ p.1 = SCE_ASY_COMMENTLINE
      ∨ p.1 = SCE_ASY_TASKMARKER) →
    asyFoldCharsDelta stylePrev chars styleAfter = 0
  | _, _, [], _ => rfl
  | stylePrev, styleAfter, (s, ch) :: rest, h => by
    unfold asyFoldCharsDelta
    rw [asyFoldCharDelta_comment _ _ s ch (h (s, ch) (List.mem_cons_self _ _)),
      asyFoldCharsDelta_comment s styleAfter rest
        (fun p hp => h p (List.mem_cons_of_mem _ hp))]
    rfl

/-- C8: in the Asymptote Folder, a line whose Line State Word marks it
comment-only (respectively import-only) contributes to `levelNext`
exactly the difference between the next line's and the previous line's
comment-only (respectively import-only) flags: its characters add
nothing, and the line-end adjustment is taken instead of the
brace-on-next-line heuristic, independently of it. -/
theorem C8_theorem (foldPrev foldCurrent foldNext : AsyFoldLineState)
    (visibleChars : Nat) (braceDelta : Int) (stylePrev styleAfter : Nat)
    (chars : List (Nat × Char))
    (hstyles : ∀ p ∈ chars, p.1 = SCE_ASY_DEFAULT ∨ p.1 = SCE_ASY_COMMENTLINE
      ∨ p.1 = SCE_ASY_TASKMARKER) :
    (foldCurrent.lineComment ≠ 0 →
      asyFoldCharsDelta stylePrev chars styleAfter
        + asyFoldLineEndDelta foldPrev foldCurrent foldNext visibleChars braceDelta
      = (foldNext.lineComment : Int) - (foldPrev.lineComment : Int))
    ∧ (foldCurrent.lineComment = 0 → foldCurrent.moduleImport ≠ 0 →
      asyFoldCharsDelta stylePrev chars styleAfter
        + asyFoldLineEndDelta foldPrev foldCurrent foldNext visibleChars braceDelta
      = (foldNext.moduleImport : Int) - (foldPrev.moduleImport : Int)) := by
  have hz := asyFoldCharsDelta_comment stylePrev styleAfter chars hstyles
  constructor
  · intro hc
    rw [hz, asyFoldLineEndDelta, if_pos hc]
    exact zero_add _
  · intro hc hm
    rw [hz, asyFoldLineEndDelta, if_neg (by simp [hc]), if_pos hm]
    exact zero_add _

/-- Witness for C8 at a concrete comment-only line `//x` (previous line
not a comment, next line a comment; the brace heuristic argument is a
junk value the result must not depend on). -/
theorem C8_witness :
    ((asyFoldLineState 1).lineComment ≠ 0
      ∧ (∀ p ∈ [((1 : Nat), '/'), (1, '/'), (1, 'x')],
          p.1 = SCE_ASY_DEFAULT ∨ p.1 = SCE_ASY_COMMENTLINE ∨ p.1 = SCE_ASY_TASKMARKER))
    ∧ asyFoldCharsDelta 0 [((1 : Nat), '/'), (1, '/'), (1, 'x')] 1
        + asyFoldLineEndDelta (asyFoldLineState 0) (asyFoldLineState 1)
            (asyFoldLineState 1) 1 5
      = ((asyFoldLineState 1).lineComment : Int)
        - ((asyFoldLineState 0).lineComment : Int) :=
  ⟨⟨by decide, by decide⟩,
    (C8_theorem (asyFoldLineState 0) (asyFoldLineState 1) (asyFoldLineState 1) 1 5 0 1
      [((1 : Nat), '/'), (1, '/'), (1, 'x')] (by decide)).1 (by decide)⟩

/-! ## Nested block comments (`ColouriseDartDoc`, `ColouriseFSharpDoc`)

Style codes: modelled from the spec (the repo's `SciLexer.h` is not
under `src/`); the embedded fragments only compare them for equality. -/

def SCE_DART_DEFAULT : Nat := 0
def SCE_DART_COMMENTBLOCK : Nat := 5
def SCE_FSHARP_DEFAULT : Nat := 0
def SCE_FSHARP_COMMENT : Nat := 1

/-- `case SCE_DART_COMMENTBLOCK` of `ColouriseDartDoc`: the close pair
is checked first, the counter moves before the exit test, and the state
is left only at level zero (the task-marker highlighting relabels text
inside the comment and touches neither the level nor the state, so it
is the identity on the observables modelled here). -/
def dartCommentStep (doc : Doc) (e : Nat) (sc : Sc) (commentLevel : Int) : Sc × Int :=
  if scMatch2 doc sc.pos '*' '/' then
    (if commentLevel - 1 = 0 then
      (scForwardSetState e SCE_DART_DEFAULT (scForward sc), commentLevel - 1)
    else (scForward sc, commentLevel - 1))
  else if scMatch2 doc sc.pos '/' '*' then (scForward sc, commentLevel + 1)
  else (sc, commentLevel)

/-- `case SCE_FSHARP_COMMENT` of `ColouriseFSharpDoc`: the open pair is
checked first (the per-line comment-line flag bookkeeping of the same
case is orthogonal to the nesting depth and not modelled here). -/
def fsCommentStep (doc : Doc) (e : Nat) (sc : Sc) (commentLevel : Int) : Sc × Int :=
  if scMatch2 doc sc.pos '(' '*' then (scForward sc, commentLevel + 1)
  else if scMatch2 doc sc.pos '*' ')' then
    (if commentLevel - 1 = 0 then
      (scForwardSetState e SCE_FSHARP_DEFAULT (scForward sc), commentLevel - 1)
    else (scForward sc, commentLevel - 1))
  else (sc, commentLevel)

/-- The Line State Word `ColouriseDartDoc` writes at each line end:
`(commentLevel << 2) | lineStateLineType`, with the packed nested
interpolation states above bit 8. -/
def dartPackLineState (commentLevel lineStateLineType nested : Nat) : Nat :=
  (commentLevel <<< 2 ||| lineStateLineType) ||| nested <<< 8

/-- The resume decode of `ColouriseDartDoc`:
`commentLevel = (lineState >> 2) & 0x3f`. -/
def dartUnpackCommentLevel (lineState : Nat) : Nat := (lineState >>> 2) &&& 0x3f

/-- The Line State Word `ColouriseFSharpDoc` writes at each line end:
`lineState | (indentCount << 16) | (commentLevel << 12) |
(stringInterpolatorCount << 8)`. -/
def fsPackLineState (lineState indentCount commentLevel stringInterpolatorCount : Nat) :
    Nat :=
  lineState
    ||| ((indentCount <<< 16 ||| commentLevel <<< 12) ||| stringInterpolatorCount <<< 8)

/-- The resume decode of `ColouriseFSharpDoc`:
`commentLevel = (lineState >> 12) & 0xf`. -/
def fsUnpackCommentLevel (lineState : Nat) : Nat := (lineState >>> 12) &&& 0xf

theorem scMatch2_first (doc : Doc) (i : Nat) (a b : Char)
    (h : scMatch2 doc i a b = true) : charAt doc i = a := by
  unfold scMatch2 at h
  simp only [Bool.and_eq_true, decide_eq_true_eq] at h
  exact h.1

theorem scMatch2_false_of_ne (doc : Doc) (i : Nat) (a c d : Char)
    (h : charAt doc i = a) (hne : a ≠ c) : scMatch2 doc i c d = false := by
  unfold scMatch2
  simp [h, hne]

/-- C3 counterexample: the depth packing truncates - a line ending at
64 nested Dart block comments (respectively 16 nested F# comments)
resumes at depth 0, not at the depth that was packed. -/
theorem C3_counterexample :
    dartUnpackCommentLevel (dartPackLineState 64 0 0) = 0
    ∧ fsUnpackCommentLevel (fsPackLineState 0 0 16 0) = 0 := by decide

/-- C3 (amended): while in the block-comment state, the comment-open
pair increments the nesting depth and the comment-close pair decrements
it, the state is left exactly when the depth reaches zero, and the
depth packed into the Line State Word resumes correctly across slices
only within its field width - below 64 for Dart (6 bits) and below 16
for F# (4 bits); `C3_counterexample` shows the packing truncating at
those widths. -/
theorem C3_theorem :
    (∀ (doc : Doc) (e : Nat) (sc : Sc) (level : Int),
      (scMatch2 doc sc.pos '/' '*' = true →
        dartCommentStep doc e sc level = (scForward sc, level + 1))
      ∧ (scMatch2 doc sc.pos '*' '/' = true →
        (dartCommentStep doc e sc level).2 = level - 1
        ∧ (sc.state = SCE_DART_COMMENTBLOCK →
          ((dartCommentStep doc e sc level).1.state = SCE_DART_DEFAULT ↔ level = 1)))
      ∧ (scMatch2 doc sc.pos '*' '/' = false → scMatch2 doc sc.pos '/' '*' = false →
        dartCommentStep doc e sc level = (sc, level)))
    ∧ (∀ (doc : Doc) (e : Nat) (sc : Sc) (level : Int),
      (scMatch2 doc sc.pos '(' '*' = true →
        fsCommentStep doc e sc level = (scForward sc, level + 1))
      ∧ (scMatch2 doc sc.pos '*' ')' = true →
        (fsCommentStep doc e sc level).2 = level - 1
        ∧ (sc.state = SCE_FSHARP_COMMENT →
          ((fsCommentStep doc e sc level).1.state = SCE_FSHARP_DEFAULT ↔ level = 1)))
      ∧ (scMatch2 doc sc.pos '(' '*' = false → scMatch2 doc sc.pos '*' ')' = false →
        fsCommentStep doc e sc level = (sc, level)))
    ∧ (∀ l t n : Nat, l < 64 → t < 4 →
      dartUnpackCommentLevel (dartPackLineState l t n) = l)
    ∧ (∀ ls ind lvl sic : Nat, ls < 256 → lvl < 16 → sic < 16 →
      fsUnpackCommentLevel (fsPackLineState ls ind lvl sic) = lvl) := by
  refine ⟨?_, ?_, ?_, ?_⟩
  · intro doc e sc level
    refine ⟨?_, ?_, ?_⟩
    · intro hm
      have hf : scMatch2 doc sc.pos '*' '/' = false :=
        scMatch2_false_of_ne doc sc.pos '/' '*' '/'
          (scMatch2_first doc sc.pos '/' '*' hm) (by decide)
      unfold dartCommentStep
      rw [hf, hm]
      simp
    · intro hm
      have hstep : dartCommentStep doc e sc level
          = (if level - 1 = 0 then
              (scForwardSetState e SCE_DART_DEFAULT (scForward sc), level - 1)
            else (scForward sc, level - 1)) := by
        unfold dartCommentStep
        rw [hm]
        simp
      refine ⟨?_, ?_⟩
      · rw [hstep]
        split <;> rfl
      · intro hs
        rw [hstep]
        split
        · rename_i h0
          exact ⟨fun _ => by omega, fun _ => rfl⟩
        · rename_i h0
          constructor
          · intro hDef
            rw [show (scForward sc).state = sc.state from rfl, hs] at hDef
            exact absurd hDef (by decide)
          · intro h1
            exact absurd h1 (by omega)
    · intro h1 h2
      unfold dartCommentStep
      rw [h1, h2]
      simp
  · intro doc e sc level
    refine ⟨?_, ?_, ?_⟩
    · intro hm
      unfold fsCommentStep
      rw [hm]
      simp
    · intro hm
      have hf : scMatch2 doc sc.pos '(' '*' = false :=
        scMatch2_false_of_ne doc sc.pos '*' '(' '*'
          (scMatch2_first doc sc.pos '*' ')' hm) (by decide)
      have hstep : fsCommentStep doc e sc level
          = (if level - 1 = 0 then
              (scForwardSetState e SCE_FSHARP_DEFAULT (scForward sc), level - 1)
            else (scForward sc, level - 1)) := by
        unfold fsCommentStep
        rw [hf, hm]
        simp
      refine ⟨?_, ?_⟩
      · rw [hstep]
        split <;> rfl
      · intro hs
        rw [hstep]
        split
        · rename_i h0
          exact ⟨fun _ => by omega, fun _ => rfl⟩
        · rename_i h0
          constructor
          · intro hDef
            rw [show (scForward sc).state = sc.state from rfl, hs] at hDef
            exact absurd hDef (by decide)
          · intro h1
            exact absurd h1 (by omega)
    · intro h1 h2
      unfold fsCommentStep
      rw [h1, h2]
      simp
  · intro l t n hl ht
    unfold dartPackLineState dartUnpackCommentLevel
    have e1 : l <<< 2 ||| t = 2 ^ 2 * l + t := by
      rw [Nat.shiftLeft_eq, Nat.mul_comm l (2 ^ 2)]
      exact (Nat.mul_add_lt_is_or (show t < 2 ^ 2 by simpa using ht) l).symm
    have e2 : (l <<< 2 ||| t) ||| n <<< 8 = 2 ^ 8 * n + (2 ^ 2 * l + t) := by
      rw [e1, Nat.shiftLeft_eq, Nat.lor_comm, Nat.mul_comm n (2 ^ 8)]
      exact (Nat.mul_add_lt_is_or
        (show 2 ^ 2 * l + t < 2 ^ 8 by norm_num; omega) n).symm
    rw [e2, Nat.shiftRight_eq_div_pow, show (63 : Nat) = 2 ^ 6 - 1 from rfl,
      Nat.and_pow_two_sub_one_eq_mod]
    show (256 * n + (4 * l + t)) / 4 % 64 = l
    omega
  · intro ls ind lvl sic hls hlvl hsic
    unfold fsPackLineState fsUnpackCommentLevel
    have e1 : ind <<< 16 ||| lvl <<< 12 = 2 ^ 16 * ind + 2 ^ 12 * lvl := by
      rw [Nat.shiftLeft_eq, Nat.shiftLeft_eq, Nat.mul_comm ind (2 ^ 16),
        Nat.mul_comm lvl (2 ^ 12)]
      exact (Nat.mul_add_lt_is_or
        (show 2 ^ 12 * lvl < 2 ^ 16 by norm_num; omega) ind).symm
    have e2 : (ind <<< 16 ||| lvl <<< 12) ||| sic <<< 8
        = 2 ^ 12 * (2 ^ 4 * ind + lvl) + 2 ^ 8 * sic := by
      rw [e1, Nat.shiftLeft_eq, Nat.mul_comm sic (2 ^ 8),
        show 2 ^ 16 * ind + 2 ^ 12 * lvl = 2 ^ 12 * (2 ^ 4 * ind + lvl) from by ring]
      exact (Nat.mul_add_lt_is_or
        (show 2 ^ 8 * sic < 2 ^ 12 by norm_num; omega) (2 ^ 4 * ind + lvl)).symm
    have e3 : ls ||| ((ind <<< 16 ||| lvl <<< 12) ||| sic <<< 8)
        = 2 ^ 8 * (2 ^ 4 * (2 ^ 4 * ind + lvl) + sic) + ls := by
      rw [e2, Nat.lor_comm,
        show 2 ^ 12 * (2 ^ 4 * ind + lvl) + 2 ^ 8 * sic
          = 2 ^ 8 * (2 ^ 4 * (2 ^ 4 * ind + lvl) + sic) from by ring]
      exact (Nat.mul_add_lt_is_or (show ls < 2 ^ 8 by simpa using hls) _).symm
    rw [e3, Nat.shiftRight_eq_div_pow, show (15 : Nat) = 2 ^ 4 - 1 from rfl,
      Nat.and_pow_two_sub_one_eq_mod]
    show (256 * (16 * (16 * ind + lvl) + sic) + ls) / 4096 % 16 = lvl
    omega

/-- Witness for C3 amended at concrete inputs: a comment-open step at
depth 1, and both bounded roundtrips inside their field widths. -/
theorem C3_witness :
    (scMatch2 ['/', '*'] 0 '/' '*' = true
      ∧ dartCommentStep ['/', '*'] 9 ⟨0, SCE_DART_COMMENTBLOCK, 0, [], []⟩ 1
        = (scForward ⟨0, SCE_DART_COMMENTBLOCK, 0, [], []⟩, 2))
    ∧ (5 < 64 ∧ 1 < 4 ∧ dartUnpackCommentLevel (dartPackLineState 5 1 3) = 5)
    ∧ (7 < 256 ∧ 9 < 16 ∧ 2 < 16
        ∧ fsUnpackCommentLevel (fsPackLineState 7 4 9 2) = 9) :=
  ⟨⟨by decide,
    (C3_theorem.1 ['/', '*'] 9 ⟨0, SCE_DART_COMMENTBLOCK, 0, [], []⟩ 1).1 (by decide)⟩,
   ⟨by decide, by decide, C3_theorem.2.2.1 5 1 3 (by decide) (by decide)⟩,
   ⟨by decide, by decide, by decide,
    C3_theorem.2.2.2 7 4 9 2 (by decide) (by decide) (by decide)⟩⟩

/-! ## The CMake Colourizer (`ColouriseCMakeDoc`)

Style codes: modelled from the spec (the repo's `SciLexer.h` is not
under `src/`); the lexer compares them only for equality, and the line
state packs `outerStyle` into 7 bits, which every value below satisfies. -/

def SCE_CMAKE_DEFAULT : Nat := 0
def SCE_CMAKE_COMMENT : Nat := 1
def SCE_CMAKE_STRING : Nat := 2
def SCE_CMAKE_ESCAPE_SEQUENCE : Nat := 3
def SCE_CMAKE_LINE_CONTINUE : Nat := 4
def SCE_CMAKE_VARIABLE : Nat := 5
def SCE_CMAKE_VARIABLE_DOLLAR : Nat := 6
def SCE_CMAKE_VARIABLE_AT : Nat := 7
def SCE_CMAKE_OPERATOR : Nat := 8
def SCE_CMAKE_NUMBER : Nat := 9
def SCE_CMAKE_IDENTIFIER : Nat := 10
def SCE_CMAKE_WORD : Nat := 11
def SCE_CMAKE_COMMANDS : Nat := 12
def SCE_CMAKE_FUNCATION : Nat := 13
def SCE_CMAKE_MACRO : Nat := 14
def SCE_CMAKE_PARAMETERS : Nat := 15
def SCE_CMAKE_PROPERTIES : Nat := 16
def SCE_CMAKE_VALUES : Nat := 17
def SCE_CMAKE_BLOCK_COMMENT : Nat := 18
def SCE_CMAKE_BRACKET_ARGUMENT : Nat := 19

/-- `IsCMakeOperator` of the CMake lexer. -/
def IsCMakeOperator (c : Char) : Bool :=
  c = '(' || c = ')' || c = '=' || c = ':' || c = ';'
  || c = '$' || c = '<' || c = '>' || c = ','

/-- `IsCMakeChar` of the CMake lexer. -/
def IsCMakeChar (c : Char) : Bool :=
  IsIdentifierChar c || c = '.' || c = '-' || c = '+'

/-- The `while ((ch = styler.SafeGetCharAt(pos)) == '=')` scan of
`IsBracketArgument`: the number of consecutive `=` from a position. -/
def cmakeCountEq (doc : Doc) : Nat → Nat → Nat
  | _, 0 => 0
  | pos, fuel + 1 =>
    if charAt doc pos = '=' then cmakeCountEq doc (pos + 1) fuel + 1 else 0

/-- `IsBracketArgument(styler, pos, start, bracketNumber)` of the CMake
lexer: the flag result paired with the (possibly updated) bracket
number. -/
def IsBracketArgument (doc : Doc) (pos : Nat) (start : Bool) (bracketNumber : Nat) :
    Bool × Nat :=
  let offset := cmakeCountEq doc (pos + 1) (doc.length + 1)
  let ch := charAt doc (pos + 1 + offset)
  if start then
    (if ch = '[' then (true, offset) else (false, bracketNumber))
  else
    (if ch = ']' && offset = bracketNumber then (true, bracketNumber)
    else (false, bracketNumber))

/-- Modelled from the spec: word-list membership (the `WordList`
utility is not under `src/`); `InListPrefixed` additionally accepts
entries carrying an explicit delimiter marker, which plain membership
models for marker-free lists. -/
def inListPrefixed (kw : List String) (s : String) : Bool := kw.contains s

/-- The six word lists of the CMake lexer. -/
structure CMakeKeywords where
  kw0 : List String
  kw1 : List String
  kw2 : List String
  kw3 : List String
  kw4 : List String
  kw5 : List String

/-- The transient per-pass state of `ColouriseCMakeDoc`, with the Line
State Words it commits per line. -/
structure CMakeState where
  sc : Sc
  lineStateLineComment : Nat
  outerStyle : Nat
  varNestedLevel : Int
  generatorExpr : Int
  bracketNumber : Nat
  userDefType : Nat
  chBeforeNumber : Char
  chIdentifierStart : Char
  visibleChars : Nat
  lineStates : List Nat
  deriving Repr, DecidableEq

/-- `case SCE_CMAKE_OPERATOR` of the `ColouriseCMakeDoc` switch. -/
def cmakeCaseOperator (e : Nat) (m : CMakeState) : CMakeState :=
  { m with sc := scSetState e SCE_CMAKE_DEFAULT m.sc }

/-- `case SCE_CMAKE_NUMBER` of the `ColouriseCMakeDoc` switch. -/
def cmakeCaseNumber (doc : Doc) (e : Nat) (m : CMakeState) : CMakeState :=
  if !IsNumberStart (charAt doc m.sc.pos) (charAt doc (m.sc.pos + 1)) then
    let sc1 := if IsCMakeChar (charAt doc m.sc.pos) || IsCMakeChar m.chBeforeNumber then
        scChangeState SCE_CMAKE_DEFAULT m.sc
      else m.sc
    { m with sc := scSetState e SCE_CMAKE_DEFAULT sc1 }
  else m

/-- `case SCE_CMAKE_IDENTIFIER` of the `ColouriseCMakeDoc` switch. -/
def cmakeCaseIdentifier (kw : CMakeKeywords) (doc : Doc) (e : Nat) (m : CMakeState) :
    CMakeState :=
  if !(IsIdentifierChar (charAt doc m.sc.pos) || charAt doc m.sc.pos = '-') then
    if getDocNextChar doc m.sc.pos = '(' then
      let s := scCurrentLowered doc m.sc
      let m1 := { m with userDefType := SCE_CMAKE_DEFAULT }
      let m2 :=
        if inListPrefixed kw.kw0 s then
          let mw := { m1 with sc := scChangeState SCE_CMAKE_WORD m1.sc }
          if s = "function" then { mw with userDefType := SCE_CMAKE_FUNCATION }
          else if s = "macro" then { mw with userDefType := SCE_CMAKE_MACRO }
          else mw
        else if inListPrefixed kw.kw1 s then
          { m1 with sc := scChangeState SCE_CMAKE_COMMANDS m1.sc }
        else { m1 with sc := scChangeState SCE_CMAKE_FUNCATION m1.sc }
      { m2 with sc := scSetState e SCE_CMAKE_DEFAULT m2.sc }
    else if m.userDefType ≠ SCE_CMAKE_DEFAULT then
      { m with
          sc := scSetState e SCE_CMAKE_DEFAULT (scChangeState m.userDefType m.sc)
          userDefType := SCE_CMAKE_DEFAULT }
    else if IsUpperCase m.chIdentifierStart then
      let s := scCurrent doc m.sc
      let sc1 :=
        if inList kw.kw2 s then scChangeState SCE_CMAKE_PARAMETERS m.sc
        else if inList kw.kw3 s then scChangeState SCE_CMAKE_PROPERTIES m.sc
        else if inList kw.kw4 s then scChangeState SCE_CMAKE_VARIABLE m.sc
        else if inList kw.kw5 s then scChangeState SCE_CMAKE_VALUES m.sc
        else m.sc
      { m with sc := scSetState e SCE_CMAKE_DEFAULT sc1 }
    else { m with sc := scSetState e SCE_CMAKE_DEFAULT m.sc }
  else m

/-- `case SCE_CMAKE_COMMENT` of the `ColouriseCMakeDoc` switch. -/
def cmakeCaseComment (doc : Doc) (e : Nat) (m : CMakeState) : CMakeState :=
  if atLineStart doc m.sc.pos then { m with sc := scSetState e SCE_CMAKE_DEFAULT m.sc }
  else m

/-- `case SCE_CMAKE_BLOCK_COMMENT` and `case SCE_CMAKE_BRACKET_ARGUMENT`
of the `ColouriseCMakeDoc` switch (both close a bracket construct). -/
def cmakeCaseBracketClose (doc : Doc) (e : Nat) (m : CMakeState) : CMakeState :=
  if charAt doc m.sc.pos = ']'
      && (charAt doc (m.sc.pos + 1) = '=' || charAt doc (m.sc.pos + 1) = ']') then
    if (IsBracketArgument doc m.sc.pos false m.bracketNumber).1 then
      { m with
          sc := scForwardSetState e SCE_CMAKE_DEFAULT (scAdvance (1 + m.bracketNumber) m.sc)
          bracketNumber := 0 }
    else m
  else m

/-- `case SCE_CMAKE_STRING` of the `ColouriseCMakeDoc` switch; the flag
mirrors `continue`. -/
def cmakeCaseString (doc : Doc) (e : Nat) (m : CMakeState) : CMakeState × Bool :=
  let ch := charAt doc m.sc.pos
  let chN := charAt doc (m.sc.pos + 1)
  if ch = '\\' then
    (if IsEOLChar chN then
      { m with
          sc := scForwardSetState e SCE_CMAKE_STRING
            (scSetState e SCE_CMAKE_LINE_CONTINUE m.sc) }
    else { m with sc := scForward (scSetState e SCE_CMAKE_ESCAPE_SEQUENCE m.sc) }, false)
  else if scMatch2 doc m.sc.pos '$' '{' then
    ({ m with
        varNestedLevel := 1
        sc := scSetState e SCE_CMAKE_VARIABLE m.sc }, false)
  else if scMatch2 doc m.sc.pos '$' '<' then
    ({ m with
        generatorExpr := 1
        sc := scSetState e SCE_CMAKE_OPERATOR m.sc }, false)
  else if (ch = '$' || ch = '@') && IsIdentifierStart chN then
    ({ m with
        sc := scSetState e
          (if ch = '$' then SCE_CMAKE_VARIABLE_DOLLAR else SCE_CMAKE_VARIABLE_AT) m.sc },
      false)
  else if (m.generatorExpr ≠ 0) && IsCMakeOperator ch then
    let m1 := if ch = '>' then { m with generatorExpr := m.generatorExpr - 1 } else m
    ({ m1 with
        sc := scForwardSetState e SCE_CMAKE_STRING
          (scSetState e SCE_CMAKE_OPERATOR m1.sc) }, true)
  else if ch = '\"' then
    ({ m with
        sc := scForwardSetState e SCE_CMAKE_DEFAULT m.sc
        outerStyle := SCE_CMAKE_DEFAULT }, false)
  else (m, false)

/-- `case SCE_CMAKE_ESCAPE_SEQUENCE` of the `ColouriseCMakeDoc` switch. -/
def cmakeCaseEscape (doc : Doc) (e : Nat) (m : CMakeState) : CMakeState × Bool :=
  if charAt doc m.sc.pos = '\\' then
    (if IsEOLChar (charAt doc (m.sc.pos + 1)) then
      { m with
          sc := scForwardSetState e m.outerStyle
            (scSetState e SCE_CMAKE_LINE_CONTINUE m.sc) }
    else { m with sc := scForward m.sc }, false)
  else
    ({ m with sc := scSetState e m.outerStyle m.sc },
      decide (m.outerStyle ≠ SCE_CMAKE_DEFAULT))

/-- `case SCE_CMAKE_VARIABLE` of the `ColouriseCMakeDoc` switch. -/
def cmakeCaseVariable (doc : Doc) (e : Nat) (m : CMakeState) : CMakeState × Bool :=
  if charAt doc m.sc.pos = '}' then
    let lvl := m.varNestedLevel - 1
    if lvl = 0 then
      ({ m with
          varNestedLevel := lvl
          sc := scForwardSetState e m.outerStyle m.sc },
        decide (m.outerStyle ≠ SCE_CMAKE_DEFAULT))
    else ({ m with varNestedLevel := lvl }, false)
  else if scMatch2 doc m.sc.pos '$' '{' then
    ({ m with varNestedLevel := m.varNestedLevel + 1 }, false)
  else (m, false)

/-- `case SCE_CMAKE_VARIABLE_DOLLAR` and `case SCE_CMAKE_VARIABLE_AT`
of the `ColouriseCMakeDoc` switch. -/
def cmakeCaseVariableSub (doc : Doc) (e : Nat) (m : CMakeState) : CMakeState × Bool :=
  let ch := charAt doc m.sc.pos
  if !IsIdentifierChar ch then
    if m.sc.state = SCE_CMAKE_VARIABLE_AT then
      let sc1 := if ch = '@' then scForward m.sc else m.sc
      ({ m with sc := scSetState e m.outerStyle sc1 },
        decide (m.outerStyle ≠ SCE_CMAKE_DEFAULT))
    else if ch = '{' then
      let s := scCurrent doc m.sc
      if s = "$ENV" || s = "$CACHE" then
        ({ m with
            sc := scSetState e SCE_CMAKE_VARIABLE m.sc
            varNestedLevel := 1 }, false)
      else
        ({ m with sc := scSetState e m.outerStyle m.sc },
          decide (m.outerStyle ≠ SCE_CMAKE_DEFAULT))
    else
      ({ m with sc := scSetState e m.outerStyle m.sc },
        decide (m.outerStyle ≠ SCE_CMAKE_DEFAULT))
  else (m, false)

/-- The `switch (sc.state)` part of the `ColouriseCMakeDoc` loop body. -/
def cmakeSwitch (kw : CMakeKeywords) (doc : Doc) (e : Nat) (m : CMakeState) :
    CMakeState × Bool :=
  if m.sc.state = SCE_CMAKE_OPERATOR then (cmakeCaseOperator e m, false)
  else if m.sc.state = SCE_CMAKE_NUMBER then (cmakeCaseNumber doc e m, false)
  else if m.sc.state = SCE_CMAKE_IDENTIFIER then (cmakeCaseIdentifier kw doc e m, false)
  else if m.sc.state = SCE_CMAKE_COMMENT then (cmakeCaseComment doc e m, false)
  else if m.sc.state = SCE_CMAKE_BLOCK_COMMENT then (cmakeCaseBracketClose doc e m, false)
  else if m.sc.state = SCE_CMAKE_STRING then cmakeCaseString doc e m
  else if m.sc.state = SCE_CMAKE_ESCAPE_SEQUENCE then cmakeCaseEscape doc e m
  else if m.sc.state = SCE_CMAKE_BRACKET_ARGUMENT then (cmakeCaseBracketClose doc e m, false)
  else if m.sc.state = SCE_CMAKE_VARIABLE then cmakeCaseVariable doc e m
  else if m.sc.state = SCE_CMAKE_VARIABLE_DOLLAR ∨ m.sc.state = SCE_CMAKE_VARIABLE_AT then
    cmakeCaseVariableSub doc e m
  else (m, false)

/-- The `if (sc.state == SCE_CMAKE_DEFAULT)` token-start block of the
`ColouriseCMakeDoc` loop body. -/
def cmakeEntry (doc : Doc) (e : Nat) (m : CMakeState) : CMakeState × Bool :=
  let ch := charAt doc m.sc.pos
  let chN := charAt doc (m.sc.pos + 1)
  if ch = '#' then
    if chN = '[' && (IsBracketArgument doc (m.sc.pos + 1) true m.bracketNumber).1 then
      let bn := (IsBracketArgument doc (m.sc.pos + 1) true m.bracketNumber).2
      ({ m with
          bracketNumber := bn
          sc := scAdvance (2 + bn) (scSetState e SCE_CMAKE_BLOCK_COMMENT m.sc) }, false)
    else
      let m1 := { m with sc := scSetState e SCE_CMAKE_COMMENT m.sc }
      (if m.visibleChars = 0 then
        { m1 with lineStateLineComment := SimpleLineStateMaskLineComment }
      else m1, false)
  else if ch = '[' && (chN = '=' || chN = '[') then
    (if (IsBracketArgument doc m.sc.pos true m.bracketNumber).1 then
      let bn := (IsBracketArgument doc m.sc.pos true m.bracketNumber).2
      { m with
          bracketNumber := bn
          sc := scAdvance (2 + bn) (scSetState e SCE_CMAKE_BRACKET_ARGUMENT m.sc) }
    else m, false)
  else if scMatch2 doc m.sc.pos '/' '/' then
    let m1 := { m with sc := scSetState e SCE_CMAKE_COMMENT m.sc }
    (if m.visibleChars = 0 then
      { m1 with lineStateLineComment := SimpleLineStateMaskLineComment }
    else m1, false)
  else if ch = '\"' then
    ({ m with
        outerStyle := SCE_CMAKE_STRING
        sc := scSetState e SCE_CMAKE_STRING m.sc }, false)
  else if scMatch2 doc m.sc.pos '$' '{' then
    ({ m with
        varNestedLevel := 1
        outerStyle := if m.generatorExpr ≠ 0 then m.outerStyle else SCE_CMAKE_DEFAULT
        sc := scSetState e SCE_CMAKE_VARIABLE m.sc }, false)
  else if (ch = '$' || ch = '@') && IsIdentifierStart chN then
    ({ m with
        outerStyle := if m.generatorExpr ≠ 0 then m.outerStyle else SCE_CMAKE_DEFAULT
        sc := scForward (scSetState e
          (if ch = '$' then SCE_CMAKE_VARIABLE_DOLLAR else SCE_CMAKE_VARIABLE_AT) m.sc) },
      false)
  else if ch = '\\' then
    ({ m with sc := scForward (scSetState e SCE_CMAKE_ESCAPE_SEQUENCE m.sc) }, false)
  else if IsIdentifierStart ch then
    ({ m with
        chIdentifierStart := ch
        sc := scSetState e SCE_CMAKE_IDENTIFIER m.sc },
      false)
  else if IsADigit ch || (ch = '-' && IsADigit chN) then
    ({ m with
        sc := scSetState e SCE_CMAKE_NUMBER m.sc
        chBeforeNumber := charBefore doc m.sc.pos }, false)
  else if IsCMakeOperator ch then
    let m1 := { m with sc := scSetState e SCE_CMAKE_OPERATOR m.sc }
    if m1.generatorExpr ≠ 0 then
      if scMatch2 doc m1.sc.pos '$' '<' then
        ({ m1 with generatorExpr := m1.generatorExpr + 1 }, false)
      else if ch = '>' then
        let g := m1.generatorExpr - 1
        ({ m1 with
            generatorExpr := g
            sc := scForwardSetState e
              (if g ≠ 0 then SCE_CMAKE_DEFAULT else m1.outerStyle) m1.sc }, true)
      else (m1, false)
    else (m1, false)
  else (m, false)

/-- The bookkeeping tail of the `ColouriseCMakeDoc` loop body: visible
characters, the Line State Word written at each line end, and the final
`sc.Forward()`. -/
def cmakeFinish (doc : Doc) (m : CMakeState) : CMakeState :=
  let m1 := if m.visibleChars = 0 && !isspacechar (charAt doc m.sc.pos) then
      { m with visibleChars := m.visibleChars + 1 }
    else m
  let m2 := if atLineEnd doc m1.sc.pos then
      { m1 with
          lineStates := m1.lineStates
            ++ [(m1.bracketNumber <<< 8) ||| (m1.outerStyle <<< 1)
                ||| m1.lineStateLineComment]
          lineStateLineComment := 0
          visibleChars := 0 }
    else m1
  { m2 with sc := scForward m2.sc }

/-- One iteration of the `while (sc.More())` loop of
`ColouriseCMakeDoc` (`continue` skips the rest of the body). -/
def cmakeIter (kw : CMakeKeywords) (doc : Doc) (e : Nat) (m : CMakeState) : CMakeState :=
  let r := cmakeSwitch kw doc e m
  if r.2 then r.1
  else
    let r2 := if r.1.sc.state = SCE_CMAKE_DEFAULT then cmakeEntry doc e r.1 else (r.1, false)
    if r2.2 then r2.1 else cmakeFinish doc r2.1

/-- The `ColouriseCMakeDoc` loop, fuel-indexed. -/
def cmakeRun (kw : CMakeKeywords) (doc : Doc) (e : Nat) : Nat → CMakeState → CMakeState
  | 0, m => m
  | fuel + 1, m =>
    if m.sc.pos < e then cmakeRun kw doc e fuel (cmakeIter kw doc e m) else m

/-- `ColouriseCMakeDoc(startPos, lengthDoc, initStyle, keywordLists,
styler)`; `prevLineState` is the Line State Word the accessor holds for
the line before `startPos` (read only when the pass starts below line
0, mirroring `styler.GetLineState(sc.currentLine - 1)`). -/
def ColouriseCMakeDoc (kw : CMakeKeywords) (doc : Doc)
    (startPos len initStyle prevLineState : Nat) : CMakeState :=
  let e := startPos + len
  let m0 : CMakeState := {
    sc := { pos := startPos, state := initStyle, tstart := startPos,
            styles := [], runs := [] }
    lineStateLineComment := 0, outerStyle := SCE_CMAKE_DEFAULT, varNestedLevel := 0
    generatorExpr := 0, bracketNumber := 0, userDefType := SCE_CMAKE_DEFAULT
    chBeforeNumber := NUL, chIdentifierStart := NUL, visibleChars := 0, lineStates := [] }
  let m1 := if 0 < lineOf doc startPos then
      let os := (prevLineState >>> 1) &&& 0x7f
      let m2 := { m0 with
        outerStyle := os
        bracketNumber := (prevLineState >>> 8) &&& 0xff }
      if os ≠ SCE_CMAKE_DEFAULT then { m2 with sc := scSetState e os m2.sc } else m2
    else m0
  let mf := cmakeRun kw doc e (lexFuel len) m1
  { mf with sc := scComplete e mf.sc }

/-! ## The Dart Colourizer (`ColouriseDartDoc`)

Style codes: modelled from the spec (the repo's `SciLexer.h` is not
under `src/`), constrained by the comparisons the lexer makes:
the space-equivalent styles sit at or below the task-marker style, the
doc-comment variants sit at a common offset from the plain comment
styles, and the eight string styles form one contiguous block starting
right after the nested-state base style, the raw block four above the
plain one (the `static_assert`s and `IsTripleString`/`GetStringQuote`
of the lexer). -/

def SCE_DART_COMMENTLINE : Nat := 1
def SCE_DART_COMMENTLINEDOC : Nat := 2
def SCE_DART_COMMENTBLOCKDOC : Nat := 6
def SCE_DART_TASKMARKER : Nat := 7
def DefaultNestedStateBaseStyle : Nat := 8
def SCE_DART_STRING_SQ : Nat := 9
def SCE_DART_STRING_DQ : Nat := 10
def SCE_DART_TRIPLE_STRING_SQ : Nat := 11
def SCE_DART_TRIPLE_STRING_DQ : Nat := 12
def SCE_DART_RAWSTRING_SQ : Nat := 13
def SCE_DART_RAWSTRING_DQ : Nat := 14
def SCE_DART_TRIPLE_RAWSTRING_SQ : Nat := 15
def SCE_DART_TRIPLE_RAWSTRING_DQ : Nat := 16
def SCE_DART_ESCAPECHAR : Nat := 17
def SCE_DART_OPERATOR : Nat := 18
def SCE_DART_OPERATOR2 : Nat := 19
def SCE_DART_NUMBER : Nat := 20
def SCE_DART_SIMPLE_IDENTIFIER : Nat := 21
def SCE_DART_IDENTIFIER : Nat := 22
def SCE_DART_METADATA : Nat := 23
def SCE_DART_SYMBOL_IDENTIFIER : Nat := 24
def SCE_DART_SYMBOL_OPERATOR : Nat := 25
def SCE_DART_WORD : Nat := 26
def SCE_DART_WORD2 : Nat := 27
def SCE_DART_CLASS : Nat := 28
def SCE_DART_ENUM : Nat := 29
def SCE_DART_KEY : Nat := 30
def SCE_DART_LABEL : Nat := 31
def SCE_DART_FUNCTION : Nat := 32
def SCE_DART_FUNCTION_DEFINITION : Nat := 33

def DartLineStateMaskLineComment : Nat := 1
def DartLineStateMaskImport : Nat := 2

/-- The `KeywordType` enumeration of the Dart lexer (`None` is the
default style; the token-style members carry their style code). -/
def KwDartNone : Nat := SCE_DART_DEFAULT

def KwDartReturn : Nat := 0x40

/-- `IsDartIdentifierStart`. -/
def IsDartIdentifierStart (c : Char) : Bool := IsIdentifierStart c || c = '$'

/-- `IsDartIdentifierChar`. -/
def IsDartIdentifierChar (c : Char) : Bool := IsIdentifierChar c || c = '$'

/-- `IsDefinableOperator` of the Dart lexer. -/
def IsDefinableOperator (c : Char) : Bool :=
  c = '+' || c = '-' || c = '*' || c = '/' || c = '%' || c = '~' || c = '&' || c = '|'
  || c = '^' || c = '<' || c = '>' || c = '=' || c = '[' || c = ']'

/-- `IsSpaceEquiv` of the Dart lexer. -/
def dartIsSpaceEquiv (state : Nat) : Bool := state ≤ SCE_DART_TASKMARKER

/-- `IsTripleString` of the Dart lexer. -/
def dartIsTripleString (state : Nat) : Bool := 1 < (state - SCE_DART_STRING_SQ) &&& 3

/-- `GetStringQuote` of the Dart lexer (the single-quote styles are the
odd ones here). -/
def dartGetStringQuote (state : Nat) : Char := if state &&& 1 = 1 then '\'' else '"'

/-- `StyleContext::MatchNext()`: the next two characters repeat the
current one (triple-quote detection); modelled from the spec (§4.1). -/
def dartMatchNext (doc : Doc) (i : Nat) : Bool :=
  charAt doc (i + 1) = charAt doc i && charAt doc (i + 2) = charAt doc i

/-- Modelled from the spec: `IsDecimalNumber` of the shared character
tables (not under `src/`) — a number token continues over identifier
characters, a decimal point not starting a range, and a sign following
an exponent prefix. -/
def IsDecimalNumber (chPrev ch chNext : Char) : Bool :=
  IsIdentifierChar ch || (ch = '.' && chNext ≠ '.')
  || ((ch = '+' || ch = '-') && (chPrev = 'e' || chPrev = 'E' || chPrev = 'p' || chPrev = 'P'))

/-- Modelled from the spec (§48): `IsJumpLabelPrevChar` — a label may
follow a statement end, a block delimiter or the start of text. -/
def IsJumpLabelPrevChar (c : Char) : Bool :=
  c = NUL || c = ';' || c = '{' || c = '}'

/-- Modelled from the spec: `LookbackNonWhite` of the lexer utilities
(not under `src/`) — walking back from the position before the slice,
the last character whose committed style is above the given
space-equivalent ceiling; NUL when every earlier position (the walk
stops before position 0, as in the utility) is space-equivalent. -/
def LookbackNonWhite (doc : Doc) (styles : List Nat) (maxSpaceStyle : Nat) :
    Nat → Char
  | 0 => NUL
  | back + 1 =>
    if maxSpaceStyle < styles.getD (back + 1) 0 then charAt doc (back + 1)
    else LookbackNonWhite doc styles maxSpaceStyle back

/-- Modelled from the spec and the in-src layout comment (`3: nestedState
count`, `3*4: nestedState`): the nested interpolation stack packed as a
3-bit depth and up to four 3-bit entries, each offset from the
nested-state base style, bottom of the stack in the low bits. -/
def dartPackNested (ns : List Nat) : Nat :=
  (min ns.length 4)
  ||| ((ns.take 4).foldr
      (fun st acc => (acc <<< 3) ||| ((st - DefaultNestedStateBaseStyle) &&& 7)) 0) <<< 3

/-- Modelled from the spec: the inverse decode (`UnpackLineState`). -/
def dartUnpackNested (w : Nat) : List Nat :=
  (List.range (w &&& 7)).map
    (fun i => DefaultNestedStateBaseStyle + ((w >>> (3 + 3 * i)) &&& 7))

/-- The four word lists of the Dart lexer. -/
structure DartKeywords where
  kw0 : List String
  kw1 : List String
  kw2 : List String
  kw3 : List String

/-- The transient per-pass state of `ColouriseDartDoc`, with the Line
State Words it commits per line. -/
structure DartState where
  sc : Sc
  lineStateLineType : Nat
  commentLevel : Int
  kwType : Nat
  chBeforeIdentifier : Char
  nestedState : List Nat
  visibleChars : Nat
  chBefore : Char
  visibleCharsBefore : Nat
  chPrevNonWhite : Char
  escSeq : DartEscSeq
  lineStates : List Nat
  deriving Repr, DecidableEq

/-- The token text of the current run under the Dart lexer's bounded
keyword buffer (`MaxKeywordSize` 20, so 19 characters). -/
def dartCurrent (doc : Doc) (sc : Sc) : String :=
  String.mk (((doc.drop sc.tstart).take (sc.pos - sc.tstart)).take 19)

/-- The identifier cases (`SCE_DART_SIMPLE_IDENTIFIER` /
`SCE_DART_IDENTIFIER` / `SCE_DART_METADATA` /
`SCE_DART_SYMBOL_IDENTIFIER`) of the `ColouriseDartDoc` switch; the flag
mirrors `continue`. -/
def dartCaseIdentifier (kw : DartKeywords) (doc : Doc) (e : Nat) (m : DartState) :
    DartState × Bool :=
  let ch := charAt doc m.sc.pos
  if !IsDartIdentifierChar ch || (ch = '$' && m.sc.state = SCE_DART_SIMPLE_IDENTIFIER) then
    if m.sc.state = SCE_DART_METADATA ∨ m.sc.state = SCE_DART_SYMBOL_IDENTIFIER then
      if ch = '.' then
        let st := m.sc.state
        ({ m with sc := scForwardSetState e st (scSetState e SCE_DART_OPERATOR m.sc) }, true)
      else ({ m with sc := scSetState e SCE_DART_DEFAULT m.sc }, false)
    else
      let s := dartCurrent doc m.sc
      let st := m.sc.state
      let m1 :=
        if inList kw.kw0 s then
          let mw := { m with sc := scChangeState SCE_DART_WORD m.sc }
          let mw :=
            if st = SCE_DART_SIMPLE_IDENTIFIER then { mw with kwType := KwDartNone }
            else if s = "import" ∨ s = "part" then
              (if mw.visibleChars = mw.sc.pos - mw.sc.tstart then
                { mw with lineStateLineType := DartLineStateMaskImport }
              else mw)
            else if s = "class" ∨ s = "extends" ∨ s = "implements" ∨ s = "new"
                ∨ s = "throw" ∨ s = "with" ∨ s = "as" ∨ s = "is" ∨ s = "on" then
              { mw with kwType := SCE_DART_CLASS }
            else if s = "enum" then { mw with kwType := SCE_DART_ENUM }
            else if s = "break" ∨ s = "continue" then { mw with kwType := SCE_DART_LABEL }
            else if s = "return" ∨ s = "await" ∨ s = "yield" then
              { mw with kwType := KwDartReturn }
            else mw
          if 0 < mw.kwType ∧ mw.kwType < KwDartReturn then
            (if !IsDartIdentifierStart (getLineNextChar doc mw.sc.pos) then
              { mw with kwType := KwDartNone }
            else mw)
          else mw
        else if inList kw.kw1 s then { m with sc := scChangeState SCE_DART_WORD2 m.sc }
        else if inList kw.kw2 s then { m with sc := scChangeState SCE_DART_CLASS m.sc }
        else if inList kw.kw3 s then { m with sc := scChangeState SCE_DART_ENUM m.sc }
        else if st = SCE_DART_IDENTIFIER ∧ ch = ':' then
          (if m.chBefore = ',' ∨ m.chBefore = '{' ∨ m.chBefore = '(' then
            { m with sc := scChangeState SCE_DART_KEY m.sc }
          else if IsJumpLabelPrevChar m.chBefore then
            { m with sc := scChangeState SCE_DART_LABEL m.sc }
          else m)
        else if st = SCE_DART_IDENTIFIER ∧ ch ≠ '.' then
          if 0 < m.kwType ∧ m.kwType < KwDartReturn then
            { m with sc := scChangeState m.kwType m.sc }
          else
            let chNext := getLineNextChar doc (m.sc.pos + (if ch = '?' then 1 else 0))
            if chNext = '(' then
              (if m.kwType ≠ KwDartReturn
                  ∧ (IsDartIdentifierChar m.chBefore ∨ m.chBefore = ']') then
                { m with sc := scChangeState SCE_DART_FUNCTION_DEFINITION m.sc }
              else { m with sc := scChangeState SCE_DART_FUNCTION m.sc })
            else if (m.chBeforeIdentifier = '<' ∧ (chNext = '>' ∨ chNext = '<'))
                ∨ IsDartIdentifierStart chNext then
              { m with sc := scChangeState SCE_DART_CLASS m.sc }
            else m
        else m
      let m2 :=
        if m1.sc.state ≠ SCE_DART_WORD ∧ ch ≠ '.' then { m1 with kwType := KwDartNone }
        else m1
      if st = SCE_DART_SIMPLE_IDENTIFIER then
        ({ m2 with sc := scSetState e m2.escSeq.outerState m2.sc }, true)
      else ({ m2 with sc := scSetState e SCE_DART_DEFAULT m2.sc }, false)
  else (m, false)

/-- `case SCE_DART_COMMENTBLOCK(DOC)` of the `ColouriseDartDoc` switch
(the task-marker highlighting relabels upper-case comment text only and
is the identity on the documents considered here). -/
def dartCaseCommentBlock (doc : Doc) (e : Nat) (m : DartState) : DartState :=
  if scMatch2 doc m.sc.pos '*' '/' then
    let m1 := { m with
      sc := scForward m.sc
      commentLevel := m.commentLevel - 1 }
    if m1.commentLevel = 0 then
      { m1 with sc := scForwardSetState e SCE_DART_DEFAULT m1.sc }
    else m1
  else if scMatch2 doc m.sc.pos '/' '*' then
    { m with
      sc := scForward m.sc
      commentLevel := m.commentLevel + 1 }
  else m

/-- The eight string cases of the `ColouriseDartDoc` switch; the flag
mirrors `continue`. -/
def dartCaseString (doc : Doc) (e : Nat) (m : DartState) : DartState × Bool :=
  let st := m.sc.state
  let ch := charAt doc m.sc.pos
  let chN := charAt doc (m.sc.pos + 1)
  if atLineStart doc m.sc.pos ∧ !dartIsTripleString st then
    ({ m with sc := scSetState e SCE_DART_DEFAULT m.sc }, false)
  else if ch = '\\' ∧ st < SCE_DART_RAWSTRING_SQ then
    let r := dartResetEscapeState m.escSeq st chN
    (if r.2 then
      let m1 := { m with
        escSeq := r.1
        sc := scForward (scSetState e SCE_DART_ESCAPECHAR m.sc) }
      if scMatch2 doc m1.sc.pos 'u' '{' then
        { m1 with
            escSeq := { m1.escSeq with brace := true, digitsLeft := 7 }
            sc := scForward m1.sc }
      else m1
    else { m with escSeq := r.1 }, false)
  else if ch = '$' ∧ st < SCE_DART_RAWSTRING_SQ then
    let m1 := { m with
      escSeq := { m.escSeq with outerState := st }
      sc := scForward (scSetState e SCE_DART_OPERATOR2 m.sc) }
    let ch2 := charAt doc m1.sc.pos
    if ch2 = '{' then
      ({ m1 with nestedState := m1.nestedState ++ [m1.escSeq.outerState] }, false)
    else if ch2 ≠ '$' ∧ IsDartIdentifierStart ch2 then
      ({ m1 with sc := scSetState e SCE_DART_SIMPLE_IDENTIFIER m1.sc }, false)
    else ({ m1 with sc := scSetState e m1.escSeq.outerState m1.sc }, true)
  else if ch = dartGetStringQuote st ∧ (!dartIsTripleString st ∨ dartMatchNext doc m.sc.pos) then
    let m1 := if dartIsTripleString st then { m with sc := scAdvance 2 m.sc } else m
    let m2 := { m1 with sc := scForward m1.sc }
    let m3 :=
      if st ≤ SCE_DART_STRING_DQ ∧ (m2.chBefore = ',' ∨ m2.chBefore = '{') then
        (if getLineNextChar doc m2.sc.pos = ':' then
          { m2 with sc := scChangeState SCE_DART_KEY m2.sc }
        else m2)
      else m2
    ({ m3 with sc := scSetState e SCE_DART_DEFAULT m3.sc }, false)
  else (m, false)

/-- `case SCE_DART_ESCAPECHAR` of the `ColouriseDartDoc` switch. -/
def dartCaseEscapeChar (doc : Doc) (e : Nat) (m : DartState) : DartState × Bool :=
  let r := dartAtEscapeEnd m.escSeq (charAt doc m.sc.pos)
  let m1 := { m with escSeq := r.1 }
  if r.2 then
    let m2 :=
      if m1.escSeq.brace ∧ charAt doc m1.sc.pos = '}' then { m1 with sc := scForward m1.sc }
      else m1
    ({ m2 with sc := scSetState e m2.escSeq.outerState m2.sc }, true)
  else (m1, false)

/-- The `switch (sc.state)` part of the `ColouriseDartDoc` loop body
(the task-marker scanning of the comment cases relabels upper-case
comment text only and is the identity on the documents considered
here). -/
def dartSwitch (kw : DartKeywords) (doc : Doc) (e : Nat) (m : DartState) :
    DartState × Bool :=
  if m.sc.state = SCE_DART_OPERATOR ∨ m.sc.state = SCE_DART_OPERATOR2 then
    ({ m with sc := scSetState e SCE_DART_DEFAULT m.sc }, false)
  else if m.sc.state = SCE_DART_NUMBER then
    (if !IsDecimalNumber (charBefore doc m.sc.pos) (charAt doc m.sc.pos)
        (charAt doc (m.sc.pos + 1)) then
      { m with sc := scSetState e SCE_DART_DEFAULT m.sc }
    else m, false)
  else if m.sc.state = SCE_DART_SIMPLE_IDENTIFIER ∨ m.sc.state = SCE_DART_IDENTIFIER
      ∨ m.sc.state = SCE_DART_METADATA ∨ m.sc.state = SCE_DART_SYMBOL_IDENTIFIER then
    dartCaseIdentifier kw doc e m
  else if m.sc.state = SCE_DART_SYMBOL_OPERATOR then
    (if !IsDefinableOperator (charAt doc m.sc.pos) then
      { m with sc := scSetState e SCE_DART_DEFAULT m.sc }
    else m, false)
  else if m.sc.state = SCE_DART_COMMENTLINE ∨ m.sc.state = SCE_DART_COMMENTLINEDOC then
    (if atLineStart doc m.sc.pos then { m with sc := scSetState e SCE_DART_DEFAULT m.sc }
    else m, false)
  else if m.sc.state = SCE_DART_COMMENTBLOCK ∨ m.sc.state = SCE_DART_COMMENTBLOCKDOC then
    (dartCaseCommentBlock doc e m, false)
  else if SCE_DART_STRING_SQ ≤ m.sc.state ∧ m.sc.state ≤ SCE_DART_TRIPLE_RAWSTRING_DQ then
    dartCaseString doc e m
  else if m.sc.state = SCE_DART_ESCAPECHAR then dartCaseEscapeChar doc e m
  else (m, false)

/-- The `if (sc.state == SCE_DART_DEFAULT)` token-start block of the
`ColouriseDartDoc` loop body; the flag mirrors `continue`. -/
def dartEntry (doc : Doc) (e : Nat) (m : DartState) : DartState × Bool :=
  let ch := charAt doc m.sc.pos
  let chN := charAt doc (m.sc.pos + 1)
  if ch = '/' ∧ (chN = '/' ∨ chN = '*') then
    let m1 := { m with
      visibleCharsBefore := m.visibleChars
      sc := scAdvance 2 (scSetState e
        (if chN = '/' then SCE_DART_COMMENTLINE else SCE_DART_COMMENTBLOCK) m.sc) }
    let m2 :=
      if charAt doc m1.sc.pos = chN ∧ charAt doc (m1.sc.pos + 1) ≠ chN then
        { m1 with
            sc := scChangeState
              (m1.sc.state + (SCE_DART_COMMENTLINEDOC - SCE_DART_COMMENTLINE)) m1.sc }
      else m1
    let m3 :=
      if chN = '/' then
        (if m2.visibleChars = 0 then
          { m2 with lineStateLineType := DartLineStateMaskLineComment }
        else m2)
      else { m2 with commentLevel := 1 }
    (m3, true)
  else if ch = 'r' ∧ (chN = '\'' ∨ chN = '"') then
    let m1 := { m with
      sc := scForward (scSetState e
        (if chN = '\'' then SCE_DART_RAWSTRING_SQ else SCE_DART_RAWSTRING_DQ) m.sc) }
    (if dartMatchNext doc m1.sc.pos then
      { m1 with
          sc := scAdvance 2 (scChangeState
            (m1.sc.state + (SCE_DART_TRIPLE_RAWSTRING_SQ - SCE_DART_RAWSTRING_SQ)) m1.sc) }
    else m1, false)
  else if ch = '\'' ∨ ch = '"' then
    let m1 := { m with
      chBefore := m.chPrevNonWhite
      sc := scSetState e (if ch = '\'' then SCE_DART_STRING_SQ else SCE_DART_STRING_DQ) m.sc }
    (if dartMatchNext doc m1.sc.pos then
      { m1 with
          sc := scAdvance 2 (scChangeState
            (m1.sc.state + (SCE_DART_TRIPLE_STRING_DQ - SCE_DART_STRING_DQ)) m1.sc) }
    else m1, false)
  else if IsNumberStart ch chN then
    ({ m with sc := scSetState e SCE_DART_NUMBER m.sc }, false)
  else if (ch = '@' ∨ ch = '#') ∧ IsDartIdentifierStart chN then
    ({ m with
        sc := scSetState e
          (if ch = '@' then SCE_DART_METADATA else SCE_DART_SYMBOL_IDENTIFIER) m.sc }, false)
  else if IsDartIdentifierStart ch then
    let m1 := { m with chBefore := m.chPrevNonWhite }
    let m2 :=
      if m1.chPrevNonWhite ≠ '.' then { m1 with chBeforeIdentifier := m1.chPrevNonWhite }
      else m1
    ({ m2 with sc := scSetState e SCE_DART_IDENTIFIER m2.sc }, false)
  else if ch = '#' ∧ IsDefinableOperator chN then
    ({ m with sc := scSetState e SCE_DART_SYMBOL_OPERATOR m.sc }, false)
  else if IsAGraphic ch then
    let m1 := { m with sc := scSetState e SCE_DART_OPERATOR m.sc }
    if m1.nestedState ≠ [] then
      let m2 := { m1 with sc := scChangeState SCE_DART_OPERATOR2 m1.sc }
      if ch = '{' then
        ({ m2 with nestedState := m2.nestedState ++ [SCE_DART_DEFAULT] }, false)
      else if ch = '}' then
        let outer := m2.nestedState.getLastD SCE_DART_DEFAULT
        ({ m2 with
            nestedState := m2.nestedState.dropLast
            sc := scForwardSetState e outer m2.sc }, true)
      else (m2, false)
    else (m1, false)
  else (m, false)

/-- The bookkeeping tail of the `ColouriseDartDoc` loop body: visible
characters, the previous non-white character, the Line State Word
written at each line end, and the final `sc.Forward()`. -/
def dartFinish (doc : Doc) (m : DartState) : DartState :=
  let ch := charAt doc m.sc.pos
  let m1 :=
    if !isspacechar ch then
      let mv := { m with visibleChars := m.visibleChars + 1 }
      if !dartIsSpaceEquiv mv.sc.state then { mv with chPrevNonWhite := ch } else mv
    else m
  let m2 :=
    if atLineEnd doc m1.sc.pos then
      { m1 with
          lineStates := m1.lineStates
            ++ [dartPackLineState m1.commentLevel.toNat m1.lineStateLineType
                (if m1.nestedState ≠ [] then dartPackNested m1.nestedState else 0)]
          lineStateLineType := 0
          visibleChars := 0
          visibleCharsBefore := 0
          kwType := KwDartNone }
    else m1
  { m2 with sc := scForward m2.sc }

/-- One iteration of the `while (sc.More())` loop of `ColouriseDartDoc`
(`continue` skips the rest of the body). -/
def dartIter (kw : DartKeywords) (doc : Doc) (e : Nat) (m : DartState) : DartState :=
  let r := dartSwitch kw doc e m
  if r.2 then r.1
  else
    let r2 := if r.1.sc.state = SCE_DART_DEFAULT then dartEntry doc e r.1 else (r.1, false)
    if r2.2 then r2.1 else dartFinish doc r2.1

/-- The `ColouriseDartDoc` loop, fuel-indexed. -/
def dartRun (kw : DartKeywords) (doc : Doc) (e : Nat) : Nat → DartState → DartState
  | 0, m => m
  | fuel + 1, m =>
    if m.sc.pos < e then dartRun kw doc e fuel (dartIter kw doc e m) else m

/-- `ColouriseDartDoc(startPos, lengthDoc, initStyle, keywordLists,
styler)`; `prevLineState` is the Line State Word the accessor holds for
the line before `startPos`, and `prevStyles` the styles it holds below
`startPos` (read by the resume decode and the non-white lookback). -/
def ColouriseDartDoc (kw : DartKeywords) (doc : Doc)
    (startPos len initStyle prevLineState : Nat) (prevStyles : List Nat) : DartState :=
  let e := startPos + len
  let m0 : DartState := {
    sc := { pos := startPos, state := initStyle, tstart := startPos,
            styles := [], runs := [] }
    lineStateLineType := 0, commentLevel := 0, kwType := KwDartNone
    chBeforeIdentifier := NUL, nestedState := [], visibleChars := 0, chBefore := NUL
    visibleCharsBefore := 0, chPrevNonWhite := NUL
    escSeq := { outerState := SCE_DART_DEFAULT, digitsLeft := 0, brace := false }
    lineStates := [] }
  let m1 :=
    if 0 < lineOf doc startPos then
      let m2 := { m0 with commentLevel := (dartUnpackCommentLevel prevLineState : Int) }
      if prevLineState >>> 8 ≠ 0 then
        { m2 with nestedState := dartUnpackNested (prevLineState >>> 8) }
      else m2
    else m0
  let m3 :=
    if startPos = 0 then
      (if scMatch2 doc 0 '#' '!' then
        { m1 with
            sc := scForward (scSetState e SCE_DART_COMMENTLINE m1.sc)
            lineStateLineType := DartLineStateMaskLineComment }
      else m1)
    else if dartIsSpaceEquiv initStyle then
      { m1 with
          chPrevNonWhite :=
            LookbackNonWhite doc prevStyles SCE_DART_TASKMARKER (startPos - 1) }
    else m1
  let mf := dartRun kw doc e (lexFuel len) m3
  { mf with sc := scComplete e mf.sc }

/-! ## The F# Colourizer (`ColouriseFSharpDoc`)

Style codes: modelled from the spec (the repo's `SciLexer.h` is not
under `src/`), constrained by the comparisons the lexer makes: the
plain-closing string styles sit below the triple-quoted one
(`IsPlainString`), the interpolated variants differ from their base
styles in the parity bit (`IsInterpolatedString`), and the multi-line
styles form the block from the plain string to the interpolated
triple-quoted string plus the quotation style (`IsMultilineStyle`). -/

def SCE_FSHARP_COMMENTLINE : Nat := 2
def SCE_FSHARP_COMMENTLINEDOC : Nat := 3
def SCE_FSHARP_CHARACTER : Nat := 4
def SCE_FSHARP_STRING : Nat := 5
def SCE_FSHARP_INTERPOLATED_STRING : Nat := 6
def SCE_FSHARP_VERBATIM_STRING : Nat := 7
def SCE_FSHARP_INTERPOLATED_VERBATIM_STRING : Nat := 8
def SCE_FSHARP_TRIPLE_STRING : Nat := 9
def SCE_FSHARP_INTERPOLATED_TRIPLE_STRING : Nat := 10
def SCE_FSHARP_ESCAPECHAR : Nat := 11
def SCE_FSHARP_FORMAT_SPECIFIER : Nat := 12
def SCE_FSHARP_BACKTICK : Nat := 13
def SCE_FSHARP_QUOTATION : Nat := 14
def SCE_FSHARP_OPERATOR : Nat := 15
def SCE_FSHARP_OPERATOR2 : Nat := 16
def SCE_FSHARP_NUMBER : Nat := 17
def SCE_FSHARP_IDENTIFIER : Nat := 18
def SCE_FSHARP_PREPROCESSOR : Nat := 19
def SCE_FSHARP_KEYWORD : Nat := 20
def SCE_FSHARP_TYPE : Nat := 21
def SCE_FSHARP_ATTRIBUTE : Nat := 22

/-! Modelled from the spec: the shared Python-family Line State Word
flags (the header defining them is not under `src/`; §53 documents the
comment-line, triple-quote, close-brace, empty-line and
string-interpolation flags of this family in the low byte). -/

def PyLineStateMaskCommentLine : Nat := 1
def PyLineStateMaskTripleQuote : Nat := 2
def PyLineStateMaskCloseBrace : Nat := 4
def PyLineStateMaskEmptyLine : Nat := 8
def PyLineStateStringInterpolation : Nat := 64

/-- The backquote character (the F# lexer's double-backquote
identifiers). -/
def backquoteChar : Char := Char.ofNat 96

/-- `IsFSharpIdentifierChar`. -/
def IsFSharpIdentifierChar (c : Char) : Bool := IsIdentifierCharEx c || c = '\''

/-- `IsPercentFormatSpecifier` of the F# lexer. -/
def IsPercentFormatSpecifier (c : Char) : Bool :=
  c = 'a' || c = 'A' || c = 'b' || c = 'B' || c = 'c' || c = 'd' || c = 'e' || c = 'E'
  || c = 'f' || c = 'F' || c = 'g' || c = 'G' || c = 'i' || c = 'M' || c = 'o' || c = 'O'
  || c = 'P' || c = 's' || c = 't' || c = 'u' || c = 'x' || c = 'X'

/-- `IsPlainString` of the F# lexer: closes on a single quote. -/
def IsPlainString (state : Nat) : Bool := state < SCE_FSHARP_TRIPLE_STRING

/-- `IsVerbatimString` of the F# lexer. -/
def IsVerbatimString (state : Nat) : Bool :=
  state = SCE_FSHARP_VERBATIM_STRING || state = SCE_FSHARP_INTERPOLATED_VERBATIM_STRING

/-- `IsInterpolatedString` of the F# lexer (parity of the style code;
the interpolated styles are the even ones here). -/
def IsInterpolatedString (state : Nat) : Bool := state &&& 1 = 0

/-- `IsInvalidFormatSpecifier` of the F# lexer. -/
def IsInvalidFormatSpecifier (c : Char) : Bool :=
  c.toNat < 32 || c = '"' || c = '{' || c = '}'

/-- `IsInterpolatedStringEnd(sc)` of the F# lexer. -/
def IsInterpolatedStringEnd (doc : Doc) (pos : Nat) : Bool :=
  let ch := charAt doc pos
  let chN := charAt doc (pos + 1)
  ch = '}' || ch = ':'
  || (ch = ',' && (IsADigit chN || (chN = '-' && IsADigit (charAt doc (pos + 2)))))

/-- `IsMultilineStyle` of the F# lexer. -/
def IsMultilineStyle (style : Nat) : Bool :=
  (SCE_FSHARP_STRING ≤ style && style ≤ SCE_FSHARP_INTERPOLATED_TRIPLE_STRING)
  || style = SCE_FSHARP_QUOTATION

/-- `StyleContext::MatchNext(a, b)`: the two characters after the
current one; modelled from the spec (§4.1). -/
def scMatchNext2 (doc : Doc) (i : Nat) (a b : Char) : Bool :=
  charAt doc (i + 1) = a && charAt doc (i + 2) = b

/-- `StyleContext::Match(a, b, c)`; modelled from the spec (§4.1). -/
def scMatch3 (doc : Doc) (i : Nat) (a b c : Char) : Bool :=
  charAt doc i = a && charAt doc (i + 1) = b && charAt doc (i + 2) = c

/-- A run of one repeated delimiter character from a position
(fuel-indexed). -/
def countDelim (doc : Doc) (delim : Char) : Nat → Nat → Nat
  | _, 0 => 0
  | pos, fuel + 1 =>
    if charAt doc pos = delim then countDelim doc delim (pos + 1) fuel + 1 else 0

/-- Modelled from the spec: `GetMatchedDelimiterCount` of the lexer
utilities (not under `src/`) — the length of the run of the delimiter
character beginning at the position (the position itself counted
unconditionally, as in the utility). -/
def GetMatchedDelimiterCount (doc : Doc) (pos : Nat) (delim : Char) : Nat :=
  1 + countDelim doc delim (pos + 1) (doc.length + 1)

/-- The index after a maximal run of characters satisfying a predicate
(fuel-indexed; the scanning loops of `CheckPercentFormatSpecifier`). -/
def skipWhile (doc : Doc) (p : Char → Bool) : Nat → Nat → Nat
  | pos, 0 => pos
  | pos, fuel + 1 => if p (charAt doc pos) then skipWhile doc p (pos + 1) fuel else pos

/-- `CheckPercentFormatSpecifier(sc, styler, insideUrl)` of the F#
lexer: the length of the `%` format specifier at the position, 0 if
there is none. -/
def CheckPercentFormatSpecifier (doc : Doc) (pos : Nat) (insideUrl : Bool) : Nat :=
  let chNext := charAt doc (pos + 1)
  if chNext = '%' then 2
  else if insideUrl && IsHexDigit chNext then 0
  else if IsASpaceOrTab chNext && IsADigit (charBefore doc pos) then 0
  else
    let p1 := skipWhile doc (fun c => c = '-' || c = '+' || c = ' ' || c = '0')
      (pos + 1) (doc.length + 1)
    let p2 := if charAt doc p1 = '*' then p1 + 1
      else skipWhile doc IsADigit p1 (doc.length + 1)
    let p3 := if charAt doc p2 = '.' then
        (if charAt doc (p2 + 1) = '*' then p2 + 2
        else skipWhile doc IsADigit (p2 + 1) (doc.length + 1))
      else p2
    if IsPercentFormatSpecifier (charAt doc p3) then p3 + 1 - pos else 0

/-- Modelled from the spec: `IsInvalidUrlChar` of the shared character
tables (not under `src/`) — control and space characters and the
characters a URL may not contain. -/
def IsInvalidUrlChar (c : Char) : Bool :=
  c.toNat ≤ 32 || c = '"' || c = '<' || c = '>' || c = '\\' || c = '^'
  || c = backquoteChar || c = '{' || c = '|' || c = '}'

/-- Modelled from the spec: `IsNumberStartEx` of the shared character
tables (not under `src/`) — a number may start at a digit or at a
decimal point followed by a digit. -/
def IsNumberStartEx (chPrev ch chNext : Char) : Bool := IsNumberStart ch chNext

/-- Modelled from the spec: `GetTabIndentCount` of the lexer utilities
(not under `src/`) — a tab advances the indent count to the next
multiple of the tab width. -/
def GetTabIndentCount (indentCount : Nat) : Nat := (indentCount / 4 + 1) * 4

/-- The two word lists of the F# lexer. -/
structure FsKeywords where
  kw0 : List String
  kw1 : List String

/-- The transient per-pass state of `ColouriseFSharpDoc`, with the Line
State Words it commits per line.  An entry of `nestedState` is an
`InterpolatedStringState`: string style, parenthesis depth,
interpolator count. -/
structure FsState where
  sc : Sc
  commentLevel : Int
  visibleChars : Nat
  indentCount : Nat
  lineState : Nat
  stringInterpolatorCount : Nat
  insideUrl : Bool
  insideAttribute : Bool
  escSeq : FsEscSeq
  nestedState : List (Nat × Int × Nat)
  lineStates : List Nat
  deriving Repr, DecidableEq

/-- The token text of the current run under the F# lexer's bounded
keyword buffer (`MaxKeywordSize` 16, so 15 characters). -/
def fsCurrent (doc : Doc) (sc : Sc) : String :=
  String.mk (((doc.drop sc.tstart).take (sc.pos - sc.tstart)).take 15)

/-- `case SCE_FSHARP_IDENTIFIER` and `case SCE_FSHARP_PREPROCESSOR` of
the `ColouriseFSharpDoc` switch. -/
def fsCaseIdentifier (kw : FsKeywords) (doc : Doc) (e : Nat) (m : FsState) : FsState :=
  if !IsFSharpIdentifierChar (charAt doc m.sc.pos) then
    let m1 :=
      if m.sc.state = SCE_FSHARP_IDENTIFIER then
        let s := fsCurrent doc m.sc
        if inList kw.kw0 s then
          let mk := { m with sc := scChangeState SCE_FSHARP_KEYWORD m.sc }
          if (mk.visibleChars = 3 ∧ s = "end") ∨ (mk.visibleChars = 4 ∧ s = "done") then
            { mk with lineState := mk.lineState ||| PyLineStateMaskCloseBrace }
          else mk
        else if inList kw.kw1 s then { m with sc := scChangeState SCE_FSHARP_TYPE m.sc }
        else if m.insideAttribute then
          let cn := getLineNextChar doc m.sc.pos
          if cn = ':' ∨ cn = '(' ∨ cn = '>' then
            { m with sc := scChangeState SCE_FSHARP_ATTRIBUTE m.sc }
          else m
        else m
      else m
    { m1 with sc := scSetState e SCE_FSHARP_DEFAULT m1.sc }
  else m

/-- `case SCE_FSHARP_COMMENT` of the `ColouriseFSharpDoc` switch: the
open pair is counted before the close pair is tested, the counter moves
before the exit test, and leaving the comment at a level of zero clears
the comment-line flag when text follows on the line. -/
def fsCaseComment (doc : Doc) (e : Nat) (m : FsState) : FsState :=
  let m0 :=
    if atLineStart doc m.sc.pos then { m with lineState := PyLineStateMaskCommentLine }
    else m
  if scMatch2 doc m0.sc.pos '(' '*' then
    { m0 with
      commentLevel := m0.commentLevel + 1
      sc := scForward m0.sc }
  else if scMatch2 doc m0.sc.pos '*' ')' then
    let m1 := { m0 with
      sc := scForward m0.sc
      commentLevel := m0.commentLevel - 1 }
    if m1.commentLevel = 0 then
      let m2 := { m1 with sc := scForwardSetState e SCE_FSHARP_DEFAULT m1.sc }
      if m2.lineState = PyLineStateMaskCommentLine ∧ getLineNextChar doc m2.sc.pos ≠ NUL then
        { m2 with lineState := 0 }
      else m2
    else m1
  else m0

/-- The `%` format-specifier handling inside the string cases of
`ColouriseFSharpDoc`; the flag mirrors `continue`. -/
def fsPercent (doc : Doc) (e : Nat) (m : FsState) : FsState × Bool :=
  let st := m.sc.state
  let step1 : FsState × Bool :=
    if st = SCE_FSHARP_INTERPOLATED_TRIPLE_STRING ∧ 1 < m.stringInterpolatorCount then
      let cnt := GetMatchedDelimiterCount doc m.sc.pos '%'
      if cnt = m.stringInterpolatorCount then
        ({ m with
            insideUrl := false
            sc := scForward (scAdvance (cnt - 2)
              (scSetState e SCE_FSHARP_FORMAT_SPECIFIER m.sc)) }, false)
      else ({ m with sc := scAdvance cnt m.sc }, true)
    else (m, false)
  if step1.2 then (step1.1, true)
  else
    let m1 := step1.1
    let len := CheckPercentFormatSpecifier doc m1.sc.pos m1.insideUrl
    if len ≠ 0 ∨ m1.sc.state = SCE_FSHARP_FORMAT_SPECIFIER then
      ({ m1 with sc := scSetState e st (scAdvance len
          (scSetState e SCE_FSHARP_FORMAT_SPECIFIER m1.sc)) }, true)
    else (m1, false)

/-- The interpolation-brace handling inside the string cases of
`ColouriseFSharpDoc`; the flag mirrors `continue`. -/
def fsInterp (doc : Doc) (e : Nat) (m : FsState) : FsState × Bool :=
  let st := m.sc.state
  let ch := charAt doc m.sc.pos
  let chN := charAt doc (m.sc.pos + 1)
  if ch = '{' then
    if chN = '{' ∧ IsPlainString st then
      ({ m with
          escSeq := fsResetEscapeStateOne m.escSeq st
          sc := scForward (scSetState e SCE_FSHARP_ESCAPECHAR m.sc) }, false)
    else
      let cnt := GetMatchedDelimiterCount doc m.sc.pos '{'
      if IsPlainString st ∨ m.stringInterpolatorCount ≤ cnt then
        ({ m with
            nestedState := m.nestedState ++ [(st, (0 : Int), m.stringInterpolatorCount)]
            stringInterpolatorCount := 0
            sc := scForwardSetState e SCE_FSHARP_DEFAULT
              (scAdvance (m.stringInterpolatorCount - 1)
                (scSetState e SCE_FSHARP_OPERATOR2
                  (scAdvance (cnt - m.stringInterpolatorCount) m.sc))) }, false)
      else (m, false)
  else if ch = '}' then
    let cnt := if IsPlainString st then 1 else GetMatchedDelimiterCount doc m.sc.pos '}'
    let interpolating := m.nestedState ≠ [] ∧ m.stringInterpolatorCount ≤ cnt
    let m1 := if interpolating then { m with nestedState := m.nestedState.dropLast } else m
    if interpolating ∨ (chN ≠ '}' ∧ IsPlainString st) then
      ({ m1 with
          sc := scAdvance (cnt - m1.stringInterpolatorCount)
            (scForwardSetState e st
              (scAdvance (m1.stringInterpolatorCount - 1)
                (scSetState e SCE_FSHARP_OPERATOR2 m1.sc))) }, true)
    else if chN = '}' ∧ IsPlainString st then
      ({ m1 with
          escSeq := fsResetEscapeStateOne m1.escSeq st
          sc := scForward (scSetState e SCE_FSHARP_ESCAPECHAR m1.sc) }, false)
    else (m1, false)
  else (m, false)

/-- The string and character cases of the `ColouriseFSharpDoc` switch;
the flag mirrors `continue`. -/
def fsCaseString (doc : Doc) (e : Nat) (m : FsState) : FsState × Bool :=
  let st := m.sc.state
  let ch := charAt doc m.sc.pos
  let chN := charAt doc (m.sc.pos + 1)
  if st = SCE_FSHARP_CHARACTER ∧ atLineStart doc m.sc.pos then
    ({ m with sc := scSetState e SCE_FSHARP_DEFAULT m.sc }, false)
  else if ch = '\\' then
    (if st < SCE_FSHARP_VERBATIM_STRING ∧ !IsEOLChar chN then
      { m with
          escSeq := fsResetEscapeState m.escSeq st chN
          sc := scForward (scSetState e SCE_FSHARP_ESCAPECHAR m.sc) }
    else m, false)
  else if ch = (if st = SCE_FSHARP_CHARACTER then '\'' else '"') then
    if chN = '"' ∧ IsVerbatimString st then
      ({ m with
          escSeq := fsResetEscapeStateOne m.escSeq st
          sc := scForward (scSetState e SCE_FSHARP_ESCAPECHAR m.sc) }, false)
    else if IsPlainString st ∨ scMatchNext2 doc m.sc.pos '"' '"' then
      let m1 := if !IsPlainString st then { m with sc := scAdvance 2 m.sc } else m
      let m2 := if charAt doc (m1.sc.pos + 1) = 'B' then { m1 with sc := scForward m1.sc }
        else m1
      ({ m2 with
          stringInterpolatorCount := 0
          sc := scForwardSetState e SCE_FSHARP_DEFAULT m2.sc }, false)
    else (m, false)
  else if st ≠ SCE_FSHARP_CHARACTER then
    let a : FsState × Bool :=
      if scMatch3 doc m.sc.pos ':' '/' '/' ∧ IsLowerCase (charBefore doc m.sc.pos) then
        ({ m with insideUrl := true }, false)
      else if m.insideUrl ∧ IsInvalidUrlChar ch then ({ m with insideUrl := false }, false)
      else if ch = '%' then fsPercent doc e m
      else (m, false)
    if a.2 then (a.1, true)
    else if IsInterpolatedString a.1.sc.state then fsInterp doc e a.1
    else (a.1, false)
  else (m, false)

/-- The `switch (sc.state)` part of the `ColouriseFSharpDoc` loop
body. -/
def fsSwitch (kw : FsKeywords) (doc : Doc) (e : Nat) (m : FsState) : FsState × Bool :=
  if m.sc.state = SCE_FSHARP_OPERATOR ∨ m.sc.state = SCE_FSHARP_OPERATOR2 then
    ({ m with sc := scSetState e SCE_FSHARP_DEFAULT m.sc }, false)
  else if m.sc.state = SCE_FSHARP_NUMBER then
    (if !IsDecimalNumber (charBefore doc m.sc.pos) (charAt doc m.sc.pos)
        (charAt doc (m.sc.pos + 1)) then
      { m with sc := scSetState e SCE_FSHARP_DEFAULT m.sc }
    else m, false)
  else if m.sc.state = SCE_FSHARP_IDENTIFIER ∨ m.sc.state = SCE_FSHARP_PREPROCESSOR then
    (fsCaseIdentifier kw doc e m, false)
  else if m.sc.state = SCE_FSHARP_COMMENT then (fsCaseComment doc e m, false)
  else if m.sc.state = SCE_FSHARP_COMMENTLINE ∨ m.sc.state = SCE_FSHARP_COMMENTLINEDOC then
    (if atLineStart doc m.sc.pos then { m with sc := scSetState e SCE_FSHARP_DEFAULT m.sc }
    else m, false)
  else if m.sc.state = SCE_FSHARP_BACKTICK then
    (if scMatch2 doc m.sc.pos backquoteChar backquoteChar then
      { m with sc := scForwardSetState e SCE_FSHARP_DEFAULT (scForward m.sc) }
    else m, false)
  else if m.sc.state = SCE_FSHARP_QUOTATION then
    (if scMatch2 doc m.sc.pos '@' '>' then
      { m with sc := scForwardSetState e SCE_FSHARP_DEFAULT (scForward m.sc) }
    else m, false)
  else if SCE_FSHARP_CHARACTER ≤ m.sc.state
      ∧ m.sc.state ≤ SCE_FSHARP_INTERPOLATED_TRIPLE_STRING then
    fsCaseString doc e m
  else if m.sc.state = SCE_FSHARP_ESCAPECHAR then
    let r := fsAtEscapeEnd m.escSeq (charAt doc m.sc.pos)
    if r.2 then
      ({ m with
          escSeq := r.1
          sc := scSetState e r.1.outerState m.sc }, true)
    else ({ m with escSeq := r.1 }, false)
  else if m.sc.state = SCE_FSHARP_FORMAT_SPECIFIER then
    if IsInvalidFormatSpecifier (charAt doc m.sc.pos) then
      ({ m with sc := scSetState e m.escSeq.outerState m.sc }, true)
    else (m, false)
  else (m, false)

/-- The `$` / `@` string-opening branch of the `ColouriseFSharpDoc`
token-start block. -/
def fsDollar (doc : Doc) (e : Nat) (m : FsState) (ch : Char) : FsState :=
  let chN := charAt doc (m.sc.pos + 1)
  if ch ≠ chN ∧ (chN = '$' ∨ chN = '@') then
    let m1 := { m with sc := scForward m.sc }
    if charAt doc (m1.sc.pos + 1) = '"' then
      { m1 with
          stringInterpolatorCount := 1
          sc := scForward (scChangeState SCE_FSHARP_INTERPOLATED_VERBATIM_STRING m1.sc) }
    else m1
  else if chN = '"' then
    let m1 := { m with
      stringInterpolatorCount := if ch = '$' then 1 else 0
      sc := scForward (scChangeState
        (if ch = '$' then SCE_FSHARP_INTERPOLATED_STRING else SCE_FSHARP_VERBATIM_STRING)
        m.sc) }
    if m1.stringInterpolatorCount ≠ 0 ∧ scMatchNext2 doc m1.sc.pos '"' '"' then
      { m1 with sc := scAdvance 2 (scChangeState SCE_FSHARP_INTERPOLATED_TRIPLE_STRING m1.sc) }
    else m1
  else if chN = '$' then
    let cnt := GetMatchedDelimiterCount doc (m.sc.pos + 1) '$' + 1
    let m1 := { m with sc := scAdvance cnt m.sc }
    if scMatch3 doc m1.sc.pos '"' '"' '"' then
      { m1 with
          stringInterpolatorCount := cnt
          sc := scAdvance 2 (scChangeState SCE_FSHARP_INTERPOLATED_TRIPLE_STRING m1.sc) }
    else m1
  else m

/-- The graphic-operator branch of the `ColouriseFSharpDoc` token-start
block; the flag mirrors `continue`. -/
def fsGraphic (doc : Doc) (e : Nat) (m : FsState) : FsState × Bool :=
  let ch := charAt doc m.sc.pos
  let m1 := { m with sc := scSetState e SCE_FSHARP_OPERATOR m.sc }
  let m2 :=
    if m1.visibleChars = 0 ∧ (ch = '}' ∨ ch = ']' ∨ ch = ')') then
      { m1 with lineState := m1.lineState ||| PyLineStateMaskCloseBrace }
    else if scMatch2 doc m1.sc.pos '[' '<' then { m1 with insideAttribute := true }
    else if scMatch2 doc m1.sc.pos '>' ']' then { m1 with insideAttribute := false }
    else m1
  if m2.nestedState ≠ [] then
    let m3 := { m2 with sc := scChangeState SCE_FSHARP_OPERATOR2 m2.sc }
    let top := m3.nestedState.getLastD (SCE_FSHARP_DEFAULT, 0, 0)
    let top1 : Nat × Int × Nat :=
      if ch = '[' ∨ ch = '(' then (top.1, top.2.1 + 1, top.2.2)
      else if ch = ']' ∨ ch = ')' then (top.1, top.2.1 - 1, top.2.2)
      else top
    let m4 := { m3 with nestedState := m3.nestedState.dropLast ++ [top1] }
    if top1.2.1 ≤ 0 ∧ IsInterpolatedStringEnd doc m4.sc.pos then
      ({ m4 with
          escSeq := { m4.escSeq with outerState := top1.1 }
          stringInterpolatorCount := top1.2.2
          sc := scChangeState (if ch = '}' then top1.1 else SCE_FSHARP_FORMAT_SPECIFIER)
            m4.sc }, true)
    else (m4, false)
  else (m2, false)

/-- The `if (sc.state == SCE_FSHARP_DEFAULT)` token-start block of the
`ColouriseFSharpDoc` loop body; the flag mirrors `continue`. -/
def fsEntry (doc : Doc) (e : Nat) (m : FsState) : FsState × Bool :=
  let ch := charAt doc m.sc.pos
  let chN := charAt doc (m.sc.pos + 1)
  if scMatch2 doc m.sc.pos '(' '*' then
    let m1 := { m with sc := scForward (scSetState e SCE_FSHARP_COMMENT m.sc) }
    (if charAt doc (m1.sc.pos + 1) = ')' then
      { m1 with sc := scChangeState SCE_FSHARP_OPERATOR m1.sc }
    else
      let m2 := { m1 with commentLevel := 1 }
      if m2.visibleChars = 0 then { m2 with lineState := PyLineStateMaskCommentLine }
      else m2, false)
  else if scMatch2 doc m.sc.pos '/' '/' then
    let m1 :=
      if m.visibleChars = 0 then { m with lineState := PyLineStateMaskCommentLine } else m
    let m2 := { m1 with sc := scForward (scSetState e SCE_FSHARP_COMMENTLINE m1.sc) }
    (if charAt doc (m2.sc.pos + 1) = '/' then
      { m2 with sc := scChangeState SCE_FSHARP_COMMENTLINEDOC m2.sc }
    else m2, false)
  else if ch = '"' then
    let m1 := { m with
      insideUrl := false
      sc := scSetState e SCE_FSHARP_STRING m.sc }
    (if scMatchNext2 doc m1.sc.pos '"' '"' then
      { m1 with sc := scAdvance 2 (scChangeState SCE_FSHARP_TRIPLE_STRING m1.sc) }
    else m1, false)
  else if ch = '$' ∨ ch = '@' then
    let m1 := { m with
      insideUrl := false
      sc := scSetState e SCE_FSHARP_OPERATOR m.sc }
    (fsDollar doc e m1 ch, false)
  else if ch = '\'' then
    let state :=
      if IsEOLChar chN then SCE_FSHARP_OPERATOR
      else if chN ≠ '\\' then
        (if charAt doc (m.sc.pos + 2) ≠ '\'' then
          (if IsIdentifierStartEx chN then SCE_FSHARP_IDENTIFIER else SCE_FSHARP_OPERATOR)
        else SCE_FSHARP_CHARACTER)
      else SCE_FSHARP_CHARACTER
    ({ m with sc := scSetState e state m.sc }, false)
  else if scMatch2 doc m.sc.pos backquoteChar backquoteChar then
    ({ m with sc := scForward (scSetState e SCE_FSHARP_BACKTICK m.sc) }, false)
  else if scMatch2 doc m.sc.pos '<' '@' then
    ({ m with sc := scForward (scSetState e SCE_FSHARP_QUOTATION m.sc) }, false)
  else if IsNumberStartEx (charBefore doc m.sc.pos) ch chN then
    ({ m with sc := scSetState e SCE_FSHARP_NUMBER m.sc }, false)
  else if ch = '#' ∧ m.visibleChars = 0 then
    ({ m with sc := scSetState e SCE_FSHARP_PREPROCESSOR m.sc }, false)
  else if IsIdentifierStartEx ch then
    ({ m with sc := scSetState e SCE_FSHARP_IDENTIFIER m.sc }, false)
  else if IsAGraphic ch then fsGraphic doc e m
  else (m, false)

/-- The bookkeeping tail of the `ColouriseFSharpDoc` loop body: indent
count, visible characters, the Line State Word written at each line
end, and the final `sc.Forward()`. -/
def fsFinish (doc : Doc) (m : FsState) : FsState :=
  let ch := charAt doc m.sc.pos
  let m1 :=
    if m.visibleChars = 0 then
      (if ch = ' ' then { m with indentCount := m.indentCount + 1 }
      else if ch = '\t' then { m with indentCount := GetTabIndentCount m.indentCount }
      else m)
    else m
  let m2 := if !isspacechar ch then { m1 with visibleChars := m1.visibleChars + 1 } else m1
  let m3 :=
    if atLineEnd doc m2.sc.pos then
      let ls0 :=
        if m2.nestedState ≠ [] then
          PyLineStateStringInterpolation ||| PyLineStateMaskTripleQuote
        else if IsMultilineStyle m2.sc.state then PyLineStateMaskTripleQuote
        else if m2.lineState = 0 ∧ m2.visibleChars = 0 then PyLineStateMaskEmptyLine
        else m2.lineState
      { m2 with
          lineStates := m2.lineStates
            ++ [fsPackLineState ls0 m2.indentCount m2.commentLevel.toNat
                m2.stringInterpolatorCount]
          lineState := 0
          visibleChars := 0
          indentCount := 0
          insideUrl := false
          insideAttribute := false }
    else m2
  { m3 with sc := scForward m3.sc }

/-- One iteration of the `while (sc.More())` loop of
`ColouriseFSharpDoc` (`continue` skips the rest of the body). -/
def fsIter (kw : FsKeywords) (doc : Doc) (e : Nat) (m : FsState) : FsState :=
  let r := fsSwitch kw doc e m
  if r.2 then r.1
  else
    let r2 := if r.1.sc.state = SCE_FSHARP_DEFAULT then fsEntry doc e r.1 else (r.1, false)
    if r2.2 then r2.1 else fsFinish doc r2.1

/-- The `ColouriseFSharpDoc` loop, fuel-indexed. -/
def fsRun (kw : FsKeywords) (doc : Doc) (e : Nat) : Nat → FsState → FsState
  | 0, m => m
  | fuel + 1, m =>
    if m.sc.pos < e then fsRun kw doc e fuel (fsIter kw doc e m) else m

/-- Modelled from the spec: the line walk of `BacktrackToStart` (lexer
utilities, not under `src/`) — from the line before the current one,
walk back over lines whose committed Line State Word carries the flag,
and restart at the line after the first that does not. -/
def fsBacktrackWalk (states : List Nat) (mask : Nat) : Nat → Nat
  | 0 => if states.getD 0 0 &&& mask ≠ 0 then 0 else 1
  | l + 1 =>
    if states.getD (l + 1) 0 &&& mask ≠ 0 then fsBacktrackWalk states mask l
    else l + 2

/-- `BacktrackToStart`: the line the pass restarts at. -/
def fsBacktrackLine (states : List Nat) (mask : Nat) (currentLine : Nat) : Nat :=
  if currentLine = 0 then 0 else fsBacktrackWalk states mask (currentLine - 1)

/-- The first position of a line (the accessor's `LineStart`). -/
def lineStartPos (doc : Doc) (l : Nat) : Nat :=
  (((List.range (doc.length + 1)).filter (fun i => lineOf doc i = l)).headD doc.length)

/-- `ColouriseFSharpDoc(startPos, lengthDoc, initStyle, keywordLists,
styler)`; `prevLineStates` are the Line State Words the accessor holds
for the lines before `startPos` (one per line, in order) and
`prevStyles` the styles it holds below `startPos` (read by
`BacktrackToStart` and the resume decode). -/
def ColouriseFSharpDoc (kw : FsKeywords) (doc : Doc)
    (startPos0 len0 initStyle0 : Nat) (prevLineStates : List Nat)
    (prevStyles : List Nat) : FsState :=
  let cur := lineOf doc startPos0
  let bl :=
    if startPos0 ≠ 0 then fsBacktrackLine prevLineStates PyLineStateStringInterpolation cur
    else cur
  let startPos := if bl ≠ cur then lineStartPos doc bl else startPos0
  let len := len0 + (startPos0 - startPos)
  let initStyle :=
    if bl ≠ cur then (if startPos = 0 then 0 else prevStyles.getD (startPos - 1) 0)
    else initStyle0
  let e := startPos + len
  let m0 : FsState := {
    sc := { pos := startPos, state := initStyle, tstart := startPos,
            styles := [], runs := [] }
    commentLevel := 0, visibleChars := 0, indentCount := 0, lineState := 0
    stringInterpolatorCount := 0, insideUrl := false, insideAttribute := false
    escSeq := { outerState := SCE_FSHARP_DEFAULT, digitsLeft := 0, hex := false }
    nestedState := [], lineStates := [] }
  let m1 :=
    if 0 < lineOf doc startPos then
      let w := prevLineStates.getD (lineOf doc startPos - 1) 0
      { m0 with
          stringInterpolatorCount := (w >>> 8) &&& 0xf
          commentLevel := (fsUnpackCommentLevel w : Int) }
    else m0
  let m2 :=
    if startPos = 0 ∧ scMatch2 doc 0 '#' '!' then
      { m1 with
          lineState := PyLineStateMaskCommentLine
          sc := scForward (scSetState e SCE_FSHARP_COMMENTLINE m1.sc) }
    else m1
  let mf := fsRun kw doc e (lexFuel len) m2
  { mf with sc := scComplete e mf.sc }

/-! ## C1: the counterexample documents -/

/-- The CMake counterexample document: a variable reference spanning a
line break, then one more character. -/
def cmakeCexDoc : Doc := ['$', '{', 'a', '\n', 'b', '}', 'x']

/-- The Dart counterexample document: 65 block-comment opens, a line
break, one close pair, one identifier character. -/
def dartCexDoc : Doc := (List.replicate 65 ['/', '*']).flatten ++ ['\n', '*', '/', 'x']

/-- The F# counterexample document: 17 block-comment opens, a line
break, one close pair, one identifier character. -/
def fsCexDoc : Doc := (List.replicate 17 ['(', '*']).flatten ++ ['\n', '*', ')', 'x']

/-- C1 counterexample: of the five Colourizers the claim quantifies
over, four fail resumption at a line boundary (each second pass below
receives exactly what the engine hands a restarted pass: the style in
effect at the split and the committed Line State Word(s) and styles of
the first pass).  Asymptote: lexing `"a\nb("` in one pass styles `b`
FUNCTION_DEFINITION (the previous non-white character `a` is an
identifier character), the split passes style it FUNCTION — the
`chPrevNonWhite` lookback is not restored.  CMake: `"${a\nb}x"` in one
pass closes the variable reference at `}` and styles `x` IDENTIFIER
(position 6), but `varNestedLevel` is not part of the Line State Word
(the word from line 0 is 0), so the restarted pass resumes the nesting
at 0, the `}` moves it to −1 ≠ 0, the reference never closes, and `x`
stays VARIABLE.  Dart: after 65 block-comment opens the committed word
is 260 — the depth 65 truncated by the 6-bit field to 1 — so the
restarted pass leaves the comment at the first close pair and styles
the following `x` IDENTIFIER (position 133) where the full pass, at
depth 64, stays in COMMENTBLOCK.  F#: the same truncation through the
4-bit field at bit 12: after 17 opens the committed word is 69633,
the resumed depth is 1, and the restarted pass styles `x` (position 37)
IDENTIFIER where the full pass stays in COMMENT. -/
theorem C1_counterexample :
    ((atLineStart ("a\nb(".toList) 2 = true)
    ∧ (ColouriseAsyDoc ⟨[], [], [], []⟩ ("a\nb(".toList) 0 4 SCE_ASY_DEFAULT).sc.styles
        = [SCE_ASY_STRUCT, SCE_ASY_DEFAULT, SCE_ASY_FUNCTION_DEFINITION, SCE_ASY_OPERATOR]
    ∧ (ColouriseAsyDoc ⟨[], [], [], []⟩ ("a\nb(".toList) 0 2 SCE_ASY_DEFAULT).sc.state
        = SCE_ASY_DEFAULT
    ∧ (ColouriseAsyDoc ⟨[], [], [], []⟩ ("a\nb(".toList) 0 2 SCE_ASY_DEFAULT).sc.styles
        ++ (ColouriseAsyDoc ⟨[], [], [], []⟩ ("a\nb(".toList) 2 2 SCE_ASY_DEFAULT).sc.styles
        = [SCE_ASY_STRUCT, SCE_ASY_DEFAULT, SCE_ASY_FUNCTION, SCE_ASY_OPERATOR]
    ∧ SCE_ASY_FUNCTION ≠ SCE_ASY_FUNCTION_DEFINITION)
    ∧ ((atLineStart cmakeCexDoc 4 = true)
    ∧ (ColouriseCMakeDoc ⟨[], [], [], [], [], []⟩ cmakeCexDoc 0 7 SCE_CMAKE_DEFAULT 0).sc.styles
        = List.replicate 6 SCE_CMAKE_VARIABLE ++ [SCE_CMAKE_IDENTIFIER]
    ∧ (ColouriseCMakeDoc ⟨[], [], [], [], [], []⟩ cmakeCexDoc 0 4 SCE_CMAKE_DEFAULT 0).sc.state
        = SCE_CMAKE_VARIABLE
    ∧ (ColouriseCMakeDoc ⟨[], [], [], [], [], []⟩ cmakeCexDoc 0 4 SCE_CMAKE_DEFAULT 0).lineStates
        = [0]
    ∧ (ColouriseCMakeDoc ⟨[], [], [], [], [], []⟩ cmakeCexDoc 0 4 SCE_CMAKE_DEFAULT 0).sc.styles
        ++ (ColouriseCMakeDoc ⟨[], [], [], [], [], []⟩ cmakeCexDoc 4 3 SCE_CMAKE_VARIABLE 0).sc.styles
        = List.replicate 7 SCE_CMAKE_VARIABLE
    ∧ SCE_CMAKE_IDENTIFIER ≠ SCE_CMAKE_VARIABLE)
    ∧ ((atLineStart dartCexDoc 131 = true)
    ∧ ((ColouriseDartDoc ⟨[], [], [], []⟩ dartCexDoc 0 134 SCE_DART_DEFAULT 0 []).sc.styles.getD 133 0
        = SCE_DART_COMMENTBLOCK)
    ∧ ((ColouriseDartDoc ⟨[], [], [], []⟩ dartCexDoc 0 131 SCE_DART_DEFAULT 0 []).sc.state
        = SCE_DART_COMMENTBLOCK)
    ∧ ((ColouriseDartDoc ⟨[], [], [], []⟩ dartCexDoc 0 131 SCE_DART_DEFAULT 0 []).sc.styles.length
        = 131)
    ∧ ((ColouriseDartDoc ⟨[], [], [], []⟩ dartCexDoc 0 131 SCE_DART_DEFAULT 0 []).lineStates
        = [260])
    ∧ (((ColouriseDartDoc ⟨[], [], [], []⟩ dartCexDoc 0 131 SCE_DART_DEFAULT 0 []).sc.styles
        ++ (ColouriseDartDoc ⟨[], [], [], []⟩ dartCexDoc 131 3 SCE_DART_COMMENTBLOCK 260
            (ColouriseDartDoc ⟨[], [], [], []⟩ dartCexDoc 0 131 SCE_DART_DEFAULT 0 []).sc.styles).sc.styles).getD 133 0
        = SCE_DART_IDENTIFIER)
    ∧ SCE_DART_IDENTIFIER ≠ SCE_DART_COMMENTBLOCK)
    ∧ ((atLineStart fsCexDoc 35 = true)
    ∧ ((ColouriseFSharpDoc ⟨[], []⟩ fsCexDoc 0 38 SCE_FSHARP_DEFAULT [] []).sc.styles.getD 37 0
        = SCE_FSHARP_COMMENT)
    ∧ ((ColouriseFSharpDoc ⟨[], []⟩ fsCexDoc 0 35 SCE_FSHARP_DEFAULT [] []).sc.state
        = SCE_FSHARP_COMMENT)
    ∧ ((ColouriseFSharpDoc ⟨[], []⟩ fsCexDoc 0 35 SCE_FSHARP_DEFAULT [] []).sc.styles.length
        = 35)
    ∧ ((ColouriseFSharpDoc ⟨[], []⟩ fsCexDoc 0 35 SCE_FSHARP_DEFAULT [] []).lineStates
        = [69633])
    ∧ (((ColouriseFSharpDoc ⟨[], []⟩ fsCexDoc 0 35 SCE_FSHARP_DEFAULT [] []).sc.styles
        ++ (ColouriseFSharpDoc ⟨[], []⟩ fsCexDoc 35 3 SCE_FSHARP_COMMENT [69633]
            (ColouriseFSharpDoc ⟨[], []⟩ fsCexDoc 0 35 SCE_FSHARP_DEFAULT [] []).sc.styles).sc.styles).getD 37 0
        = SCE_FSHARP_IDENTIFIER)
    ∧ SCE_FSHARP_IDENTIFIER ≠ SCE_FSHARP_COMMENT) := by
  decide
